import Mathlib

/-!
# BSTR token: fee accrual, threshold processing and weighted distribution

A verification development for the DRVN BSTR token repository.  The repository
ships the deployment, inspection and test scripts of the `BSTRToken` contract;
the contract itself is not part of the sources, so the ledger engine below is
modelled from the design specification, while the scripts are embedded from
their JavaScript sources.
-/

namespace BSTR

/-! ## Data model of the ledger engine -/

/-- Modelled from the spec: the Fee Configuration of the absent `BSTRToken`
contract: buy-side and sell-side tax rates in basis points, each within 0..10000. -/
structure FeeConfiguration where
  buyFeeBps : Nat
  sellFeeBps : Nat
  buy_le : buyFeeBps ≤ 10000
  sell_le : sellFeeBps ≤ 10000

/-- Modelled from the spec: one entry of the Classification Registry of the
absent `BSTRToken` contract: fee-exempt and/or exchange pool. -/
structure ClassificationEntry where
  exempt : Bool
  isPool : Bool
  deriving DecidableEq

/-- Modelled from the spec: the Threshold Policy of the absent `BSTRToken`
contract: auto-processing switch, supply divisor, optional manual override
(numTokensToSwap). -/
structure ThresholdPolicy where
  autoProcessEnabled : Bool
  thresholdDivisor : Nat
  manualOverrideAmount : Option Nat
  deriving DecidableEq

/-- Modelled from the spec: one collector of the absent `BSTRToken` contract: an
address and its share weight. -/
structure Collector (A : Type) where
  address : A
  shareWeight : Nat
  deriving DecidableEq

/-- Modelled from the spec: the Pool Registry of the absent `BSTRToken` contract:
router, settlement asset and the pool derived from them. -/
structure PoolRegistry (A : Type) where
  routerAddress : A
  settlementAssetAddress : A
  poolAddress : A
  deriving DecidableEq

/-- Modelled from the spec: the error kinds of the absent `BSTRToken` contract. -/
inductive EngineError where
  | InsufficientBalance
  | SwapFailed
  | EmptyRegistry
  | WeightMismatch
  | Unauthorized
  deriving DecidableEq

/-- Modelled from the spec: the state of the `BSTRToken` contract, which is not
among the repository sources.  It gathers the Account Ledger (balances of the
ledger asset and of the settlement asset), the Fee Configuration, the
Classification Registry, the Threshold Policy, the Collector Registry, the Pool
Registry and the ProcessingLock of the data model. -/
structure Engine (A : Type) where
  ledgerAddress : A
  administrator : A
  totalSupply : Nat
  balances : A → Nat
  settlementHoldings : A → Nat
  feeConfiguration : FeeConfiguration
  classification : A → ClassificationEntry
  thresholdPolicy : ThresholdPolicy
  collectorRegistry : List (Collector A)
  poolRegistry : PoolRegistry A
  processingLock : Bool

/-- Modelled from the spec: what one processing attempt of the absent `BSTRToken`
contract did: the swap performed (amount converted and proceeds), the payouts
made, and the error kind when it stopped early. -/
structure ProcessReport (A : Type) where
  swapped : Option (Nat × Nat)
  payouts : List (A × Nat)
  failure : Option EngineError
  deriving DecidableEq

section Engine

variable {A : Type} [DecidableEq A]

/-- Modelled from the spec: a credit of the Account Ledger of the absent
`BSTRToken` contract: add `x` to the balance of `a`. -/
def credit (b : A → Nat) (a : A) (x : Nat) : A → Nat :=
  Function.update b a (b a + x)

/-- Modelled from the spec: a debit of the Account Ledger of the absent
`BSTRToken` contract: remove `x` from the balance of `a`. -/
def debit (b : A → Nat) (a : A) (x : Nat) : A → Nat :=
  Function.update b a (b a - x)

/-- Modelled from the spec: the payment of a list of payouts by the absent
`BSTRToken` contract: credit each (address, amount) in order. -/
def creditAll (b : A → Nat) : List (A × Nat) → A → Nat
  | [] => b
  | p :: ps => creditAll (credit b p.1 p.2) ps

/-- Modelled from the spec: the `balanceOf` view of the absent `BSTRToken`
contract. -/
def balanceOf (s : Engine A) (a : A) : Nat := s.balances a

/-- Modelled from the spec: the `isExcludedFromFees` view of the absent
`BSTRToken` contract: whether an address is flagged fee-exempt. -/
def isExcludedFromFees (s : Engine A) (a : A) : Bool := (s.classification a).exempt

/-- Modelled from the spec: the pool classification of the absent `BSTRToken`
contract (the flag `setIsLpPool` writes): whether an address is an exchange pool. -/
def isLpPool (s : Engine A) (a : A) : Bool := (s.classification a).isPool

/-! ### Transfer Gate (spec 4.1) -/

/-- Modelled from the spec: the tax rule of the Transfer Gate of the absent
`BSTRToken` contract.  Exempt wins; a transfer into a pool is a sell; a transfer
out of a pool is a buy; wallet-to-wallet is untaxed; integer division rounds
down. -/
def computeTax (s : Engine A) (sender recipient : A) (amount : Nat) : Nat :=
  if isExcludedFromFees s sender || isExcludedFromFees s recipient then 0
  else if isLpPool s recipient then amount * s.feeConfiguration.sellFeeBps / 10000
  else if isLpPool s sender then amount * s.feeConfiguration.buyFeeBps / 10000
  else 0

/-- Modelled from the spec: the bookkeeping step of the Transfer Gate.  It fails
with `InsufficientBalance` before the tax is computed; otherwise it debits the
sender by `amount`, credits the recipient by `amount - tax` and credits the
ledger's own balance by `tax`. -/
def accrue (s : Engine A) (sender recipient : A) (amount : Nat) :
    Except EngineError (Engine A) :=
  if s.balances sender < amount then .error .InsufficientBalance
  else
    let tax := computeTax s sender recipient amount
    let b1 := debit s.balances sender amount
    let b2 := credit b1 recipient (amount - tax)
    let b3 := credit b2 s.ledgerAddress tax
    .ok { s with balances := b3 }

/-! ### Distribution Engine (spec 4.4) -/

/-- Modelled from the spec: the total weight of the Collector Registry of the
absent `BSTRToken` contract: the sum of the share weights. -/
def totalWeight (reg : List (Collector A)) : Nat :=
  (reg.map (fun c => c.shareWeight)).sum

/-- Modelled from the spec: the floor share of one weight in the Distribution
Engine of the absent `BSTRToken` contract. -/
def floorShare (settlementAmount total w : Nat) : Nat :=
  settlementAmount * w / total

/-- Modelled from the spec: the floor shares of every collector, in registry
order, in the Distribution Engine of the absent `BSTRToken` contract. -/
def floorShares (reg : List (Collector A)) (settlementAmount : Nat) : List Nat :=
  reg.map (fun c => floorShare settlementAmount (totalWeight reg) c.shareWeight)

/-- Modelled from the spec: the rounding remainder left after the floor shares
in the Distribution Engine of the absent `BSTRToken` contract. -/
def roundingRemainder (reg : List (Collector A)) (settlementAmount : Nat) : Nat :=
  settlementAmount - (floorShares reg settlementAmount).sum

/-- Modelled from the spec: the tie-break of the Distribution Engine of the
absent `BSTRToken` contract: add `r` to the last entry of a list of amounts. -/
def addToLast (r : Nat) : List Nat → List Nat
  | [] => []
  | [x] => [x + r]
  | x :: y :: rest => x :: addToLast r (y :: rest)

/-- Modelled from the spec: the amounts paid by the Distribution Engine of the
absent `BSTRToken` contract, in registry order: floor shares, the last one
increased by the whole rounding remainder. -/
def payoutAmounts (reg : List (Collector A)) (settlementAmount : Nat) : List Nat :=
  addToLast (roundingRemainder reg settlementAmount) (floorShares reg settlementAmount)

/-- Modelled from the spec: `distribute` of the Distribution Engine of the absent
`BSTRToken` contract.  It fails with `EmptyRegistry` when there is no collector;
otherwise it returns the per-collector payouts in registry order. -/
def distribute (reg : List (Collector A)) (settlementAmount : Nat) :
    Except EngineError (List (A × Nat)) :=
  match reg with
  | [] => .error .EmptyRegistry
  | _ :: _ => .ok ((reg.map (fun c => c.address)).zip (payoutAmounts reg settlementAmount))

/-! ### Threshold Monitor, Swap Adapter and the processing cycle (spec 4.2, 4.3) -/

/-- Modelled from the spec: the effective threshold of the Threshold Monitor:
the manual override when it is set, else the supply divided by the divisor. -/
def effectiveThreshold (s : Engine A) : Nat :=
  match s.thresholdPolicy.manualOverrideAmount with
  | some m => m
  | none => s.totalSupply / s.thresholdPolicy.thresholdDivisor

/-- Modelled from the spec: `shouldProcess` of the Threshold Monitor. -/
def shouldProcess (s : Engine A) (transferExempt : Bool) : Bool :=
  s.thresholdPolicy.autoProcessEnabled && !s.processingLock && !transferExempt
    && decide (effectiveThreshold s ≤ s.balances s.ledgerAddress)

/-- Modelled from the spec: `convert` of the Swap Adapter.  The ledger's own
balance is debited by exactly `amount` (handed to the pool) before the external
pool is invoked; `poolResponse` is the answer of the external pool (`none` when
it reverts, for instance when unfunded); proceeds below `minOut` are
`SwapFailed`. -/
def convert (s : Engine A) (amount minOut : Nat) (poolResponse : Option Nat) :
    Except EngineError (Engine A × Nat) :=
  if s.balances s.ledgerAddress < amount then .error .InsufficientBalance
  else
    let b1 := debit s.balances s.ledgerAddress amount
    let b2 := credit b1 s.poolRegistry.poolAddress amount
    match poolResponse with
    | none => .error .SwapFailed
    | some out => if out < minOut then .error .SwapFailed else .ok ({ s with balances := b2 }, out)

/-- Modelled from the spec: the report of a processing attempt of the absent
`BSTRToken` contract that did nothing. -/
def ProcessReport.idle : ProcessReport A :=
  { swapped := none, payouts := [], failure := none }

/-- Modelled from the spec: the distribution step of a processing cycle, run on
the state left by a successful swap.  With an empty registry the proceeds stay
in the ledger's own settlement holdings.  The lock is released at the end. -/
def settle (s1 : Engine A) (amount out : Nat) : Engine A × ProcessReport A :=
  match distribute s1.collectorRegistry out with
  | .error e =>
    ({ s1 with settlementHoldings := credit s1.settlementHoldings s1.ledgerAddress out,
               processingLock := false },
      { swapped := some (amount, out), payouts := [], failure := some e })
  | .ok ps =>
    ({ s1 with settlementHoldings := creditAll s1.settlementHoldings ps,
               processingLock := false },
      { swapped := some (amount, out), payouts := ps, failure := none })

/-- Modelled from the spec: one processing cycle (lock, swap, distribute,
unlock).  A trigger while the lock is held does nothing.  A failed swap leaves
the state as it was, lock released. -/
def runCycle (s : Engine A) (amount minOut : Nat) (poolResponse : Option Nat) :
    Engine A × ProcessReport A :=
  if s.processingLock then (s, ProcessReport.idle)
  else
    match convert { s with processingLock := true } amount minOut poolResponse with
    | .error e => ({ s with processingLock := false },
        { swapped := none, payouts := [], failure := some e })
    | .ok (s1, out) => settle s1 amount out

/-- Modelled from the spec: `process` of the Threshold Monitor on an automatic
trigger: the full self-balance is converted, accepting any proceeds. -/
def process (s : Engine A) (poolResponse : Option Nat) : Engine A × ProcessReport A :=
  runCycle s (s.balances s.ledgerAddress) 0 poolResponse

/-- Modelled from the spec: the manual processing path of the absent `BSTRToken`
contract (`processFees(amount, minAmountOut)`): administrator only, explicit
amount not exceeding the self-balance, same lock/swap/distribute sequence. -/
def processFees (s : Engine A) (caller : A) (amount minOut : Nat)
    (poolResponse : Option Nat) : Except EngineError (Engine A × ProcessReport A) :=
  if caller ≠ s.administrator then .error .Unauthorized
  else if s.processingLock then .ok (s, ProcessReport.idle)
  else if s.balances s.ledgerAddress < amount then .error .InsufficientBalance
  else .ok (runCycle s amount minOut poolResponse)

/-- Modelled from the spec: the whole Transfer Gate of the absent `BSTRToken`
contract: the bookkeeping step, then, only when the recipient is a pool (a
sell), the Threshold Monitor, which runs a processing cycle when armed. -/
def transfer (s : Engine A) (sender recipient : A) (amount : Nat)
    (poolResponse : Option Nat) : Except EngineError (Engine A × ProcessReport A) :=
  match accrue s sender recipient amount with
  | .error e => .error e
  | .ok s1 =>
    let transferExempt := isExcludedFromFees s sender || isExcludedFromFees s recipient
    if isLpPool s recipient && shouldProcess s1 transferExempt then .ok (process s1 poolResponse)
    else .ok (s1, ProcessReport.idle)

/-! ### Administrative surface and manual distribution -/

/-- Modelled from the spec: the getter `swapRouter()` of the absent `BSTRToken`
contract: the router of the Pool Registry. -/
def swapRouter (s : Engine A) : A := s.poolRegistry.routerAddress

/-- Modelled from the spec: the getter `swapPair()` of the absent `BSTRToken`
contract: the pool address of the Pool Registry. -/
def swapPair (s : Engine A) : A := s.poolRegistry.poolAddress

/-- Modelled from the spec: `setSwapRouter` (router migration) of the absent
`BSTRToken` contract: administrator only; the pool address is recomputed from
the new router, the ledger asset and the settlement asset, and the Pool Registry
is replaced as a whole.  `derivePool` is the pair lookup of the external
exchange.  The classification of the old pool is left as it is. -/
def setSwapRouter (derivePool : A → A → A → A) (s : Engine A) (caller newRouter : A) :
    Except EngineError (Engine A) :=
  if caller ≠ s.administrator then .error .Unauthorized
  else
    .ok { s with
      poolRegistry :=
        { routerAddress := newRouter
          settlementAssetAddress := s.poolRegistry.settlementAssetAddress
          poolAddress :=
            derivePool newRouter s.ledgerAddress s.poolRegistry.settlementAssetAddress } }

/-- The Pool Registry invariant: the stored pool is the one derived from the
stored router. -/
def PoolConsistent (derivePool : A → A → A → A) (s : Engine A) : Prop :=
  s.poolRegistry.poolAddress
    = derivePool s.poolRegistry.routerAddress s.ledgerAddress s.poolRegistry.settlementAssetAddress

/-- Modelled from the spec: the getter `numTokensToSwap()` of the absent
`BSTRToken` contract: the manual override amount, zero when none is set. -/
def numTokensToSwap (s : Engine A) : Nat := s.thresholdPolicy.manualOverrideAmount.getD 0

/-- Modelled from the spec: `setNumTokensToSwap` of the absent `BSTRToken`
contract (set manual override threshold): administrator only. -/
def setNumTokensToSwap (s : Engine A) (caller : A) (x : Nat) : Except EngineError (Engine A) :=
  if caller ≠ s.administrator then .error .Unauthorized
  else
    .ok { s with
      thresholdPolicy :=
        { autoProcessEnabled := s.thresholdPolicy.autoProcessEnabled
          thresholdDivisor := s.thresholdPolicy.thresholdDivisor
          manualOverrideAmount := some x } }

/-- Modelled from the spec: `distributeFees(amount, inToken)` of the absent
`BSTRToken` contract: the Distribution Engine run by the administrator on an
amount the ledger holds itself, either of the ledger asset (`inToken`) or of the
settlement asset.  The amount is debited from the ledger's own holdings and the
payouts are credited to the collectors; with an empty registry nothing moves. -/
def distributeFees (s : Engine A) (caller : A) (amount : Nat) (inToken : Bool) :
    Except EngineError (Engine A) :=
  if caller ≠ s.administrator then .error .Unauthorized
  else if inToken then
    if s.balances s.ledgerAddress < amount then .error .InsufficientBalance
    else
      match distribute s.collectorRegistry amount with
      | .error e => .error e
      | .ok ps => .ok { s with balances := creditAll (debit s.balances s.ledgerAddress amount) ps }
  else
    if s.settlementHoldings s.ledgerAddress < amount then .error .InsufficientBalance
    else
      match distribute s.collectorRegistry amount with
      | .error e => .error e
      | .ok ps =>
        .ok { s with
          settlementHoldings := creditAll (debit s.settlementHoldings s.ledgerAddress amount) ps }

/-! ### Sequences of operations -/

/-- One transfer request together with the answer the external pool gives if
the transfer sets off a conversion. -/
structure TransferStep (A : Type) where
  sender : A
  recipient : A
  amount : Nat
  poolResponse : Option Nat

/-- One step of a sequence of transfers: a rejected transfer mutates nothing. -/
def applyStep (s : Engine A) (t : TransferStep A) : Engine A :=
  match transfer s t.sender t.recipient t.amount t.poolResponse with
  | .ok (s1, _) => s1
  | .error _ => s

/-- The states reached after each step of a sequence of transfers. -/
def statesAfter (s : Engine A) : List (TransferStep A) → List (Engine A)
  | [] => []
  | t :: ts => applyStep s t :: statesAfter (applyStep s t) ts

/-- One call into the engine. -/
inductive Operation (A : Type) where
  | transfer (step : TransferStep A)
  | processFees (caller : A) (amount minOut : Nat) (poolResponse : Option Nat)
  | distributeFees (caller : A) (amount : Nat) (inToken : Bool)
  | setNumTokensToSwap (caller : A) (x : Nat)
  | setSwapRouter (caller newRouter : A)

/-- Run one call; a rejected call mutates nothing. -/
def applyOperation (derivePool : A → A → A → A) (s : Engine A) : Operation A → Engine A
  | .transfer step => applyStep s step
  | .processFees caller amount minOut poolResponse =>
    match processFees s caller amount minOut poolResponse with
    | .ok (s1, _) => s1
    | .error _ => s
  | .distributeFees caller amount inToken =>
    match distributeFees s caller amount inToken with
    | .ok s1 => s1
    | .error _ => s
  | .setNumTokensToSwap caller x =>
    match setNumTokensToSwap s caller x with
    | .ok s1 => s1
    | .error _ => s
  | .setSwapRouter caller newRouter =>
    match setSwapRouter derivePool s caller newRouter with
    | .ok s1 => s1
    | .error _ => s

/-- The state reached after a sequence of calls. -/
def runOperations (derivePool : A → A → A → A) (s : Engine A) : List (Operation A) → Engine A
  | [] => s
  | op :: ops => runOperations derivePool (applyOperation derivePool s op) ops

end Engine

section Conservation

variable {A : Type} [Fintype A]

/-- Sum of all balances of the ledger asset. -/
def sumBalances (b : A → Nat) : Nat := ∑ a, b a

/-- Conservation: the balances of the ledger asset add up to the total supply. -/
def Conserved (s : Engine A) : Prop := sumBalances s.balances = s.totalSupply

end Conservation

/-! ### Sample states -/

/-- A small engine over six addresses: 0 the zero address, 1 the ledger itself,
2 the administrator, 3 the pool, 4 a trader, 5 the only collector. -/
def sampleEngine : Engine (Fin 6) :=
  { ledgerAddress := 1
    administrator := 2
    totalSupply := 1000000
    balances := fun a =>
      if a = 1 then 100 else if a = 2 then 900000 else if a = 3 then 90000
      else if a = 4 then 9900 else 0
    settlementHoldings := fun _ => 0
    feeConfiguration :=
      { buyFeeBps := 500, sellFeeBps := 500, buy_le := by decide, sell_le := by decide }
    classification := fun a => { exempt := decide (a = 1 ∨ a = 2), isPool := decide (a = 3) }
    thresholdPolicy :=
      { autoProcessEnabled := true, thresholdDivisor := 10000, manualOverrideAmount := none }
    collectorRegistry := [{ address := 5, shareWeight := 100 }]
    poolRegistry := { routerAddress := 2, settlementAssetAddress := 0, poolAddress := 3 }
    processingLock := false }

/-- The sample engine in the middle of a processing cycle. -/
def lockedEngine : Engine (Fin 6) := { sampleEngine with processingLock := true }

/-- A pair lookup for the sample engine: every router is served by pool 3. -/
def samplePool : Fin 6 → Fin 6 → Fin 6 → Fin 6 := fun _ _ _ => 3

/-- A sell, a rejected transfer, a buy and a wallet-to-wallet transfer. -/
def sampleSteps : List (TransferStep (Fin 6)) :=
  [ { sender := 4, recipient := 3, amount := 2000, poolResponse := some 7 },
    { sender := 4, recipient := 5, amount := 1000000, poolResponse := none },
    { sender := 3, recipient := 4, amount := 500, poolResponse := none },
    { sender := 4, recipient := 5, amount := 25, poolResponse := none } ]

/-! ## The scripts of the repository -/

/-- Account addresses as the scripts write them: 160-bit numbers. -/
abbrev Address : Type := Nat

/-- The ethers helper `parseUnits` on a whole decimal number: shift by the decimals. -/
def parseUnits (whole decimals : Nat) : Nat := whole * 10 ^ decimals

/-- The ethers helper `parseEther` on a decimal with `fractionDigits` digits after
the point, given as the integer `digits` (for instance "0.004" is 4 with 3). -/
def parseEther (digits fractionDigits : Nat) : Nat := digits * 10 ^ (18 - fractionDigits)

/-- `CONFIG.BSTR_TOKEN_ADDRESS` of comprehensive-test-suite.js. -/
def BSTR_TOKEN_ADDRESS : Address := 0xcB64a719D7e7749BFD18dc1815f1EF3C28F083E2

/-- `CONFIG.SWAP_ROUTER` of comprehensive-test-suite.js. -/
def SWAP_ROUTER : Address := 0x1689E7B1F10000AE47eBfE339a4f69dECd19F602

/-- `CONFIG.WETH_ADDRESS` of comprehensive-test-suite.js. -/
def WETH_ADDRESS : Address := 0x4200000000000000000000000000000000000006

/-- `CONFIG.COLLECTOR_ADDRESS` of comprehensive-test-suite.js. -/
def COLLECTOR_ADDRESS : Address := 0x0FbbDDC39cdb1D089779dC770268B1a995Bc527A

/-- `CONFIG.THRESHOLD.MAX_TRADES`. -/
def MAX_TRADES : Nat := 35

/-- `parseEther(CONFIG.THRESHOLD.BUY_AMOUNT_PER_TRADE)`, that is `parseEther("0.01")`. -/
def BUY_AMOUNT_PER_TRADE : Nat := parseEther 1 2

/-- The arguments of constructor-args.js: initial supply, fee receiver, router,
collectors and shares. -/
structure ConstructorArgs where
  initialSupply : Nat
  feeReceiver : Address
  swapRouter : Address
  collectors : List Address
  shares : List Nat
  deriving DecidableEq

/-- The `module.exports` of constructor-args.js. -/
def constructorArgs : ConstructorArgs :=
  { initialSupply := parseUnits 1000000000 9
    feeReceiver := 0xf8492AfeDC885ef3d443F0f51B81B7e70fBCd516
    swapRouter := 0x1689E7B1F10000AE47eBfE339a4f69dECd19F602
    collectors := [0x0FbbDDC39cdb1D089779dC770268B1a995Bc527A]
    shares := [100] }

/-- A script computation over a world `W`: it returns a value or throws a
message; the world it leaves behind is kept in both cases. -/
def Script (W α : Type) : Type := W → Except String α × W

/-- Return a value. -/
def Script.pure {W α : Type} (a : α) : Script W α := fun w => (.ok a, w)

/-- Sequence two computations; a throw skips the rest. -/
def Script.bind {W α β : Type} (m : Script W α) (f : α → Script W β) : Script W β :=
  fun w =>
    match m w with
    | (.ok a, w1) => f a w1
    | (.error e, w1) => (.error e, w1)

/-- The JavaScript `throw new Error(message)`. -/
def Script.throw {W α : Type} (message : String) : Script W α := fun w => (.error message, w)

/-- The JavaScript `try ... catch (error) ...`, the handler receiving `error.message`. -/
def Script.tryCatch {W α : Type} (body : Script W α) (handler : String → Script W α) :
    Script W α :=
  fun w =>
    match body w with
    | (.ok a, w1) => (.ok a, w1)
    | (.error e, w1) => handler e w1

instance {W : Type} : Monad (Script W) where
  pure := Script.pure
  bind := Script.bind

/-- One call a script submits to the chain. -/
inductive Call where
  | balanceOf (account : Address)
  | totalSupply
  | autoProcessFees
  | numTokensToSwap
  | approve (spender : Address) (amount : Nat)
  | swapExactETHForTokensSupportingFeeOnTransferTokens (amountOutMin value : Nat)
  | swapExactTokensForETHSupportingFeeOnTransferTokens (amountIn amountOutMin : Nat)
  | distributeFees (amount : Nat) (inToken : Bool)
  | processFees (amount minAmountOut : Nat)
  | swapPair
  | getCode (account : Address)
  | getReserves (pair : Address)
  deriving DecidableEq

/-- The behaviour of the deployed contracts as the scripts see it: every call
answers or throws, and may move the chain state `σ`.  Nothing is assumed about
the answers.  State-changing calls stand for the submission together with the
`wait()` for the receipt. -/
structure Chain (σ : Type) where
  balanceOf : Address → σ → Except String Nat × σ
  totalSupply : σ → Except String Nat × σ
  autoProcessFees : σ → Except String Bool × σ
  numTokensToSwap : σ → Except String Nat × σ
  approve : Address → Nat → σ → Except String Unit × σ
  swapExactETHForTokensSupportingFeeOnTransferTokens : Nat → Nat → σ → Except String Unit × σ
  swapExactTokensForETHSupportingFeeOnTransferTokens : Nat → Nat → σ → Except String Unit × σ
  distributeFees : Nat → Bool → σ → Except String Unit × σ
  processFees : Nat → Nat → σ → Except String Unit × σ

/-- One entry of `results.tests` (the timestamp is left out). -/
structure TestResult where
  name : String
  passed : Bool
  details : String
  deriving DecidableEq

/-- The `results` object of the test suite. -/
structure Results where
  passed : Nat
  failed : Nat
  skipped : Nat
  tests : List TestResult
  deriving DecidableEq

/-- What a script run can change: the chain state, the calls submitted so far,
the suite's `results`, and the lines written to the console by the stand-alone
scripts (the suite's own log lines are not modelled). -/
structure World (σ : Type) where
  chain : σ
  calls : List Call
  results : Results
  console : List String

section Scripts

variable {σ : Type}

/-- Submit one call: record it, run the chain's answer. -/
def perform {α : Type} (call : Call) (op : σ → Except String α × σ) : Script (World σ) α :=
  fun w =>
    let r := op w.chain
    (r.1, { w with chain := r.2, calls := w.calls ++ [call] })

/-- Write one line with `console.log`. -/
def consoleLog (line : String) : Script (World σ) Unit :=
  fun w => (.ok (), { w with console := w.console ++ [line] })

/-- The method `logTestResult` of the suite: push the result and count it. -/
def logTestResult (testName : String) (passed : Bool) (details : String) :
    Script (World σ) Unit :=
  fun w =>
    let tests := w.results.tests ++ [{ name := testName, passed := passed, details := details }]
    if passed then
      (.ok (), { w with results := { w.results with tests := tests,
                                                     passed := w.results.passed + 1 } })
    else
      (.ok (), { w with results := { w.results with tests := tests,
                                                     failed := w.results.failed + 1 } })

/-- The results after one more recorded test: what `logTestResult` leaves. -/
def recorded (r : Results) (testName : String) (passed : Bool) (details : String) : Results :=
  if passed then
    { r with tests := r.tests ++ [{ name := testName, passed := true, details := details }],
             passed := r.passed + 1 }
  else
    { r with tests := r.tests ++ [{ name := testName, passed := false, details := details }],
             failed := r.failed + 1 }

/-- A script only ever appends to the list of submitted calls. -/
def CallsGrow {α : Type} (m : Script (World σ) α) : Prop :=
  ∀ w, ∃ rest, (m w).2.calls = w.calls ++ rest

/-- The value `{ contractBalance, threshold, autoProcessFees }` returned by
`testContractState`. -/
structure ContractState where
  contractBalance : Nat
  threshold : Nat
  autoProcessFees : Bool
  deriving DecidableEq

/-- The method `testContractState` of the suite. -/
def testContractState (c : Chain σ) : Script (World σ) ContractState :=
  Script.tryCatch (do
    let contractBalance ← perform (.balanceOf BSTR_TOKEN_ADDRESS) (c.balanceOf BSTR_TOKEN_ADDRESS)
    let totalSupply ← perform .totalSupply c.totalSupply
    let threshold := totalSupply / 10000
    let autoProcessFees ← perform .autoProcessFees c.autoProcessFees
    let _numTokensToSwap ← perform .numTokensToSwap c.numTokensToSwap
    logTestResult "Contract State Check" true "Contract state retrieved successfully"
    return { contractBalance := contractBalance, threshold := threshold,
             autoProcessFees := autoProcessFees })
  (fun message => do
    logTestResult "Contract State Check" false message
    Script.throw message)

/-- The `while` loop of `testThresholdTrigger`; `remaining` is
`MAX_TRADES - tradeCount`. -/
def thresholdLoop (c : Chain σ) (threshold : Nat) :
    Nat → Nat → Script (World σ) Unit
  | 0, _ => pure ()
  | remaining + 1, currentBalance =>
    if currentBalance < threshold then do
      let _balanceBefore ← perform (.balanceOf BSTR_TOKEN_ADDRESS) (c.balanceOf BSTR_TOKEN_ADDRESS)
      perform (.swapExactETHForTokensSupportingFeeOnTransferTokens 0 BUY_AMOUNT_PER_TRADE)
        (c.swapExactETHForTokensSupportingFeeOnTransferTokens 0 BUY_AMOUNT_PER_TRADE)
      let balanceAfter ← perform (.balanceOf BSTR_TOKEN_ADDRESS) (c.balanceOf BSTR_TOKEN_ADDRESS)
      if balanceAfter ≥ threshold then pure ()
      else thresholdLoop c threshold remaining balanceAfter
    else pure ()

/-- The method `testThresholdTrigger` of the suite.  `formatUnits` is the ethers
formatter with nine decimals. -/
def testThresholdTrigger (formatUnits : Nat → String) (c : Chain σ) : Script (World σ) Bool :=
  Script.tryCatch (do
    let contractBalance ← perform (.balanceOf BSTR_TOKEN_ADDRESS) (c.balanceOf BSTR_TOKEN_ADDRESS)
    let totalSupply ← perform .totalSupply c.totalSupply
    let threshold := totalSupply / 10000
    if contractBalance ≥ threshold then
      logTestResult "Threshold Trigger" true "Threshold already reached"
      return true
    thresholdLoop c threshold MAX_TRADES contractBalance
    let finalBalance ← perform (.balanceOf BSTR_TOKEN_ADDRESS) (c.balanceOf BSTR_TOKEN_ADDRESS)
    let thresholdReached := decide (finalBalance ≥ threshold)
    logTestResult "Threshold Trigger" thresholdReached
      (if thresholdReached then "Threshold reached successfully"
       else "Only reached " ++ formatUnits finalBalance ++ "/" ++ formatUnits threshold ++ " BSTR")
    return thresholdReached)
  (fun message => do
    logTestResult "Threshold Trigger" false message
    Script.throw message)

/-- The method `testAutomaticProcessing` of the suite; `taxTester` is the address
of the tax tester wallet. -/
def testAutomaticProcessing (c : Chain σ) (taxTester : Address) : Script (World σ) Bool :=
  Script.tryCatch (do
    let contractBalance ← perform (.balanceOf BSTR_TOKEN_ADDRESS) (c.balanceOf BSTR_TOKEN_ADDRESS)
    let totalSupply ← perform .totalSupply c.totalSupply
    let threshold := totalSupply / 10000
    if contractBalance < threshold then
      logTestResult "Automatic Processing" true "Skipped - threshold not reached"
      return false
    let userBalance ← perform (.balanceOf taxTester) (c.balanceOf taxTester)
    if userBalance = 0 then
      Script.throw "No BSTR tokens to sell for automatic processing test"
    else
      let sellAmount := userBalance / 100
      perform (.approve SWAP_ROUTER sellAmount) (c.approve SWAP_ROUTER sellAmount)
      let balanceBefore ← perform (.balanceOf BSTR_TOKEN_ADDRESS) (c.balanceOf BSTR_TOKEN_ADDRESS)
      perform (.swapExactTokensForETHSupportingFeeOnTransferTokens sellAmount 0)
        (c.swapExactTokensForETHSupportingFeeOnTransferTokens sellAmount 0)
      let balanceAfter ← perform (.balanceOf BSTR_TOKEN_ADDRESS) (c.balanceOf BSTR_TOKEN_ADDRESS)
      let processingTriggered := decide (balanceAfter < balanceBefore)
      logTestResult "Automatic Processing" processingTriggered
        (if processingTriggered then "Automatic processing triggered successfully"
         else "No automatic processing detected")
      return processingTriggered)
  (fun message => do
    logTestResult "Automatic Processing" false message
    Script.throw message)

/-- The method `testFeeDistribution` of the suite.  The two differences are
BigInt subtractions and may be negative. -/
def testFeeDistribution (c : Chain σ) : Script (World σ) Bool :=
  Script.tryCatch (do
    let contractBalance ← perform (.balanceOf BSTR_TOKEN_ADDRESS) (c.balanceOf BSTR_TOKEN_ADDRESS)
    let collectorBalance ← perform (.balanceOf COLLECTOR_ADDRESS) (c.balanceOf COLLECTOR_ADDRESS)
    if contractBalance = 0 then
      logTestResult "Fee Distribution" true "No fees to distribute"
      return false
    let distributeAmount := contractBalance / 10
    perform (.distributeFees distributeAmount true) (c.distributeFees distributeAmount true)
    let newContractBalance ← perform (.balanceOf BSTR_TOKEN_ADDRESS) (c.balanceOf BSTR_TOKEN_ADDRESS)
    let newCollectorBalance ← perform (.balanceOf COLLECTOR_ADDRESS) (c.balanceOf COLLECTOR_ADDRESS)
    let amountDistributed : Int := (contractBalance : Int) - (newContractBalance : Int)
    let collectorReceived : Int := (newCollectorBalance : Int) - (collectorBalance : Int)
    let distributionSuccessful := decide (amountDistributed > 0) && decide (collectorReceived > 0)
    logTestResult "Fee Distribution" distributionSuccessful
      (if distributionSuccessful then "Fee distribution successful" else "Fee distribution failed")
    return distributionSuccessful)
  (fun message => do
    logTestResult "Fee Distribution" false message
    Script.throw message)

/-- The function `main` of manual-process-fees.js, after the wallet and the
contract handle are set up.  `formatUnits` is the ethers formatter with nine
decimals. -/
def ManualProcessFees.main (formatUnits : Nat → String) (c : Chain σ) :
    Script (World σ) Unit := do
  let contractBalance ← perform (.balanceOf BSTR_TOKEN_ADDRESS) (c.balanceOf BSTR_TOKEN_ADDRESS)
  let totalSupply ← perform .totalSupply c.totalSupply
  let threshold := totalSupply / 10000
  consoleLog ("Contract balance: " ++ formatUnits contractBalance ++ " BSTR")
  consoleLog ("Threshold: " ++ formatUnits threshold ++ " BSTR")
  if contractBalance < threshold then
    consoleLog "Threshold not met. processFees will likely revert or do nothing."
  else
    consoleLog "Threshold met. Calling processFees..."
  let amountToProcess := threshold
  let minAmountOut := 0
  consoleLog ("Calling processFees with amount: " ++ formatUnits amountToProcess
    ++ " BSTR, minAmountOut: " ++ toString minAmountOut)
  perform (.processFees amountToProcess minAmountOut) (c.processFees amountToProcess minAmountOut)
  consoleLog "processFees transaction sent and confirmed!"

end Scripts

/-! ### The engine behind the scripts' calls -/

/-- The message of a revert with the given error kind. -/
def EngineError.message : EngineError → String
  | .InsufficientBalance => "InsufficientBalance"
  | .SwapFailed => "SwapFailed"
  | .EmptyRegistry => "EmptyRegistry"
  | .WeightMismatch => "WeightMismatch"
  | .Unauthorized => "Unauthorized"

/-- The engine model seen through the scripts' calls, the caller being the
administrator.  Approvals and router swaps are not part of the engine; they are
answered by `router`.  `poolResponse` is the answer of the external pool to a
manual conversion. -/
def engineChain (router : Call → Engine Address → Except String Unit × Engine Address)
    (poolResponse : Option Nat) : Chain (Engine Address) :=
  { balanceOf := fun a e => (.ok (balanceOf e a), e)
    totalSupply := fun e => (.ok e.totalSupply, e)
    autoProcessFees := fun e => (.ok e.thresholdPolicy.autoProcessEnabled, e)
    numTokensToSwap := fun e => (.ok (numTokensToSwap e), e)
    approve := fun spender amount e => router (.approve spender amount) e
    swapExactETHForTokensSupportingFeeOnTransferTokens := fun amountOutMin value e =>
      router (.swapExactETHForTokensSupportingFeeOnTransferTokens amountOutMin value) e
    swapExactTokensForETHSupportingFeeOnTransferTokens := fun amountIn amountOutMin e =>
      router (.swapExactTokensForETHSupportingFeeOnTransferTokens amountIn amountOutMin) e
    distributeFees := fun amount inToken e =>
      match distributeFees e e.administrator amount inToken with
      | .ok e1 => (.ok (), e1)
      | .error err => (.error err.message, e)
    processFees := fun amount minOut e =>
      match processFees e e.administrator amount minOut poolResponse with
      | .ok r => (.ok (), r.1)
      | .error err => (.error err.message, e) }

/-- A router without liquidity: every approval goes through, every swap reverts. -/
def dryRouter : Call → Engine Address → Except String Unit × Engine Address
  | .approve _ _, e => (.ok (), e)
  | _, e => (.error "INSUFFICIENT_LIQUIDITY", e)

/-- The engine as constructor-args.js deploys it (one collector with all 100
shares, supply of one billion tokens), the fee receiver acting as administrator,
with `contractBalance` accrued fees and the given manual override. -/
def deployedEngine (contractBalance : Nat) (manualOverride : Option Nat) : Engine Address :=
  { ledgerAddress := BSTR_TOKEN_ADDRESS
    administrator := constructorArgs.feeReceiver
    totalSupply := constructorArgs.initialSupply
    balances := fun a =>
      if a = BSTR_TOKEN_ADDRESS then contractBalance
      else if a = constructorArgs.feeReceiver then constructorArgs.initialSupply - contractBalance
      else 0
    settlementHoldings := fun _ => 0
    feeConfiguration :=
      { buyFeeBps := 500, sellFeeBps := 500, buy_le := by decide, sell_le := by decide }
    classification := fun a =>
      { exempt := decide (a = BSTR_TOKEN_ADDRESS ∨ a = constructorArgs.feeReceiver)
        isPool := false }
    thresholdPolicy :=
      { autoProcessEnabled := true, thresholdDivisor := 10000,
        manualOverrideAmount := manualOverride }
    collectorRegistry :=
      (constructorArgs.collectors.zip constructorArgs.shares).map
        (fun p => { address := p.1, shareWeight := p.2 })
    poolRegistry :=
      { routerAddress := constructorArgs.swapRouter, settlementAssetAddress := WETH_ADDRESS,
        poolAddress := 0 }
    processingLock := false }

/-- The sample engine with the ledger's own address as its only collector. -/
def selfCollectorEngine : Engine (Fin 6) :=
  { sampleEngine with collectorRegistry := [{ address := 1, shareWeight := 100 }] }

/-- A chain whose first balance read answers 0 and whose every later call times
out; the state counts the calls. -/
def flakyChain : Chain Nat :=
  { balanceOf := fun _ n => if n = 0 then (.ok 0, 1) else (.error "timeout", n + 1)
    totalSupply := fun n => (.error "timeout", n + 1)
    autoProcessFees := fun n => (.error "timeout", n + 1)
    numTokensToSwap := fun n => (.error "timeout", n + 1)
    approve := fun _ _ n => (.error "timeout", n + 1)
    swapExactETHForTokensSupportingFeeOnTransferTokens := fun _ _ n => (.error "timeout", n + 1)
    swapExactTokensForETHSupportingFeeOnTransferTokens := fun _ _ n => (.error "timeout", n + 1)
    distributeFees := fun _ _ n => (.error "timeout", n + 1)
    processFees := fun _ _ n => (.error "timeout", n + 1) }

/-- A formatter that prints the amount in base units. -/
def plainUnits : Nat → String := fun n => toString n

/-- A fresh world around a chain state. -/
def freshWorld {σ : Type} (chain : σ) : World σ :=
  { chain := chain, calls := [], results := { passed := 0, failed := 0, skipped := 0, tests := [] },
    console := [] }

/-! ## More scripts: constructor arguments, selling, liquidity -/

/-- The constants of `main` in getConstructorArgs.js. -/
def getConstructorArgs : ConstructorArgs :=
  { initialSupply := parseUnits 1000000000 9
    feeReceiver := 0xf8492AfeDC885ef3d443F0f51B81B7e70fBCd516
    swapRouter := 0x1689E7B1F10000AE47eBfE339a4f69dECd19F602
    collectors := [0x0FbbDDC39cdb1D089779dC770268B1a995Bc527A]
    shares := [100] }

/-- The constants of `main` in getConstructorArgsPayable.js. -/
def getConstructorArgsPayable : ConstructorArgs :=
  { initialSupply := parseUnits 1000000000 9
    feeReceiver := 0xf8492AfeDC885ef3d443F0f51B81B7e70fBCd516
    swapRouter := 0x1689E7B1F10000AE47eBfE339a4f69dECd19F602
    collectors := [0x0FbbDDC39cdb1D089779dC770268B1a995Bc527A]
    shares := [100] }

/-- The constants of `main` in getConstructorArgsSingleLine.js. -/
def getConstructorArgsSingleLine : ConstructorArgs :=
  { initialSupply := parseUnits 1000000000 9
    feeReceiver := 0xf8492AfeDC885ef3d443F0f51B81B7e70fBCd516
    swapRouter := 0x1689E7B1F10000AE47eBfE339a4f69dECd19F602
    collectors := [0x0FbbDDC39cdb1D089779dC770268B1a995Bc527A]
    shares := [100] }

/-- The four constructor-argument scripts, in the order constructor-args.js,
getConstructorArgs.js, getConstructorArgsPayable.js, getConstructorArgsSingleLine.js. -/
def constructorArgumentScripts : List ConstructorArgs :=
  [constructorArgs, getConstructorArgs, getConstructorArgsPayable, getConstructorArgsSingleLine]

/-- `CONFIG.TRADING.SELL_PERCENTAGE` of comprehensive-test-suite.js. -/
def SELL_PERCENTAGE : Nat := 10

/-- The ethers constant `ZeroAddress`. -/
def ZeroAddress : Address := 0

/-- The calls of `testLiquiditySetup` on top of those of `Chain`: the token's
`swapPair()`, the provider's `getCode(address)` (a hex string, "0x" when nothing
is deployed) and the pair's `getReserves()` (the two reserves). -/
structure SuiteChain (σ : Type) extends Chain σ where
  swapPair : σ → Except String Address × σ
  getCode : Address → σ → Except String String × σ
  getReserves : Address → σ → Except String (Nat × Nat) × σ

/-- Whether a call is a buy through the router. -/
def Call.isBuy : Call → Bool
  | .swapExactETHForTokensSupportingFeeOnTransferTokens _ _ => true
  | _ => false

/-- The number of buy swaps among some calls. -/
def buyCount (calls : List Call) : Nat := calls.countP Call.isBuy

section MoreScripts

variable {σ : Type}

/-- The method `testSellTransactions` of the suite; `sellPercentage` is the
configured `CONFIG.TRADING.SELL_PERCENTAGE`, `taxTester` the address of the tax
tester wallet.  The result is the BigInt `taxCollected`, or `null` (here `none`)
after a caught error.  A BigInt division by zero throws. -/
def testSellTransactions (sellPercentage : Nat) (c : Chain σ) (taxTester : Address) :
    Script (World σ) (Option Int) :=
  Script.tryCatch (do
    let userBalance ← perform (.balanceOf taxTester) (c.balanceOf taxTester)
    if userBalance = 0 then
      Script.throw "No BSTR tokens to sell"
    else if sellPercentage = 0 then
      Script.throw "Division by zero"
    else
      let sellAmount := userBalance / sellPercentage
      perform (.approve SWAP_ROUTER 0) (c.approve SWAP_ROUTER 0)
      perform (.approve SWAP_ROUTER sellAmount) (c.approve SWAP_ROUTER sellAmount)
      let contractBalanceBefore ←
        perform (.balanceOf BSTR_TOKEN_ADDRESS) (c.balanceOf BSTR_TOKEN_ADDRESS)
      perform (.swapExactTokensForETHSupportingFeeOnTransferTokens sellAmount 0)
        (c.swapExactTokensForETHSupportingFeeOnTransferTokens sellAmount 0)
      let contractBalanceAfter ←
        perform (.balanceOf BSTR_TOKEN_ADDRESS) (c.balanceOf BSTR_TOKEN_ADDRESS)
      let taxCollected : Int := (contractBalanceAfter : Int) - (contractBalanceBefore : Int)
      logTestResult "Sell Transactions" true "Sell transaction completed successfully"
      return some taxCollected)
  (fun message => do
    logTestResult "Sell Transactions" false message
    return none)

/-- The method `testLiquiditySetup` of the suite. -/
def testLiquiditySetup (c : SuiteChain σ) : Script (World σ) Unit :=
  Script.tryCatch (do
    let swapPair ← perform .swapPair c.swapPair
    let pairExists ←
      if swapPair ≠ ZeroAddress then do
        let code ← perform (.getCode swapPair) (c.getCode swapPair)
        pure (decide (code ≠ "0x"))
      else pure false
    if !pairExists then
      logTestResult "Liquidity Setup" false
        "Pair does not exist or is not deployed. Please fund the pool before running tests."
      Script.throw
        "Pair does not exist or is not deployed. Please fund the pool before running tests."
    else
      let reserves ← perform (.getReserves swapPair) (c.getReserves swapPair)
      if reserves.1 = 0 ∧ reserves.2 = 0 then
        logTestResult "Liquidity Setup" false
          "Pool exists but has zero liquidity. Please fund the pool before running tests."
        Script.throw
          "Pool exists but has zero liquidity. Please fund the pool before running tests."
      else
        logTestResult "Liquidity Setup" true "Liquidity is present in the pool.")
  (fun message => do
    logTestResult "Liquidity Setup" false message
    Script.throw message)

end MoreScripts

/-! ## The test runner (test-runner.js) and `runAllTests` -/

/-- The methods of `ComprehensiveTestSuite` as their callers see them: each
returns or throws and may change the suite state `S`; the values they return are
not used by the callers. -/
structure SuiteMethods (S : Type) where
  initializeSuite : S → Except String Unit × S
  testContractState : S → Except String Unit × S
  testLiquiditySetup : S → Except String Unit × S
  testFeeExclusions : S → Except String Unit × S
  testBuyTransactions : S → Except String Unit × S
  testSellTransactions : S → Except String Unit × S
  testThresholdTrigger : S → Except String Unit × S
  testAutomaticProcessing : S → Except String Unit × S
  testFeeDistribution : S → Except String Unit × S
  runAllTests : S → Except String Unit × S
  printResults : S → Except String Unit × S

/-- One use of the suite by a caller: the constructor or a method (the method
`initialize` is written `initializeSuite`). -/
inductive SuiteCall where
  | construct
  | initializeSuite
  | testContractState
  | testLiquiditySetup
  | testFeeExclusions
  | testBuyTransactions
  | testSellTransactions
  | testThresholdTrigger
  | testAutomaticProcessing
  | testFeeDistribution
  | runAllTests
  | printResults
  deriving DecidableEq

/-- What a caller of the suite can change: the suite state, the console, and
the list of uses of the suite made so far. -/
structure RunnerWorld (S : Type) where
  suite : S
  console : List String
  trace : List SuiteCall

section Runner

variable {S : Type}

/-- Call one method of the suite: record the call, run the method. -/
def invoke (call : SuiteCall) (method : S → Except String Unit × S) :
    Script (RunnerWorld S) Unit :=
  fun w =>
    let r := method w.suite
    (r.1, { w with suite := r.2, trace := w.trace ++ [call] })

/-- A method that returns in every state of the suite: it never throws. -/
def Returns (method : S → Except String Unit × S) : Prop :=
  ∀ s, (method s).1 = .ok ()

/-- Write lines to the console (`console.log` and `console.error` alike). -/
def consoleLines (lines : List String) (w : RunnerWorld S) : RunnerWorld S :=
  { w with console := w.console ++ lines }

/-- The method `runAllTests` of the suite, over its other methods (its own log
lines are not modelled). -/
def runAllTests (suite : SuiteMethods S) : Script (RunnerWorld S) Unit :=
  Script.tryCatch (do
    invoke .initializeSuite suite.initializeSuite
    invoke .testContractState suite.testContractState
    invoke .testLiquiditySetup suite.testLiquiditySetup
    invoke .testFeeExclusions suite.testFeeExclusions
    invoke .testBuyTransactions suite.testBuyTransactions
    invoke .testSellTransactions suite.testSellTransactions
    invoke .testThresholdTrigger suite.testThresholdTrigger
    invoke .testAutomaticProcessing suite.testAutomaticProcessing
    invoke .testFeeDistribution suite.testFeeDistribution
    invoke .printResults suite.printResults)
  (fun message => do
    invoke .printResults suite.printResults
    Script.throw message)

end Runner

namespace TestRunner

/-- The object `AVAILABLE_TESTS` of test-runner.js: its own keys and values, in
order. -/
def AVAILABLE_TESTS : List (String × String) :=
  [ ("contract-state", "Test contract state and configuration"),
    ("liquidity", "Test liquidity setup and pool creation"),
    ("fee-exclusions", "Test fee exclusion configuration"),
    ("buys", "Test buy transactions and tax collection"),
    ("sells", "Test sell transactions and tax collection"),
    ("threshold", "Test threshold triggering mechanism"),
    ("auto-processing", "Test automatic fee processing"),
    ("fee-distribution", "Test manual fee distribution"),
    ("all", "Run all tests in sequence") ]

/-- The property names every JavaScript object literal inherits from
`Object.prototype`; each of them holds a function or an object, hence a truthy
value. -/
def OBJECT_PROTOTYPE_KEYS : List String :=
  [ "constructor", "__defineGetter__", "__defineSetter__", "hasOwnProperty",
    "__lookupGetter__", "__lookupSetter__", "isPrototypeOf", "propertyIsEnumerable",
    "toString", "valueOf", "__proto__", "toLocaleString" ]

/-- The value of the JavaScript expression `AVAILABLE_TESTS[command]`: an own
description, an inherited member of `Object.prototype`, or `undefined`. -/
inductive Lookup where
  | own (description : String)
  | inherited (name : String)
  | undefined
  deriving DecidableEq

/-- The JavaScript property lookup `AVAILABLE_TESTS[command]`: own properties
first, then the prototype. -/
def lookupTest (command : String) : Lookup :=
  match AVAILABLE_TESTS.lookup command with
  | some description => .own description
  | none => if command ∈ OBJECT_PROTOTYPE_KEYS then .inherited command else .undefined

/-- JavaScript truthiness of a looked-up value: a non-empty string or an
inherited member is truthy, `undefined` is not. -/
def Lookup.truthy : Lookup → Bool
  | .own description => decide (description ≠ "")
  | .inherited _ => true
  | .undefined => false

/-- How a looked-up value prints inside a template string; `describe` gives the
text the JavaScript engine prints for an inherited member. -/
def Lookup.render (describe : String → String) : Lookup → String
  | .own description => description
  | .inherited name => describe name
  | .undefined => "undefined"

/-- The constant `command` of test-runner.js: `args[0] || "all"`, where `args`
are the command-line arguments after the script name. -/
def command (args : List String) : String :=
  match args with
  | [] => "all"
  | first :: _ => if first = "" then "all" else first

/-- The string method `padEnd(targetLength)` on text without surrogate pairs. -/
def padEnd (text : String) (targetLength : Nat) : String :=
  text ++ String.mk (List.replicate (targetLength - text.length) ' ')

/-- The lines `showHelp` prints. -/
def showHelp : List String :=
  [ "🚀 BSTR Token Test Runner",
    "==========================",
    "",
    "Usage: npx hardhat run scripts/test-runner.js [test-name]",
    "",
    "Available tests:" ]
  ++ AVAILABLE_TESTS.map (fun entry => "  " ++ padEnd entry.1 20 ++ " - " ++ entry.2)
  ++ [ "",
    "Examples:",
    "  npx hardhat run scripts/test-runner.js all",
    "  npx hardhat run scripts/test-runner.js buys",
    "  npx hardhat run scripts/test-runner.js sells",
    "",
    "Environment Variables:",
    "  TAX_TESTER_PRIVATE_KEY - Required for tax testing",
    "" ]

/-- How `main` ends: it returns (the process then ends with code 0), or it
leaves through `process.exit(code)`. -/
inductive Outcome where
  | returned
  | exited (code : Nat)
  deriving DecidableEq

/-- JavaScript truthiness of `process.env.TAX_TESTER_PRIVATE_KEY`: set and not
empty. -/
def envTruthy (value : Option String) : Bool :=
  match value with
  | none => false
  | some text => decide (text ≠ "")

section Main

variable {S : Type}

/-- The `switch (command)` of `main`. -/
def dispatch (suite : SuiteMethods S) (command : String) : Script (RunnerWorld S) Unit :=
  if command = "contract-state" then invoke .testContractState suite.testContractState
  else if command = "liquidity" then invoke .testLiquiditySetup suite.testLiquiditySetup
  else if command = "fee-exclusions" then invoke .testFeeExclusions suite.testFeeExclusions
  else if command = "buys" then invoke .testBuyTransactions suite.testBuyTransactions
  else if command = "sells" then invoke .testSellTransactions suite.testSellTransactions
  else if command = "threshold" then invoke .testThresholdTrigger suite.testThresholdTrigger
  else if command = "auto-processing" then
    invoke .testAutomaticProcessing suite.testAutomaticProcessing
  else if command = "fee-distribution" then invoke .testFeeDistribution suite.testFeeDistribution
  else Script.throw ("Unknown test: " ++ command)

/-- The body of the `try` block of `main`. -/
def tryBlock (suite : SuiteMethods S) (command : String) : Script (RunnerWorld S) Unit :=
  fun w =>
    let constructed : RunnerWorld S := { w with trace := w.trace ++ [.construct] }
    if command = "all" then invoke .runAllTests suite.runAllTests constructed
    else
      (do
        invoke .initializeSuite suite.initializeSuite
        dispatch suite command
        invoke .printResults suite.printResults : Script (RunnerWorld S) Unit) constructed

/-- The function `main` of test-runner.js.  `args` are the command-line
arguments, `tax_tester_private_key` the environment variable
`TAX_TESTER_PRIVATE_KEY`, `describe` the text the JavaScript engine prints for
an inherited member. -/
def main (describe : String → String) (suite : SuiteMethods S) (args : List String)
    (tax_tester_private_key : Option String) (w : RunnerWorld S) :
    Outcome × RunnerWorld S :=
  if command args = "help" ∨ command args = "--help" ∨ command args = "-h" then
    (.returned, consoleLines showHelp w)
  else if !(lookupTest (command args)).truthy then
    (.exited 1, consoleLines (["❌ Unknown test: " ++ command args, ""] ++ showHelp) w)
  else if !envTruthy tax_tester_private_key then
    (.exited 1, consoleLines
      [ "❌ TAX_TESTER_PRIVATE_KEY not found in environment variables!",
        "Please add TAX_TESTER_PRIVATE_KEY to your .env file",
        "This wallet will be used to test actual tax payments." ] w)
  else
    match tryBlock suite (command args)
        (consoleLines
          [ "🎯 Running test: " ++ command args,
            "📝 Description: " ++ (lookupTest (command args)).render describe,
            "" ] w) with
    | (.ok _, w1) => (.returned, w1)
    | (.error message, w1) =>
      (.exited 1, consoleLines ["❌ Test execution failed: " ++ message] w1)

end Main

end TestRunner

/-- A suite whose methods all return; its state counts the calls made. -/
def countingSuite : SuiteMethods Nat :=
  { initializeSuite := fun s => (.ok (), s + 1)
    testContractState := fun s => (.ok (), s + 1)
    testLiquiditySetup := fun s => (.ok (), s + 1)
    testFeeExclusions := fun s => (.ok (), s + 1)
    testBuyTransactions := fun s => (.ok (), s + 1)
    testSellTransactions := fun s => (.ok (), s + 1)
    testThresholdTrigger := fun s => (.ok (), s + 1)
    testAutomaticProcessing := fun s => (.ok (), s + 1)
    testFeeDistribution := fun s => (.ok (), s + 1)
    runAllTests := fun s => (.ok (), s + 1)
    printResults := fun s => (.ok (), s + 1) }

/-- A fresh world around a suite state. -/
def freshRunner {S : Type} (s : S) : RunnerWorld S :=
  { suite := s, console := [], trace := [] }
/-! ## The cleanup script (cleanup-redundant-scripts.js) -/

namespace Cleanup

/-- The list `REDUNDANT_SCRIPTS`. -/
def REDUNDANT_SCRIPTS : List String :=
  [ "test-threshold-trigger.js",
    "test-small-sell.js",
    "test-liquidity-and-swaps.js",
    "test-liquidity-and-swaps-with-taxes.js",
    "test-distribute-fees.js",
    "test-automatic-processing.js",
    "manual-fee-processing.js",
    "test-base-sepolia-router.js",
    "check-contract-state.js",
    "check-contract-balance.js",
    "check-liquidity.js",
    "check-transaction.js",
    "check-recent-transactions.js",
    "check-base-sepolia-dexes.js",
    "check-alternative-dexes.js",
    "verify-signers.js" ]

/-- The list `KEEP_SCRIPTS`. -/
def KEEP_SCRIPTS : List String :=
  [ "comprehensive-test-suite.js",
    "test-runner.js",
    "setup-test-environment.js",
    "README-TEST-SUITE.md",
    "listAccount.ts",
    "generateAccount.ts.ts",
    "test-pool.ts",
    "test-fork.ts",
    "getConstructorArgs.js",
    "getConstructorArgsPayable.js",
    "getConstructorArgsSingleLine.js",
    "constructor-args.js",
    "cleanup-redundant-scripts.js" ]

/-- The file system as the script sees it: `existsSync` answers, `unlinkSync`
returns or throws and may change the state `φ`.  Nothing is assumed about
either. -/
structure FileSystem (φ : Type) where
  existsSync : String → φ → Bool
  unlinkSync : String → φ → Except String Unit × φ

/-- The call `path.join(scriptsDir, script)` for a directory without trailing
separator and a plain file name. -/
def pathJoin (scriptsDir script : String) : String := scriptsDir ++ "/" ++ script

/-- What a run of the script can change: the file system, the console, the
paths handed to `unlinkSync` and those among them it deleted (the calls that
returned). -/
structure CleanupWorld (φ : Type) where
  fs : φ
  console : List String
  attempted : List String
  deleted : List String

/-- The two counters of `cleanupScripts`. -/
structure Counters where
  removedCount : Nat
  skippedCount : Nat
  deriving DecidableEq

section Run

variable {φ : Type}

/-- The body of `REDUNDANT_SCRIPTS.forEach`. -/
def removeScript (fsys : FileSystem φ) (scriptsDir : String)
    (state : Counters × CleanupWorld φ) (script : String) : Counters × CleanupWorld φ :=
  if fsys.existsSync (pathJoin scriptsDir script) state.2.fs then
    match fsys.unlinkSync (pathJoin scriptsDir script) state.2.fs with
    | (.ok _, fs1) =>
      ({ removedCount := state.1.removedCount + 1, skippedCount := state.1.skippedCount },
        { fs := fs1
          console := state.2.console ++ ["  ✅ Removed: " ++ script]
          attempted := state.2.attempted ++ [pathJoin scriptsDir script]
          deleted := state.2.deleted ++ [pathJoin scriptsDir script] })
    | (.error message, fs1) =>
      (state.1,
        { fs := fs1
          console := state.2.console
            ++ ["  ❌ Failed to remove " ++ script ++ ": " ++ message]
          attempted := state.2.attempted ++ [pathJoin scriptsDir script]
          deleted := state.2.deleted })
  else
    ({ removedCount := state.1.removedCount, skippedCount := state.1.skippedCount + 1 },
      { state.2 with
        console := state.2.console ++ ["  ⏭️ Skipped: " ++ script ++ " (not found)"] })

/-- The body of `KEEP_SCRIPTS.forEach`. -/
def reportKept (fsys : FileSystem φ) (scriptsDir : String) (w : CleanupWorld φ)
    (script : String) : CleanupWorld φ :=
  if fsys.existsSync (pathJoin scriptsDir script) w.fs then
    { w with console := w.console ++ ["  ✅ Keeping: " ++ script] }
  else
    { w with console := w.console ++ ["  ⚠️ Warning: " ++ script ++ " not found"] }

/-- The three lines printed under "Cleanup Summary". -/
def summaryLines (counters : Counters) : List String :=
  [ "  ✅ Removed: " ++ toString counters.removedCount ++ " scripts",
    "  ⏭️ Skipped: " ++ toString counters.skippedCount ++ " scripts (not found)",
    "  📁 Total scripts removed: "
      ++ toString (counters.removedCount + counters.skippedCount) ]

/-- The closing lines of `cleanupScripts`. -/
def closingLines : List String :=
  [ "\n🎯 What's left:",
    "  - Comprehensive test suite (comprehensive-test-suite.js)",
    "  - Test runner (test-runner.js)",
    "  - Environment setup (setup-test-environment.js)",
    "  - Documentation (README-TEST-SUITE.md)",
    "  - Utility scripts (listAccount.ts, generateAccount.ts.ts)",
    "  - Constructor scripts (getConstructorArgs*.js)",
    "  - Original TypeScript test (test-pool.ts)",
    "  - Fork test (test-fork.ts)",
    "\n🚀 You can now use the comprehensive test suite:",
    "  npx hardhat run scripts/test-runner.js all",
    "  npx hardhat run scripts/test-runner.js help" ]

/-- The counters and the world after `REDUNDANT_SCRIPTS.forEach`, started from
both counters at 0. -/
def removalPhase (fsys : FileSystem φ) (scriptsDir : String) (w : CleanupWorld φ) :
    Counters × CleanupWorld φ :=
  REDUNDANT_SCRIPTS.foldl (removeScript fsys scriptsDir)
    ({ removedCount := 0, skippedCount := 0 },
      { w with console := w.console
          ++ ["🧹 Cleaning up redundant scripts...", String.mk (List.replicate 50 '='),
              "\n📋 Scripts to remove:"] })

/-- The function `cleanupScripts`; `scriptsDir` is `__dirname`.  The result
carries the final counters next to the world. -/
def cleanupScripts (fsys : FileSystem φ) (scriptsDir : String) (w : CleanupWorld φ) :
    Counters × CleanupWorld φ :=
  let removal := removalPhase fsys scriptsDir w
  let kept := KEEP_SCRIPTS.foldl (reportKept fsys scriptsDir)
    { removal.2 with console := removal.2.console ++ ["\n📋 Scripts to keep:"] }
  (removal.1,
    { kept with
      console := kept.console ++ ["\n📊 Cleanup Summary:"] ++ summaryLines removal.1
        ++ closingLines })

/-- What the removal loop keeps true: the counter of removals counts the
deletions, and every path handed to `unlinkSync` comes from the given names. -/
def RemovalInvariant (scriptsDir : String) (names : List String)
    (start finish : Counters × CleanupWorld φ) : Prop :=
  finish.1.removedCount + start.2.deleted.length
      = start.1.removedCount + finish.2.deleted.length ∧
  (∃ more, finish.2.attempted = start.2.attempted ++ more ∧
    ∀ p ∈ more, ∃ script ∈ names, p = pathJoin scriptsDir script) ∧
  (∃ more, finish.2.deleted = start.2.deleted ++ more ∧
    ∀ p ∈ more, ∃ script ∈ names, p = pathJoin scriptsDir script) ∧
  finish.1.removedCount + finish.1.skippedCount
      ≤ start.1.removedCount + start.1.skippedCount + names.length

end Run

/-- A file system given by the list of the paths that exist; the paths in
`locked` cannot be deleted. -/
def listFileSystem (locked : List String) : FileSystem (List String) :=
  { existsSync := fun path files => decide (path ∈ files)
    unlinkSync := fun path files =>
      if path ∈ locked then (.error "EPERM: operation not permitted", files)
      else (.ok (), files.filter (fun file => file ≠ path)) }

/-- A fresh world around a file system state. -/
def freshCleanup {φ : Type} (fs : φ) : CleanupWorld φ :=
  { fs := fs, console := [], attempted := [], deleted := [] }

/-- The scripts directory as the repository ships it, with `scripts` as its
path: none of the redundant scripts is there. -/
def shippedScripts : List String :=
  [ "cleanup-redundant-scripts.js", "comprehensive-test-suite.js", "constructor-args.js",
    "getConstructorArgs.js", "getConstructorArgsPayable.js", "getConstructorArgsSingleLine.js",
    "manual-process-fees.js", "setup-test-environment.js", "test-pool.ts",
    "test-runner.js" ].map (pathJoin "scripts")

end Cleanup


/-! ### Sample chains and bookkeeping for the suite's tests -/

/-- A script appends calls of which at most `k` are buy swaps. -/
def BuysAtMost {σ α : Type} (k : Nat) (m : Script (World σ) α) : Prop :=
  ∀ w, ∃ rest, (m w).2.calls = w.calls ++ rest ∧ buyCount rest ≤ k

/-- A method of the suite as its callers see it: the value it returns is
dropped. -/
def asMethod {W α : Type} (m : Script W α) : W → Except String Unit × W :=
  fun w =>
    match m w with
    | (.ok _, w1) => (.ok (), w1)
    | (.error message, w1) => (.error message, w1)

/-- The address of the tax tester wallet in the sample runs. -/
def sampleTester : Address := 0x7e57

/-- A small chain for sample runs.  The state holds the tester's balance and the
contract's self-balance; the supply is 1000000 (threshold 100); a buy credits
the tester with 950 and the contract with 50; a sell of `amountIn` takes it
from the tester and credits the contract with a twentieth of it. -/
def tallyChain : Chain (Nat × Nat) :=
  { balanceOf := fun a s =>
      if a = sampleTester then (.ok s.1, s)
      else if a = BSTR_TOKEN_ADDRESS then (.ok s.2, s)
      else (.ok 0, s)
    totalSupply := fun s => (.ok 1000000, s)
    autoProcessFees := fun s => (.ok true, s)
    numTokensToSwap := fun s => (.ok 100, s)
    approve := fun _ _ s => (.ok (), s)
    swapExactETHForTokensSupportingFeeOnTransferTokens := fun _ _ s =>
      (.ok (), (s.1 + 950, s.2 + 50))
    swapExactTokensForETHSupportingFeeOnTransferTokens := fun amountIn _ s =>
      if amountIn ≤ s.1 then (.ok (), (s.1 - amountIn, s.2 + amountIn / 20))
      else (.error "TRANSFER_FROM_FAILED", s)
    distributeFees := fun _ _ s => (.ok (), s)
    processFees := fun _ _ s => (.ok (), s) }

/-- The small chain with a deployed pair holding the given reserves. -/
def pairedChain (pair : Address) (code : String) (reserves : Nat × Nat) :
    SuiteChain (Nat × Nat) :=
  { tallyChain with
    swapPair := fun s => (.ok pair, s)
    getCode := fun _ s => (.ok code, s)
    getReserves := fun _ s => (.ok reserves, s) }

/-- A suite over the small chain: the sell test and the threshold test are the
embedded methods, every other method returns at once. -/
def sampleSuite : SuiteMethods (World (Nat × Nat)) :=
  { initializeSuite := fun w => (.ok (), w)
    testContractState := fun w => (.ok (), w)
    testLiquiditySetup := fun w => (.ok (), w)
    testFeeExclusions := fun w => (.ok (), w)
    testBuyTransactions := fun w => (.ok (), w)
    testSellTransactions := asMethod (testSellTransactions SELL_PERCENTAGE tallyChain sampleTester)
    testThresholdTrigger := asMethod (testThresholdTrigger plainUnits tallyChain)
    testAutomaticProcessing := fun w => (.ok (), w)
    testFeeDistribution := fun w => (.ok (), w)
    runAllTests := fun w => (.ok (), w)
    printResults := fun w => (.ok (), w) }

/-- The small chain with a contract that converts on every sell: a sell of
`amountIn` takes it from the tester and leaves the contract's self-balance
at 0. -/
def convertingChain : Chain (Nat × Nat) :=
  { tallyChain with
    swapExactTokensForETHSupportingFeeOnTransferTokens := fun amountIn _ s =>
      if amountIn ≤ s.1 then (.ok (), (s.1 - amountIn, 0))
      else (.error "TRANSFER_FROM_FAILED", s) }

/-- What `testAutomaticProcessing` may submit once its first two reads answered
`contractBalance` and `totalSupply` and left the chain in state `s`: a read, or,
when the threshold is reached and the tester holds tokens, the approval and the
sell of a hundredth of the tester's balance. -/
def GatedCall {σ : Type} (c : Chain σ) (taxTester : Address) (contractBalance totalSupply : Nat)
    (s : σ) (call : Call) : Prop :=
  call = .balanceOf BSTR_TOKEN_ADDRESS ∨ call = .totalSupply ∨ call = .balanceOf taxTester ∨
  (totalSupply / 10000 ≤ contractBalance ∧
    ∃ userBalance s1, c.balanceOf taxTester s = (.ok userBalance, s1) ∧ userBalance ≠ 0 ∧
      (call = .approve SWAP_ROUTER (userBalance / 100) ∨
        call = .swapExactTokensForETHSupportingFeeOnTransferTokens (userBalance / 100) 0))
/-! ## Lemmas on the engine -/

section PlainLemmas

variable {A : Type}

theorem computeTax_le (s : Engine A) (sender recipient : A) (amount : Nat) :
    computeTax s sender recipient amount ≤ amount := by
  unfold computeTax
  have hb := s.feeConfiguration.buy_le
  have hs := s.feeConfiguration.sell_le
  split
  · exact Nat.zero_le _
  · split
    · apply Nat.div_le_of_le_mul
      rw [Nat.mul_comm 10000 amount]
      exact Nat.mul_le_mul_left _ hs
    · split
      · apply Nat.div_le_of_le_mul
        rw [Nat.mul_comm 10000 amount]
        exact Nat.mul_le_mul_left _ hb
      · exact Nat.zero_le _

theorem floorShares_eq (reg : List (Collector A)) (S : Nat) :
    floorShares reg S
      = ((reg.map (fun c => c.shareWeight)).map (fun w => S * w / totalWeight reg)) := by
  simp [floorShares, floorShare, List.map_map, Function.comp]

theorem distribute_single (collector : A) (amount : Nat) :
    distribute [({ address := collector, shareWeight := 100 } : Collector A)] amount
      = .ok [(collector, amount)] := by
  have h : amount * 100 / 100 = amount := Nat.mul_div_cancel amount (by decide)
  simp [distribute, payoutAmounts, addToLast, floorShares, floorShare, roundingRemainder,
    totalWeight, h]

theorem PoolConsistent_of_frame (derivePool : A → A → A → A) (s s1 : Engine A)
    (hf : s1.poolRegistry = s.poolRegistry ∧ s1.ledgerAddress = s.ledgerAddress)
    (h : PoolConsistent derivePool s) : PoolConsistent derivePool s1 := by
  unfold PoolConsistent at h ⊢
  rw [hf.1, hf.2]
  exact h

theorem floor_mod_sum (S T : Nat) (ws : List Nat) :
    T * (ws.map (fun w => S * w / T)).sum + (ws.map (fun w => S * w % T)).sum = S * ws.sum := by
  induction ws with
  | nil => simp
  | cons w t ih =>
    simp only [List.map_cons, List.sum_cons]
    have h := Nat.div_add_mod (S * w) T
    rw [Nat.mul_add, Nat.mul_add]
    omega

theorem mod_sum_le (S T : Nat) (hT : 0 < T) (ws : List Nat) :
    (ws.map (fun w => S * w % T)).sum ≤ (T - 1) * ws.sum := by
  induction ws with
  | nil => simp
  | cons w t ih =>
    simp only [List.map_cons, List.sum_cons]
    rw [Nat.mul_add]
    have h1 : S * w % T ≤ (T - 1) * w := by
      rcases Nat.eq_zero_or_pos w with hw | hw
      · subst hw; simp
      · have h2 : S * w % T ≤ T - 1 := Nat.le_sub_one_of_lt (Nat.mod_lt _ hT)
        exact le_trans h2 (Nat.le_mul_of_pos_right _ hw)
    omega

theorem floorShares_sum_le (reg : List (Collector A)) (S : Nat) (hW : 0 < totalWeight reg) :
    (floorShares reg S).sum ≤ S := by
  have h := floor_mod_sum S (totalWeight reg) (reg.map (fun c => c.shareWeight))
  rw [← floorShares_eq] at h
  have h2 : totalWeight reg * (floorShares reg S).sum ≤ totalWeight reg * S := by
    have : (reg.map (fun c => c.shareWeight)).sum = totalWeight reg := rfl
    rw [this, Nat.mul_comm S] at h
    omega
  exact Nat.le_of_mul_le_mul_left h2 hW

theorem roundingRemainder_le (reg : List (Collector A)) (S : Nat) (hW : 0 < totalWeight reg) :
    roundingRemainder reg S ≤ totalWeight reg - 1 := by
  have h := floor_mod_sum S (totalWeight reg) (reg.map (fun c => c.shareWeight))
  have hm := mod_sum_le S (totalWeight reg) hW (reg.map (fun c => c.shareWeight))
  rw [← floorShares_eq] at h
  have hs : (reg.map (fun c => c.shareWeight)).sum = totalWeight reg := rfl
  rw [hs] at h hm
  have hle := floorShares_sum_le reg S hW
  unfold roundingRemainder
  have h3 : totalWeight reg * (S - (floorShares reg S).sum)
      ≤ totalWeight reg * (totalWeight reg - 1) := by
    rw [Nat.mul_sub, Nat.mul_comm (totalWeight reg) (totalWeight reg - 1)]
    rw [Nat.mul_comm S] at h
    omega
  exact Nat.le_of_mul_le_mul_left h3 hW

end PlainLemmas

section EngineLemmas

variable {A : Type} [DecidableEq A]

theorem credit_same (b : A → Nat) (a : A) (x : Nat) : credit b a x a = b a + x := by
  simp [credit]

theorem credit_other (b : A → Nat) (a c : A) (x : Nat) (h : c ≠ a) : credit b a x c = b c := by
  simp [credit, Function.update_noteq h]

theorem debit_same (b : A → Nat) (a : A) (x : Nat) : debit b a x a = b a - x := by
  simp [debit]

theorem debit_other (b : A → Nat) (a c : A) (x : Nat) (h : c ≠ a) : debit b a x c = b c := by
  simp [debit, Function.update_noteq h]

theorem accrue_ok (s : Engine A) (sender recipient : A) (amount : Nat)
    (h : amount ≤ s.balances sender) :
    accrue s sender recipient amount = .ok { s with
      balances := credit (credit (debit s.balances sender amount) recipient
        (amount - computeTax s sender recipient amount)) s.ledgerAddress
        (computeTax s sender recipient amount) } := by
  unfold accrue
  rw [if_neg (Nat.not_lt.mpr h)]

theorem accrue_error (s : Engine A) (sender recipient : A) (amount : Nat)
    (h : s.balances sender < amount) :
    accrue s sender recipient amount = .error .InsufficientBalance := by
  unfold accrue
  rw [if_pos h]

theorem settle_swapped (s1 : Engine A) (amount out : Nat) :
    (settle s1 amount out).2.swapped = some (amount, out) := by
  unfold settle
  cases distribute s1.collectorRegistry out <;> rfl

theorem runCycle_swapped_none (s : Engine A) (amount minOut : Nat) (poolResponse : Option Nat)
    (h : (runCycle s amount minOut poolResponse).2.swapped = none) :
    (runCycle s amount minOut poolResponse).1 = s := by
  unfold runCycle at h ⊢
  by_cases hl : s.processingLock = true
  · simp [hl]
  · have hl2 : s.processingLock = false := by simpa using hl
    simp only [hl2] at h ⊢
    cases hc : convert { s with processingLock := true } amount minOut poolResponse with
    | error e =>
      cases s
      simp_all
    | ok r =>
      obtain ⟨s1, out⟩ := r
      rw [hc] at h
      simp [settle_swapped] at h

theorem process_swapped_none (s : Engine A) (poolResponse : Option Nat)
    (h : (process s poolResponse).2.swapped = none) : (process s poolResponse).1 = s :=
  runCycle_swapped_none s _ _ poolResponse h

theorem transfer_of_accrue (s : Engine A) (sender recipient : A) (amount : Nat)
    (poolResponse : Option Nat) (s1 : Engine A)
    (h : accrue s sender recipient amount = .ok s1) :
    transfer s sender recipient amount poolResponse =
      if (isLpPool s recipient &&
          shouldProcess s1 (isExcludedFromFees s sender || isExcludedFromFees s recipient)) = true
      then .ok (process s1 poolResponse) else .ok (s1, ProcessReport.idle) := by
  unfold transfer
  rw [h]

theorem accrue_credits (s s1 : Engine A) (sender recipient : A) (amount : Nat)
    (hbal : amount ≤ s.balances sender) (h1 : accrue s sender recipient amount = .ok s1) :
    sender ≠ recipient → recipient ≠ s.ledgerAddress → sender ≠ s.ledgerAddress →
    s1.balances recipient
        = s.balances recipient + (amount - computeTax s sender recipient amount) ∧
    s1.balances s.ledgerAddress
        = s.balances s.ledgerAddress + computeTax s sender recipient amount := by
  intro hsr hrl hsl
  rw [accrue_ok s sender recipient amount hbal] at h1
  injection h1 with h1
  subst h1
  constructor
  · show credit _ _ _ recipient = _
    rw [credit_other _ _ _ _ hrl, credit_same, debit_other _ _ _ _ (Ne.symm hsr)]
  · show credit _ _ _ s.ledgerAddress = _
    rw [credit_same, credit_other _ _ _ _ (Ne.symm hrl),
      debit_other _ _ _ _ (Ne.symm hsl)]

theorem addToLast_length (r : Nat) (l : List Nat) : (addToLast r l).length = l.length := by
  induction l with
  | nil => rfl
  | cons x t ih =>
    cases t with
    | nil => rfl
    | cons y rest => simp [addToLast, ih]

theorem addToLast_sum (r : Nat) (l : List Nat) (h : l ≠ []) :
    (addToLast r l).sum = l.sum + r := by
  induction l with
  | nil => exact absurd rfl h
  | cons x t ih =>
    cases t with
    | nil => simp [addToLast]
    | cons y rest =>
      have := ih (by simp)
      simp only [addToLast, List.sum_cons] at this ⊢
      omega

theorem addToLast_getElem (r : Nat) (l : List Nat) (i : Nat) (h : i + 1 < l.length) :
    (addToLast r l)[i]? = l[i]? := by
  induction l generalizing i with
  | nil => simp at h
  | cons x t ih =>
    cases t with
    | nil => simp at h
    | cons y rest =>
      cases i with
      | zero => simp [addToLast]
      | succ j =>
        simp only [addToLast, List.getElem?_cons_succ]
        apply ih
        simpa using h

theorem addToLast_getLast (r : Nat) (l : List Nat) :
    (addToLast r l).getLast? = l.getLast?.map (fun x => x + r) := by
  induction l with
  | nil => rfl
  | cons x t ih =>
    cases t with
    | nil => simp [addToLast]
    | cons y rest =>
      have h1 : addToLast r (y :: rest) ≠ [] := by
        intro h0
        have := addToLast_length r (y :: rest)
        rw [h0] at this
        simp at this
      simp only [addToLast]
      rw [List.getLast?_cons_cons] at *
      cases hz : addToLast r (y :: rest) with
      | nil => exact absurd hz h1
      | cons z zs =>
        rw [List.getLast?_cons_cons, ← hz, ih]

theorem runCycle_locked (s : Engine A) (amount minOut : Nat) (poolResponse : Option Nat)
    (h : s.processingLock = true) :
    runCycle s amount minOut poolResponse = (s, ProcessReport.idle) := by
  unfold runCycle
  rw [if_pos h]

theorem accrue_lock (s s1 : Engine A) (sender recipient : A) (amount : Nat)
    (h : accrue s sender recipient amount = .ok s1) :
    s1.processingLock = s.processingLock ∧ s1.poolRegistry = s.poolRegistry ∧
      s1.ledgerAddress = s.ledgerAddress := by
  unfold accrue at h
  split at h
  · cases h
  · injection h with h
    subst h
    exact ⟨rfl, rfl, rfl⟩

theorem convert_frame (s s1 : Engine A) (amount minOut out : Nat) (poolResponse : Option Nat)
    (h : convert s amount minOut poolResponse = .ok (s1, out)) :
    s1.poolRegistry = s.poolRegistry ∧ s1.ledgerAddress = s.ledgerAddress := by
  unfold convert at h
  split at h
  · cases h
  · cases poolResponse with
    | none => cases h
    | some o =>
      simp only at h
      split at h
      · cases h
      · injection h with h
        injection h with h1 h2
        subst h1
        exact ⟨rfl, rfl⟩

theorem settle_frame (s1 : Engine A) (amount out : Nat) :
    (settle s1 amount out).1.poolRegistry = s1.poolRegistry ∧
      (settle s1 amount out).1.ledgerAddress = s1.ledgerAddress := by
  unfold settle
  cases distribute s1.collectorRegistry out <;> exact ⟨rfl, rfl⟩

theorem runCycle_frame (s : Engine A) (amount minOut : Nat) (poolResponse : Option Nat) :
    (runCycle s amount minOut poolResponse).1.poolRegistry = s.poolRegistry ∧
      (runCycle s amount minOut poolResponse).1.ledgerAddress = s.ledgerAddress := by
  unfold runCycle
  split
  · exact ⟨rfl, rfl⟩
  · cases hcv : convert { s with processingLock := true } amount minOut poolResponse with
    | error e => exact ⟨rfl, rfl⟩
    | ok r =>
      obtain ⟨s1, out⟩ := r
      have h1 := convert_frame _ s1 amount minOut out poolResponse hcv
      have h2 := settle_frame s1 amount out
      exact ⟨h2.1.trans h1.1, h2.2.trans h1.2⟩

theorem transfer_frame (s s1 : Engine A) (sender recipient : A) (amount : Nat)
    (poolResponse : Option Nat) (report : ProcessReport A)
    (h : transfer s sender recipient amount poolResponse = .ok (s1, report)) :
    s1.poolRegistry = s.poolRegistry ∧ s1.ledgerAddress = s.ledgerAddress := by
  cases ha : accrue s sender recipient amount with
  | error e =>
    unfold transfer at h
    rw [ha] at h
    cases h
  | ok s2 =>
    have hf := accrue_lock s s2 sender recipient amount ha
    rw [transfer_of_accrue s sender recipient amount poolResponse s2 ha] at h
    split at h
    · injection h with h
      have h3 := runCycle_frame s2 (s2.balances s2.ledgerAddress) 0 poolResponse
      have h4 : (process s2 poolResponse).1 = s1 := by rw [h]
      rw [← h4]
      exact ⟨h3.1.trans hf.2.1, h3.2.trans hf.2.2⟩
    · injection h with h
      injection h with h5 h6
      rw [← h5]
      exact ⟨hf.2.1, hf.2.2⟩

theorem applyStep_frame (s : Engine A) (t : TransferStep A) :
    (applyStep s t).poolRegistry = s.poolRegistry ∧
      (applyStep s t).ledgerAddress = s.ledgerAddress := by
  unfold applyStep
  cases ht : transfer s t.sender t.recipient t.amount t.poolResponse with
  | error e => exact ⟨rfl, rfl⟩
  | ok r =>
    obtain ⟨s1, report⟩ := r
    exact transfer_frame s s1 _ _ _ _ report ht

theorem processFees_frame (s s1 : Engine A) (caller : A) (amount minOut : Nat)
    (poolResponse : Option Nat) (report : ProcessReport A)
    (h : processFees s caller amount minOut poolResponse = .ok (s1, report)) :
    s1.poolRegistry = s.poolRegistry ∧ s1.ledgerAddress = s.ledgerAddress := by
  unfold processFees at h
  split at h
  · cases h
  · split at h
    · injection h with h
      injection h with h1 h2
      subst h1
      exact ⟨rfl, rfl⟩
    · split at h
      · cases h
      · injection h with h
        have h3 := runCycle_frame s amount minOut poolResponse
        rw [h] at h3
        exact h3

theorem distributeFees_frame (s s1 : Engine A) (caller : A) (amount : Nat) (inToken : Bool)
    (h : distributeFees s caller amount inToken = .ok s1) :
    s1.poolRegistry = s.poolRegistry ∧ s1.ledgerAddress = s.ledgerAddress := by
  unfold distributeFees at h
  split at h
  · cases h
  · split at h
    · split at h
      · cases h
      · cases hd : distribute s.collectorRegistry amount with
        | error e => rw [hd] at h; cases h
        | ok ps =>
          rw [hd] at h
          injection h with h
          subst h
          exact ⟨rfl, rfl⟩
    · split at h
      · cases h
      · cases hd : distribute s.collectorRegistry amount with
        | error e => rw [hd] at h; cases h
        | ok ps =>
          rw [hd] at h
          injection h with h
          subst h
          exact ⟨rfl, rfl⟩

theorem setNumTokensToSwap_frame (s s1 : Engine A) (caller : A) (x : Nat)
    (h : setNumTokensToSwap s caller x = .ok s1) :
    s1.poolRegistry = s.poolRegistry ∧ s1.ledgerAddress = s.ledgerAddress := by
  unfold setNumTokensToSwap at h
  split at h
  · cases h
  · injection h with h
    subst h
    exact ⟨rfl, rfl⟩

theorem setSwapRouter_consistent (derivePool : A → A → A → A) (s s1 : Engine A)
    (caller newRouter : A) (h : setSwapRouter derivePool s caller newRouter = .ok s1) :
    PoolConsistent derivePool s1 := by
  unfold setSwapRouter at h
  split at h
  · cases h
  · injection h with h
    subst h
    rfl

theorem applyOperation_consistent (derivePool : A → A → A → A) (s : Engine A)
    (op : Operation A) (h : PoolConsistent derivePool s) :
    PoolConsistent derivePool (applyOperation derivePool s op) := by
  cases op with
  | transfer step => exact PoolConsistent_of_frame derivePool s _ (applyStep_frame s step) h
  | processFees caller amount minOut poolResponse =>
    simp only [applyOperation]
    cases hp : processFees s caller amount minOut poolResponse with
    | error e => exact h
    | ok r =>
      obtain ⟨s1, report⟩ := r
      exact PoolConsistent_of_frame derivePool s s1
        (processFees_frame s s1 caller amount minOut poolResponse report hp) h
  | distributeFees caller amount inToken =>
    simp only [applyOperation]
    cases hp : distributeFees s caller amount inToken with
    | error e => exact h
    | ok s1 =>
      exact PoolConsistent_of_frame derivePool s s1
        (distributeFees_frame s s1 caller amount inToken hp) h
  | setNumTokensToSwap caller x =>
    simp only [applyOperation]
    cases hp : setNumTokensToSwap s caller x with
    | error e => exact h
    | ok s1 =>
      exact PoolConsistent_of_frame derivePool s s1 (setNumTokensToSwap_frame s s1 caller x hp) h
  | setSwapRouter caller newRouter =>
    simp only [applyOperation]
    cases hp : setSwapRouter derivePool s caller newRouter with
    | error e => exact h
    | ok s1 => exact setSwapRouter_consistent derivePool s s1 caller newRouter hp

theorem runOperations_consistent (derivePool : A → A → A → A) (s : Engine A)
    (ops : List (Operation A)) (h : PoolConsistent derivePool s) :
    PoolConsistent derivePool (runOperations derivePool s ops) := by
  induction ops generalizing s with
  | nil => exact h
  | cons op rest ih => exact ih _ (applyOperation_consistent derivePool s op h)

theorem creditAll_single (b : A → Nat) (a : A) (x : Nat) :
    creditAll b [(a, x)] = credit b a x := rfl

theorem distributeFees_single (s : Engine A) (collector : A) (amount : Nat)
    (hreg : s.collectorRegistry = [{ address := collector, shareWeight := 100 }])
    (hle : amount ≤ s.balances s.ledgerAddress) :
    distributeFees s s.administrator amount true
      = .ok { s with
          balances := credit (debit s.balances s.ledgerAddress amount) collector amount } := by
  unfold distributeFees
  rw [if_neg (fun h => h rfl), if_pos rfl, if_neg (Nat.not_lt.mpr hle), hreg, distribute_single]
  rfl

end EngineLemmas

section ConservationLemmas

variable {A : Type} [DecidableEq A] [Fintype A]

theorem sumBalances_credit (b : A → Nat) (a : A) (x : Nat) :
    sumBalances (credit b a x) = sumBalances b + x := by
  unfold sumBalances credit
  rw [Finset.sum_update_of_mem (Finset.mem_univ a)]
  have h := Finset.add_sum_erase Finset.univ b (Finset.mem_univ a)
  rw [Finset.sdiff_singleton_eq_erase]
  omega

theorem sumBalances_debit (b : A → Nat) (a : A) (x : Nat) (hx : x ≤ b a) :
    sumBalances (debit b a x) + x = sumBalances b := by
  unfold sumBalances debit
  rw [Finset.sum_update_of_mem (Finset.mem_univ a)]
  have h := Finset.add_sum_erase Finset.univ b (Finset.mem_univ a)
  rw [Finset.sdiff_singleton_eq_erase]
  omega

theorem accrue_conserved (s s1 : Engine A) (sender recipient : A) (amount : Nat)
    (h : accrue s sender recipient amount = .ok s1) (hc : Conserved s) : Conserved s1 := by
  by_cases hb : amount ≤ s.balances sender
  · rw [accrue_ok s sender recipient amount hb] at h
    injection h with h
    subst h
    unfold Conserved at hc ⊢
    show sumBalances (credit _ _ _) = s.totalSupply
    rw [sumBalances_credit, sumBalances_credit]
    have h1 := sumBalances_debit s.balances sender amount hb
    have h2 := computeTax_le s sender recipient amount
    omega
  · rw [accrue_error s sender recipient amount (Nat.lt_of_not_le hb)] at h
    cases h

theorem convert_conserved (s s1 : Engine A) (amount minOut out : Nat)
    (poolResponse : Option Nat)
    (h : convert s amount minOut poolResponse = .ok (s1, out)) (hc : Conserved s) :
    Conserved s1 := by
  unfold convert at h
  split at h
  · cases h
  · rename_i hb
    cases poolResponse with
    | none => cases h
    | some o =>
      simp only at h
      split at h
      · cases h
      · injection h with h
        injection h with h1 h2
        subst h1
        unfold Conserved at hc ⊢
        show sumBalances (credit _ _ _) = s.totalSupply
        rw [sumBalances_credit]
        have h1 := sumBalances_debit s.balances s.ledgerAddress amount (Nat.le_of_not_lt hb)
        omega

theorem settle_conserved (s1 : Engine A) (amount out : Nat) (hc : Conserved s1) :
    Conserved (settle s1 amount out).1 := by
  unfold settle
  cases distribute s1.collectorRegistry out <;> exact hc

theorem runCycle_conserved (s : Engine A) (amount minOut : Nat) (poolResponse : Option Nat)
    (hc : Conserved s) : Conserved (runCycle s amount minOut poolResponse).1 := by
  unfold runCycle
  split
  · exact hc
  · cases hcv : convert { s with processingLock := true } amount minOut poolResponse with
    | error e => exact hc
    | ok r =>
      obtain ⟨s1, out⟩ := r
      exact settle_conserved s1 amount out
        (convert_conserved _ s1 amount minOut out poolResponse hcv hc)

theorem transfer_conserved (s s1 : Engine A) (sender recipient : A) (amount : Nat)
    (poolResponse : Option Nat) (report : ProcessReport A)
    (h : transfer s sender recipient amount poolResponse = .ok (s1, report))
    (hc : Conserved s) : Conserved s1 := by
  cases ha : accrue s sender recipient amount with
  | error e =>
    unfold transfer at h
    rw [ha] at h
    cases h
  | ok s2 =>
    rw [transfer_of_accrue s sender recipient amount poolResponse s2 ha] at h
    have h2 : Conserved s2 := accrue_conserved s s2 sender recipient amount ha hc
    split at h
    · injection h with h
      have h3 := runCycle_conserved s2 (s2.balances s2.ledgerAddress) 0 poolResponse h2
      have h4 : (process s2 poolResponse).1 = s1 := by rw [h]
      rw [← h4]
      exact h3
    · injection h with h
      injection h with h5 h6
      rw [← h5]
      exact h2

theorem applyStep_conserved (s : Engine A) (t : TransferStep A) (hc : Conserved s) :
    Conserved (applyStep s t) := by
  unfold applyStep
  cases h : transfer s t.sender t.recipient t.amount t.poolResponse with
  | error e => exact hc
  | ok r =>
    obtain ⟨s1, report⟩ := r
    exact transfer_conserved s s1 _ _ _ _ report h hc

end ConservationLemmas

/-! ## Lemmas on the scripts -/

section ScriptLemmas

variable {σ : Type}

theorem script_bind_apply {W α β : Type} (m : Script W α) (f : α → Script W β) (w : W) :
    (m >>= f) w = match m w with
      | (.ok a, w1) => f a w1
      | (.error e, w1) => (.error e, w1) := rfl

theorem script_pure_apply {W α : Type} (a : α) (w : W) :
    (pure a : Script W α) w = (.ok a, w) := rfl

theorem script_tryCatch_apply {W α : Type} (body : Script W α) (handler : String → Script W α)
    (w : W) :
    Script.tryCatch body handler w = match body w with
      | (.ok a, w1) => (.ok a, w1)
      | (.error e, w1) => handler e w1 := rfl

theorem perform_apply {α : Type} (call : Call) (op : σ → Except String α × σ) (w : World σ) :
    perform call op w
      = ((op w.chain).1, { w with chain := (op w.chain).2, calls := w.calls ++ [call] }) := rfl

theorem logTestResult_apply (testName : String) (passed : Bool) (details : String)
    (w : World σ) :
    logTestResult testName passed details w
      = (.ok (), { w with results := recorded w.results testName passed details }) := by
  unfold logTestResult recorded
  cases passed <;> simp

theorem manual_main_run (formatUnits : Nat → String) (c : Chain σ) (w : World σ)
    (cb ts : Nat) (σ1 σ2 : σ)
    (h1 : c.balanceOf BSTR_TOKEN_ADDRESS w.chain = (.ok cb, σ1))
    (h2 : c.totalSupply σ1 = (.ok ts, σ2)) :
    (ManualProcessFees.main formatUnits c w).2.calls
        = w.calls ++ [.balanceOf BSTR_TOKEN_ADDRESS, .totalSupply, .processFees (ts / 10000) 0] ∧
    ∃ rest, (ManualProcessFees.main formatUnits c w).2.console
        = w.console ++ ["Contract balance: " ++ formatUnits cb ++ " BSTR",
            "Threshold: " ++ formatUnits (ts / 10000) ++ " BSTR",
            if cb < ts / 10000
            then "Threshold not met. processFees will likely revert or do nothing."
            else "Threshold met. Calling processFees..."] ++ rest := by
  simp only [ManualProcessFees.main, script_bind_apply, perform_apply, h1, h2, consoleLog]
  split <;> cases h : (c.processFees (ts / 10000) 0 σ2).1 <;>
    simp [script_bind_apply, perform_apply, consoleLog, h]

theorem testAutomaticProcessing_skip (c : Chain σ) (taxTester : Address) (w : World σ)
    (cb ts : Nat) (σ1 σ2 : σ)
    (h1 : c.balanceOf BSTR_TOKEN_ADDRESS w.chain = (.ok cb, σ1))
    (h2 : c.totalSupply σ1 = (.ok ts, σ2)) (hlt : cb < ts / 10000) :
    testAutomaticProcessing c taxTester w
      = (.ok false,
          { chain := σ2
            calls := w.calls ++ [.balanceOf BSTR_TOKEN_ADDRESS, .totalSupply]
            results := recorded w.results "Automatic Processing" true
              "Skipped - threshold not reached"
            console := w.console }) := by
  simp [testAutomaticProcessing, script_tryCatch_apply, script_bind_apply, perform_apply, h1, h2,
    hlt, logTestResult_apply, script_pure_apply]

theorem testThresholdTrigger_already (formatUnits : Nat → String) (c : Chain σ) (w : World σ)
    (cb ts : Nat) (σ1 σ2 : σ)
    (h1 : c.balanceOf BSTR_TOKEN_ADDRESS w.chain = (.ok cb, σ1))
    (h2 : c.totalSupply σ1 = (.ok ts, σ2)) (hge : ts / 10000 ≤ cb) :
    testThresholdTrigger formatUnits c w
      = (.ok true,
          { chain := σ2
            calls := w.calls ++ [.balanceOf BSTR_TOKEN_ADDRESS, .totalSupply]
            results := recorded w.results "Threshold Trigger" true "Threshold already reached"
            console := w.console }) := by
  simp [testThresholdTrigger, script_tryCatch_apply, script_bind_apply, perform_apply, h1, h2,
    hge, logTestResult_apply, script_pure_apply]

theorem grow_perform {α : Type} (call : Call) (op : σ → Except String α × σ) :
    CallsGrow (perform call op) := fun _ => ⟨[call], rfl⟩

theorem grow_logTestResult (testName : String) (passed : Bool) (details : String) :
    CallsGrow (logTestResult testName passed details : Script (World σ) Unit) := by
  intro w
  refine ⟨[], ?_⟩
  rw [logTestResult_apply]
  simp

theorem grow_consoleLog (line : String) : CallsGrow (consoleLog line : Script (World σ) Unit) :=
  fun w => ⟨[], by simp [consoleLog]⟩

theorem grow_pure {α : Type} (a : α) : CallsGrow (pure a : Script (World σ) α) :=
  fun w => ⟨[], by rw [script_pure_apply]; simp⟩

theorem grow_throw {α : Type} (message : String) :
    CallsGrow (Script.throw message : Script (World σ) α) :=
  fun w => ⟨[], by simp [Script.throw]⟩

theorem grow_bind {α β : Type} {m : Script (World σ) α} {f : α → Script (World σ) β}
    (hm : CallsGrow m) (hf : ∀ a, CallsGrow (f a)) : CallsGrow (m >>= f) := by
  intro w
  obtain ⟨r1, h1⟩ := hm w
  rw [script_bind_apply]
  rcases hmw : m w with ⟨e | a, w1⟩
  · rw [hmw] at h1
    exact ⟨r1, h1⟩
  · rw [hmw] at h1
    obtain ⟨r2, h2⟩ := hf a w1
    refine ⟨r1 ++ r2, ?_⟩
    simp only [h2]
    simp only [] at h1
    rw [h1, List.append_assoc]

theorem grow_tryCatch {α : Type} {body : Script (World σ) α}
    {handler : String → Script (World σ) α}
    (hb : CallsGrow body) (hh : ∀ e, CallsGrow (handler e)) :
    CallsGrow (Script.tryCatch body handler) := by
  intro w
  obtain ⟨r1, h1⟩ := hb w
  rw [script_tryCatch_apply]
  rcases hmw : body w with ⟨e | a, w1⟩
  · rw [hmw] at h1
    obtain ⟨r2, h2⟩ := hh e w1
    refine ⟨r1 ++ r2, ?_⟩
    simp only [h2]
    simp only [] at h1
    rw [h1, List.append_assoc]
  · rw [hmw] at h1
    exact ⟨r1, h1⟩

theorem grow_ite {α : Type} (p : Prop) [Decidable p] {m1 m2 : Script (World σ) α}
    (h1 : CallsGrow m1) (h2 : CallsGrow m2) : CallsGrow (if p then m1 else m2) := by
  split
  · exact h1
  · exact h2

theorem thresholdLoop_grows (c : Chain σ) (threshold : Nat) (remaining currentBalance : Nat) :
    CallsGrow (thresholdLoop c threshold remaining currentBalance) := by
  induction remaining generalizing currentBalance with
  | zero => exact grow_pure ()
  | succ n ih =>
    unfold thresholdLoop
    refine grow_ite _ ?_ (grow_pure ())
    refine grow_bind (grow_perform _ _) (fun _ => ?_)
    refine grow_bind (grow_perform _ _) (fun _ => ?_)
    refine grow_bind (grow_perform _ _) (fun balanceAfter => ?_)
    exact grow_ite _ (grow_pure ()) (ih balanceAfter)

/-- Calls already submitted are kept by a growing continuation. -/
theorem calls_kept_bind {α β : Type} (m : Script (World σ) α) (f : α → Script (World σ) β)
    (w : World σ) (pre : List Call) (hm : ∃ rest, (m w).2.calls = pre ++ rest)
    (hf : ∀ a, CallsGrow (f a)) : ∃ rest, ((m >>= f) w).2.calls = pre ++ rest := by
  obtain ⟨r1, h1⟩ := hm
  rw [script_bind_apply]
  rcases hmw : m w with ⟨e | a, w1⟩
  · rw [hmw] at h1
    exact ⟨r1, h1⟩
  · rw [hmw] at h1
    obtain ⟨r2, h2⟩ := hf a w1
    refine ⟨r1 ++ r2, ?_⟩
    simp only [h2]
    simp only [] at h1
    rw [h1, List.append_assoc]

theorem calls_kept_tryCatch {α : Type} (body : Script (World σ) α)
    (handler : String → Script (World σ) α) (w : World σ) (pre : List Call)
    (hb : ∃ rest, (body w).2.calls = pre ++ rest) (hh : ∀ e, CallsGrow (handler e)) :
    ∃ rest, (Script.tryCatch body handler w).2.calls = pre ++ rest := by
  obtain ⟨r1, h1⟩ := hb
  rw [script_tryCatch_apply]
  rcases hmw : body w with ⟨e | a, w1⟩
  · rw [hmw] at h1
    obtain ⟨r2, h2⟩ := hh e w1
    refine ⟨r1 ++ r2, ?_⟩
    simp only [h2]
    simp only [] at h1
    rw [h1, List.append_assoc]
  · rw [hmw] at h1
    exact ⟨r1, h1⟩

theorem testAutomaticProcessing_proceeds (c : Chain σ) (taxTester : Address) (w : World σ)
    (cb ts : Nat) (σ1 σ2 : σ)
    (h1 : c.balanceOf BSTR_TOKEN_ADDRESS w.chain = (.ok cb, σ1))
    (h2 : c.totalSupply σ1 = (.ok ts, σ2)) (hge : ts / 10000 ≤ cb) :
    ∃ rest, (testAutomaticProcessing c taxTester w).2.calls
      = w.calls ++ [.balanceOf BSTR_TOKEN_ADDRESS, .totalSupply, .balanceOf taxTester] ++ rest := by
  have hnlt : ¬ cb < ts / 10000 := Nat.not_lt.mpr hge
  unfold testAutomaticProcessing
  refine calls_kept_tryCatch _ _ w _ ?_ ?_
  · simp only [script_bind_apply, perform_apply, h1, h2, hnlt, if_false]
    refine calls_kept_bind _ _ _ _ ⟨[], by simp [perform_apply]⟩ ?_
    intro userBalance
    refine grow_ite _ (grow_throw _) ?_
    refine grow_bind (grow_perform _ _) (fun _ => ?_)
    refine grow_bind (grow_perform _ _) (fun _ => ?_)
    refine grow_bind (grow_perform _ _) (fun _ => ?_)
    refine grow_bind (grow_perform _ _) (fun _ => ?_)
    exact grow_bind (grow_logTestResult _ _ _) (fun _ => grow_pure _)
  · intro e
    exact grow_bind (grow_logTestResult _ _ _) (fun _ => grow_throw _)

theorem testThresholdTrigger_enters (formatUnits : Nat → String) (c : Chain σ) (w : World σ)
    (cb ts : Nat) (σ1 σ2 : σ)
    (h1 : c.balanceOf BSTR_TOKEN_ADDRESS w.chain = (.ok cb, σ1))
    (h2 : c.totalSupply σ1 = (.ok ts, σ2)) (hlt : cb < ts / 10000) :
    ∃ rest, (testThresholdTrigger formatUnits c w).2.calls
      = w.calls ++ [.balanceOf BSTR_TOKEN_ADDRESS, .totalSupply,
          .balanceOf BSTR_TOKEN_ADDRESS] ++ rest := by
  have hnge : ¬ cb ≥ ts / 10000 := Nat.not_le.mpr hlt
  unfold testThresholdTrigger
  refine calls_kept_tryCatch _ _ w _ ?_ ?_
  · simp only [script_bind_apply, perform_apply, h1, h2, hnge, if_false]
    refine calls_kept_bind _ _ _ _ ?_ ?_
    · rw [show MAX_TRADES = 34 + 1 from rfl, thresholdLoop, if_pos hlt]
      refine calls_kept_bind _ _ _ _ ⟨[], by simp [perform_apply]⟩ ?_
      intro _
      refine grow_bind (grow_perform _ _) (fun _ => ?_)
      refine grow_bind (grow_perform _ _) (fun balanceAfter => ?_)
      exact grow_ite _ (grow_pure ()) (thresholdLoop_grows c _ _ balanceAfter)
    · intro _
      refine grow_bind (grow_perform _ _) (fun _ => ?_)
      exact grow_bind (grow_logTestResult _ _ _) (fun _ => grow_pure _)
  · intro e
    exact grow_bind (grow_logTestResult _ _ _) (fun _ => grow_throw _)

end ScriptLemmas

/-! ## C1: tax rule and credits of a transfer -/

section ClaimsEngine

variable {A : Type} [DecidableEq A]

/-- C1 (amended): for every transfer whose sender holds at least `amount`, the
tax is 0 when sender or recipient is fee-exempt, otherwise
`amount * sellFeeBps / 10000` for a sell, otherwise `amount * buyFeeBps / 10000`
for a buy, otherwise 0; it never exceeds `amount`; the transfer succeeds; and
when it sets off no conversion and sender, recipient and the ledger's own
address are pairwise distinct, the recipient's balance grows by exactly
`amount - tax` and the ledger's own balance by exactly `tax`. -/
theorem transfer_tax_and_credit (s : Engine A) (sender recipient : A) (amount : Nat)
    (poolResponse : Option Nat) (hbal : amount ≤ s.balances sender) :
    (isExcludedFromFees s sender = true ∨ isExcludedFromFees s recipient = true →
      computeTax s sender recipient amount = 0) ∧
    (isExcludedFromFees s sender = false → isExcludedFromFees s recipient = false →
      isLpPool s recipient = true →
      computeTax s sender recipient amount = amount * s.feeConfiguration.sellFeeBps / 10000) ∧
    (isExcludedFromFees s sender = false → isExcludedFromFees s recipient = false →
      isLpPool s recipient = false → isLpPool s sender = true →
      computeTax s sender recipient amount = amount * s.feeConfiguration.buyFeeBps / 10000) ∧
    (isExcludedFromFees s sender = false → isExcludedFromFees s recipient = false →
      isLpPool s recipient = false → isLpPool s sender = false →
      computeTax s sender recipient amount = 0) ∧
    computeTax s sender recipient amount ≤ amount ∧
    ∃ s1 report, transfer s sender recipient amount poolResponse = .ok (s1, report) ∧
      (report.swapped = none → sender ≠ recipient → recipient ≠ s.ledgerAddress →
        sender ≠ s.ledgerAddress →
        s1.balances recipient
            = s.balances recipient + (amount - computeTax s sender recipient amount) ∧
        s1.balances s.ledgerAddress
            = s.balances s.ledgerAddress + computeTax s sender recipient amount) := by
  refine ⟨?_, ?_, ?_, ?_, computeTax_le s sender recipient amount, ?_⟩
  · intro h
    unfold computeTax
    rcases h with h | h <;> simp [h]
  · intro h1 h2 h3
    simp [computeTax, h1, h2, h3]
  · intro h1 h2 h3 h4
    simp [computeTax, h1, h2, h3, h4]
  · intro h1 h2 h3 h4
    simp [computeTax, h1, h2, h3, h4]
  · obtain ⟨s1, hs1⟩ : ∃ s1, accrue s sender recipient amount = .ok s1 :=
      ⟨_, accrue_ok s sender recipient amount hbal⟩
    have key := accrue_credits s s1 sender recipient amount hbal hs1
    rw [transfer_of_accrue s sender recipient amount poolResponse s1 hs1]
    split
    · refine ⟨(process s1 poolResponse).1, (process s1 poolResponse).2, rfl, ?_⟩
      intro hsw
      rw [process_swapped_none s1 poolResponse hsw]
      exact key
    · exact ⟨s1, ProcessReport.idle, rfl, fun _ => key⟩

/-- Witness of C1 (amended): a buy of 2000 out of the pool of the sample engine. -/
theorem transfer_tax_and_credit_witness :
    2000 ≤ sampleEngine.balances 3 ∧
    computeTax sampleEngine 3 4 2000 = 100 ∧
    ∃ s1 report, transfer sampleEngine 3 4 2000 none = .ok (s1, report) ∧
      (report.swapped = none → (3 : Fin 6) ≠ 4 → (4 : Fin 6) ≠ sampleEngine.ledgerAddress →
        (3 : Fin 6) ≠ sampleEngine.ledgerAddress →
        s1.balances 4 = sampleEngine.balances 4 + (2000 - computeTax sampleEngine 3 4 2000) ∧
        s1.balances sampleEngine.ledgerAddress
            = sampleEngine.balances sampleEngine.ledgerAddress
              + computeTax sampleEngine 3 4 2000) :=
  ⟨by decide, by decide,
    (transfer_tax_and_credit sampleEngine 3 4 2000 none (by decide)).2.2.2.2.2⟩

/-- C1 counterexample: in the sample engine the trader holds 9900 and the ledger
itself 100.  (a) A sell of 2000 into the pool carries a tax of 100 and arms the
threshold monitor (the ledger then holds 200, the threshold is 100): the accrued
balance is converted and the ledger's own balance ends at 0, not at 100 + 100.
(b) A transfer of 50 to the ledger's own address carries no tax, yet the
ledger's own balance grows by 50, not by the tax.  (c) A transfer of 50 from the
trader to the trader leaves the recipient's balance at 9900, not at 9950.
(d) A transfer of 50 out of the ledger's own balance carries no tax and leaves
the ledger's own balance at 50, not at 100. -/
theorem transfer_credit_counterexample :
    (2000 ≤ sampleEngine.balances 4 ∧
      computeTax sampleEngine 4 3 2000 = 100 ∧
      sampleEngine.balances sampleEngine.ledgerAddress = 100 ∧
      (transfer sampleEngine 4 3 2000 (some 7)).toOption.map
          (fun r => r.1.balances sampleEngine.ledgerAddress) = some 0) ∧
    (50 ≤ sampleEngine.balances 4 ∧
      computeTax sampleEngine 4 1 50 = 0 ∧
      (transfer sampleEngine 4 1 50 none).toOption.map
          (fun r => r.1.balances sampleEngine.ledgerAddress) = some 150) ∧
    (sampleEngine.balances 4 = 9900 ∧
      computeTax sampleEngine 4 4 50 = 0 ∧
      (transfer sampleEngine 4 4 50 none).toOption.map (fun r => r.1.balances 4) = some 9900) ∧
    (50 ≤ sampleEngine.balances sampleEngine.ledgerAddress ∧
      computeTax sampleEngine 1 4 50 = 0 ∧
      (transfer sampleEngine 1 4 50 none).toOption.map
          (fun r => r.1.balances sampleEngine.ledgerAddress) = some 50) := by
  decide

/-! ## C2: conservation -/

/-- C2: starting from a state whose balances add up to the total supply, after
every step of every sequence of transfers (taxed or not, converting or not,
accepted or rejected) the balances, the ledger's own accrued balance included,
still add up to the total supply. -/
theorem conservation [Fintype A] (s : Engine A) (steps : List (TransferStep A))
    (h : sumBalances s.balances = s.totalSupply) :
    ∀ t ∈ statesAfter s steps, sumBalances t.balances = t.totalSupply := by
  induction steps generalizing s with
  | nil => intro t ht; cases ht
  | cons step rest ih =>
    intro t ht
    have h1 : Conserved (applyStep s step) := applyStep_conserved s step h
    simp only [statesAfter, List.mem_cons] at ht
    rcases ht with ht | ht
    · rw [ht]; exact h1
    · exact ih (applyStep s step) h1 t ht

/-- Witness of C2: the sample engine and a sequence holding a converting sell, a
rejected transfer, a buy and a wallet-to-wallet transfer. -/
theorem conservation_witness :
    sumBalances sampleEngine.balances = sampleEngine.totalSupply ∧
    (statesAfter sampleEngine sampleSteps).length = 4 ∧
    ∀ t ∈ statesAfter sampleEngine sampleSteps, sumBalances t.balances = t.totalSupply :=
  ⟨by decide, by decide, conservation sampleEngine sampleSteps (by decide)⟩

end ClaimsEngine

section ClaimsExactness

variable {A : Type}

/-! ## C3: distribution exactness -/

/-- C3: for every non-empty collector registry with positive total weight and
every settlement amount, `distribute` succeeds and pays the collectors in
registry order; every collector but the last receives
`settlementAmount * weight / totalWeight` rounded down, the last receives its
floor share plus the whole rounding remainder; the payouts add up to exactly
`settlementAmount`; the remainder is at most `totalWeight - 1`; and for weights
60, 30, 10 and amount 101 the payouts are 60, 30, 11. -/
theorem distribute_exact (reg : List (Collector A)) (settlementAmount : Nat)
    (hne : reg ≠ []) (hW : 0 < totalWeight reg) :
    (∃ ps, distribute reg settlementAmount = .ok ps ∧
      ps.map Prod.fst = reg.map (fun c => c.address) ∧
      ps.map Prod.snd = payoutAmounts reg settlementAmount) ∧
    (payoutAmounts reg settlementAmount).length = reg.length ∧
    (∀ i, i + 1 < reg.length →
      (payoutAmounts reg settlementAmount)[i]?
        = reg[i]?.map (fun c => settlementAmount * c.shareWeight / totalWeight reg)) ∧
    (payoutAmounts reg settlementAmount).getLast?
      = reg.getLast?.map (fun c => settlementAmount * c.shareWeight / totalWeight reg
          + roundingRemainder reg settlementAmount) ∧
    (payoutAmounts reg settlementAmount).sum = settlementAmount ∧
    roundingRemainder reg settlementAmount + (floorShares reg settlementAmount).sum
      = settlementAmount ∧
    roundingRemainder reg settlementAmount ≤ totalWeight reg - 1 ∧
    payoutAmounts [(⟨1, 60⟩ : Collector Nat), ⟨2, 30⟩, ⟨3, 10⟩] 101 = [60, 30, 11] := by
  have hlen : (payoutAmounts reg settlementAmount).length = reg.length := by
    simp [payoutAmounts, addToLast_length, floorShares]
  have hfl : floorShares reg settlementAmount ≠ [] := by
    simpa [floorShares] using hne
  have hle := floorShares_sum_le reg settlementAmount hW
  refine ⟨?_, hlen, ?_, ?_, ?_, ?_, roundingRemainder_le reg settlementAmount hW, ?_⟩
  · cases reg with
    | nil => exact absurd rfl hne
    | cons c rest =>
      refine ⟨_, rfl, ?_, ?_⟩
      · apply List.map_fst_zip
        rw [hlen]; simp
      · apply List.map_snd_zip
        rw [hlen]; simp
  · intro i hi
    unfold payoutAmounts
    rw [addToLast_getElem _ _ _ (by simpa [floorShares] using hi)]
    simp [floorShares, floorShare]
  · unfold payoutAmounts
    rw [addToLast_getLast]
    simp only [floorShares, floorShare, List.getLast?_map, Option.map_map]
    rfl
  · unfold payoutAmounts
    rw [addToLast_sum _ _ hfl]
    unfold roundingRemainder
    omega
  · unfold roundingRemainder
    omega
  · decide

/-- Witness of C3: a registry of three collectors with weights 60, 30 and 10 and
a settlement amount of 101. -/
theorem distribute_exact_witness :
    ([⟨1, 60⟩, ⟨2, 30⟩, ⟨3, 10⟩] : List (Collector Nat)) ≠ [] ∧
    0 < totalWeight ([⟨1, 60⟩, ⟨2, 30⟩, ⟨3, 10⟩] : List (Collector Nat)) ∧
    (payoutAmounts ([⟨1, 60⟩, ⟨2, 30⟩, ⟨3, 10⟩] : List (Collector Nat)) 101).sum = 101 ∧
    roundingRemainder ([⟨1, 60⟩, ⟨2, 30⟩, ⟨3, 10⟩] : List (Collector Nat)) 101
      ≤ totalWeight ([⟨1, 60⟩, ⟨2, 30⟩, ⟨3, 10⟩] : List (Collector Nat)) - 1 :=
  ⟨by decide, by decide,
    (distribute_exact ([⟨1, 60⟩, ⟨2, 30⟩, ⟨3, 10⟩] : List (Collector Nat)) 101
      (by decide) (by decide)).2.2.2.2.1,
    (distribute_exact ([⟨1, 60⟩, ⟨2, 30⟩, ⟨3, 10⟩] : List (Collector Nat)) 101
      (by decide) (by decide)).2.2.2.2.2.2.1⟩

end ClaimsExactness

section ClaimsEngineTwo

variable {A : Type} [DecidableEq A]

/-! ## C7: a trigger under the lock -/

/-- C7: while the ProcessingLock is held the Threshold Monitor is not armed, and
a processing trigger, automatic or manual, returns without error, performs no
swap and no payout and leaves the whole state (accrued balance, every other
balance, the lock) as it was; a transfer made under the lock only does its
bookkeeping and leaves the lock held. -/
theorem locked_trigger_noop (s : Engine A) (amount minOut : Nat) (poolResponse : Option Nat)
    (transferExempt : Bool) (hlock : s.processingLock = true) :
    shouldProcess s transferExempt = false ∧
    process s poolResponse = (s, { swapped := none, payouts := [], failure := none }) ∧
    processFees s s.administrator amount minOut poolResponse
      = .ok (s, { swapped := none, payouts := [], failure := none }) ∧
    (∀ sender recipient amt s1, accrue s sender recipient amt = .ok s1 →
      transfer s sender recipient amt poolResponse
        = .ok (s1, { swapped := none, payouts := [], failure := none }) ∧
      s1.processingLock = true) := by
  refine ⟨?_, ?_, ?_, ?_⟩
  · simp [shouldProcess, hlock]
  · exact runCycle_locked s _ _ poolResponse hlock
  · unfold processFees
    simp [hlock, ProcessReport.idle]
  · intro sender recipient amt s1 h1
    have hl := (accrue_lock s s1 sender recipient amt h1).1
    rw [hlock] at hl
    refine ⟨?_, hl⟩
    rw [transfer_of_accrue s sender recipient amt poolResponse s1 h1]
    split
    · exact congrArg Except.ok (runCycle_locked s1 _ _ poolResponse hl)
    · rfl

/-- Witness of C7: the sample engine in the middle of a cycle. -/
theorem locked_trigger_noop_witness :
    lockedEngine.processingLock = true ∧
    process lockedEngine (some 7)
      = (lockedEngine, { swapped := none, payouts := [], failure := none }) :=
  ⟨rfl, (locked_trigger_noop lockedEngine 50 0 (some 7) false rfl).2.1⟩

/-! ## C8: router migration -/

/-- C8: when the pair lookup of the exchange never answers the zero address,
after the administrator calls `setSwapRouter(newRouter)` the getter `swapRouter`
returns `newRouter` and `swapPair` returns the non-zero pool derived from the new
router; and once the stored pool is the one derived from the stored router, it
stays so after every sequence of calls into the engine. -/
theorem setSwapRouter_rederives_pool (derivePool : A → A → A → A) (zeroAddress : A)
    (s : Engine A) (newRouter : A) (hderive : ∀ r l w, derivePool r l w ≠ zeroAddress) :
    (∃ s1, setSwapRouter derivePool s s.administrator newRouter = .ok s1 ∧
      swapRouter s1 = newRouter ∧
      swapPair s1 = derivePool newRouter s.ledgerAddress s.poolRegistry.settlementAssetAddress ∧
      swapPair s1 ≠ zeroAddress ∧
      PoolConsistent derivePool s1 ∧
      ∀ ops, PoolConsistent derivePool (runOperations derivePool s1 ops)) ∧
    (PoolConsistent derivePool s →
      ∀ ops, PoolConsistent derivePool (runOperations derivePool s ops)) := by
  refine ⟨?_, fun h ops => runOperations_consistent derivePool s ops h⟩
  have hrun : setSwapRouter derivePool s s.administrator newRouter
      = .ok { s with
          poolRegistry :=
            { routerAddress := newRouter
              settlementAssetAddress := s.poolRegistry.settlementAssetAddress
              poolAddress :=
                derivePool newRouter s.ledgerAddress s.poolRegistry.settlementAssetAddress } } := by
    unfold setSwapRouter
    rw [if_neg (fun h => h rfl)]
  have hc := setSwapRouter_consistent derivePool s _ s.administrator newRouter hrun
  exact ⟨_, hrun, rfl, rfl, hderive _ _ _, hc,
    fun ops => runOperations_consistent derivePool _ ops hc⟩

/-- Witness of C8: the sample engine migrated to router 4, every router being
served by pool 3 and 0 being the zero address. -/
theorem setSwapRouter_rederives_pool_witness :
    (∀ r l w, samplePool r l w ≠ (0 : Fin 6)) ∧
    ∃ s1, setSwapRouter samplePool sampleEngine sampleEngine.administrator 4 = .ok s1 ∧
      swapRouter s1 = 4 ∧
      swapPair s1 = samplePool 4 sampleEngine.ledgerAddress
        sampleEngine.poolRegistry.settlementAssetAddress ∧
      swapPair s1 ≠ 0 ∧
      PoolConsistent samplePool s1 ∧
      ∀ ops, PoolConsistent samplePool (runOperations samplePool s1 ops) :=
  ⟨fun _ _ _ => (by decide : (3 : Fin 6) ≠ 0),
    (setSwapRouter_rederives_pool samplePool 0 sampleEngine 4 (fun _ _ _ => (by decide : (3 : Fin 6) ≠ 0))).1⟩

/-! ## C9: the manual threshold setter -/

/-- C9: for every amount `x`, after the administrator calls
`setNumTokensToSwap(x)` the getter `numTokensToSwap` returns exactly `x` and every
other part of the state and of the configuration is unchanged; any other caller
is rejected; the amount of the test is `parseUnits("10000", 9) = 10000 * 10^9`. -/
theorem setNumTokensToSwap_roundtrip (s : Engine A) (x : Nat) :
    (∃ s1, setNumTokensToSwap s s.administrator x = .ok s1 ∧
      numTokensToSwap s1 = x ∧
      s1.ledgerAddress = s.ledgerAddress ∧ s1.administrator = s.administrator ∧
      s1.totalSupply = s.totalSupply ∧ s1.balances = s.balances ∧
      s1.settlementHoldings = s.settlementHoldings ∧
      s1.feeConfiguration = s.feeConfiguration ∧ s1.classification = s.classification ∧
      s1.thresholdPolicy.autoProcessEnabled = s.thresholdPolicy.autoProcessEnabled ∧
      s1.thresholdPolicy.thresholdDivisor = s.thresholdPolicy.thresholdDivisor ∧
      s1.collectorRegistry = s.collectorRegistry ∧ s1.poolRegistry = s.poolRegistry ∧
      s1.processingLock = s.processingLock) ∧
    (∀ caller, caller ≠ s.administrator →
      setNumTokensToSwap s caller x = .error .Unauthorized) ∧
    parseUnits 10000 9 = 10000 * 10 ^ 9 := by
  refine ⟨?_, ?_, rfl⟩
  · unfold setNumTokensToSwap
    rw [if_neg (fun h => h rfl)]
    exact ⟨_, rfl, rfl, rfl, rfl, rfl, rfl, rfl, rfl, rfl, rfl, rfl, rfl, rfl, rfl⟩
  · intro caller hc
    unfold setNumTokensToSwap
    rw [if_pos hc]

/-- Witness of C9: the amount of the test set on the sample engine, and the
trader rejected as a caller. -/
theorem setNumTokensToSwap_roundtrip_witness :
    (∃ s1, setNumTokensToSwap sampleEngine sampleEngine.administrator (parseUnits 10000 9)
        = .ok s1 ∧ numTokensToSwap s1 = parseUnits 10000 9) ∧
    setNumTokensToSwap sampleEngine 4 (parseUnits 10000 9) = .error .Unauthorized :=
  ⟨(setNumTokensToSwap_roundtrip sampleEngine (parseUnits 10000 9)).1.imp
      (fun _ h => ⟨h.1, h.2.1⟩),
    (setNumTokensToSwap_roundtrip sampleEngine (parseUnits 10000 9)).2.1 4 (by decide)⟩

end ClaimsEngineTwo

section ClaimsScripts

variable {σ : Type}

/-! ## C4: the threshold the scripts compare against -/

/-- C4 (amended): whatever the chain answers, and whatever manual override
`numTokensToSwap` holds, the scripts compare the contract's self-balance with
the supply-derived `totalSupply / 10000` rounded down: `testAutomaticProcessing`
skips exactly below it and otherwise goes on to read the tester's balance,
`testThresholdTrigger` reports the threshold as already reached exactly from it
on and otherwise enters its buying loop, and manual-process-fees prints
"Threshold not met" exactly below it.  This is the effective threshold of the
engine when no override is set and the divisor is 10000. -/
theorem scripts_compare_supply_threshold (formatUnits : Nat → String) (c : Chain σ)
    (taxTester : Address) (w : World σ) (cb ts : Nat) (σ1 σ2 : σ)
    (h1 : c.balanceOf BSTR_TOKEN_ADDRESS w.chain = (.ok cb, σ1))
    (h2 : c.totalSupply σ1 = (.ok ts, σ2)) :
    (cb < ts / 10000 →
      testAutomaticProcessing c taxTester w
        = (.ok false,
            { chain := σ2
              calls := w.calls ++ [.balanceOf BSTR_TOKEN_ADDRESS, .totalSupply]
              results := recorded w.results "Automatic Processing" true
                "Skipped - threshold not reached"
              console := w.console })) ∧
    (ts / 10000 ≤ cb →
      ∃ rest, (testAutomaticProcessing c taxTester w).2.calls
        = w.calls ++ [.balanceOf BSTR_TOKEN_ADDRESS, .totalSupply, .balanceOf taxTester]
            ++ rest) ∧
    (ts / 10000 ≤ cb →
      testThresholdTrigger formatUnits c w
        = (.ok true,
            { chain := σ2
              calls := w.calls ++ [.balanceOf BSTR_TOKEN_ADDRESS, .totalSupply]
              results := recorded w.results "Threshold Trigger" true "Threshold already reached"
              console := w.console })) ∧
    (cb < ts / 10000 →
      ∃ rest, (testThresholdTrigger formatUnits c w).2.calls
        = w.calls ++ [.balanceOf BSTR_TOKEN_ADDRESS, .totalSupply,
            .balanceOf BSTR_TOKEN_ADDRESS] ++ rest) ∧
    (∃ rest, (ManualProcessFees.main formatUnits c w).2.console
        = w.console ++ ["Contract balance: " ++ formatUnits cb ++ " BSTR",
            "Threshold: " ++ formatUnits (ts / 10000) ++ " BSTR",
            if cb < ts / 10000
            then "Threshold not met. processFees will likely revert or do nothing."
            else "Threshold met. Calling processFees..."] ++ rest) ∧
    (∀ e : Engine Address, e.thresholdPolicy.manualOverrideAmount = none →
      e.thresholdPolicy.thresholdDivisor = 10000 →
      effectiveThreshold e = e.totalSupply / 10000) :=
  ⟨testAutomaticProcessing_skip c taxTester w cb ts σ1 σ2 h1 h2,
    testAutomaticProcessing_proceeds c taxTester w cb ts σ1 σ2 h1 h2,
    testThresholdTrigger_already formatUnits c w cb ts σ1 σ2 h1 h2,
    testThresholdTrigger_enters formatUnits c w cb ts σ1 σ2 h1 h2,
    (manual_main_run formatUnits c w cb ts σ1 σ2 h1 h2).2,
    fun e hn hd => by simp [effectiveThreshold, hn, hd]⟩

/-- Witness of C4 (amended): the deployed engine with 5 * 10^13 accrued and no
override, seen through the scripts' calls. -/
theorem scripts_compare_supply_threshold_witness :
    (engineChain dryRouter none).balanceOf BSTR_TOKEN_ADDRESS
        (freshWorld (deployedEngine (5 * 10 ^ 13) none)).chain
      = (.ok (5 * 10 ^ 13), deployedEngine (5 * 10 ^ 13) none) ∧
    (engineChain dryRouter none).totalSupply (deployedEngine (5 * 10 ^ 13) none)
      = (.ok constructorArgs.initialSupply, deployedEngine (5 * 10 ^ 13) none) ∧
    5 * 10 ^ 13 < constructorArgs.initialSupply / 10000 ∧
    (testAutomaticProcessing (engineChain dryRouter none) 7
        (freshWorld (deployedEngine (5 * 10 ^ 13) none))).1 = .ok false :=
  ⟨rfl, rfl, by decide,
    congrArg Prod.fst ((scripts_compare_supply_threshold plainUnits (engineChain dryRouter none) 7
      (freshWorld (deployedEngine (5 * 10 ^ 13) none)) (5 * 10 ^ 13)
      constructorArgs.initialSupply (deployedEngine (5 * 10 ^ 13) none) (deployedEngine (5 * 10 ^ 13) none) rfl rfl).1
        (by decide))⟩

/-- C4 counterexample: the deployed engine with a manual override of
10000 * 10^9 set and 5 * 10^13 accrued.  The effective threshold is the
override, 10^13, and the self-balance is above it, so processing is armed; the
scripts compare with 10^18 / 10000 = 10^14 instead: `testAutomaticProcessing`
skips with "threshold not reached" and manual-process-fees prints "Threshold
not met". -/
theorem scripts_ignore_override_counterexample :
    numTokensToSwap (deployedEngine (5 * 10 ^ 13) (some (parseUnits 10000 9))) = 10 ^ 13 ∧
    effectiveThreshold (deployedEngine (5 * 10 ^ 13) (some (parseUnits 10000 9))) = 10 ^ 13 ∧
    balanceOf (deployedEngine (5 * 10 ^ 13) (some (parseUnits 10000 9))) BSTR_TOKEN_ADDRESS
      = 5 * 10 ^ 13 ∧
    (testAutomaticProcessing (engineChain dryRouter none) 7
        (freshWorld (deployedEngine (5 * 10 ^ 13) (some (parseUnits 10000 9))))).1.toOption
      = some false ∧
    (testAutomaticProcessing (engineChain dryRouter none) 7
        (freshWorld (deployedEngine (5 * 10 ^ 13) (some (parseUnits 10000 9))))).2.results.tests
      = [{ name := "Automatic Processing", passed := true,
           details := "Skipped - threshold not reached" }] ∧
    (ManualProcessFees.main plainUnits (engineChain dryRouter none)
        (freshWorld (deployedEngine (5 * 10 ^ 13) (some (parseUnits 10000 9))))).2.console[2]?
      = some "Threshold not met. processFees will likely revert or do nothing." := by
  decide

/-! ## C5: the supply-derived threshold -/

/-- C5: for every total supply the chain reports, the threshold the scripts
compute (the one `testContractState` returns and manual-process-fees submits) is
`totalSupply / 10000` rounded down, so `threshold * 10000 ≤ totalSupply <
(threshold + 1) * 10000`; for the deployed initial supply
`parseUnits("1000000000", 9) = 10^18` it is `100000 * 10^9 = 10^14`. -/
theorem supply_threshold_floor (formatUnits : Nat → String) (c : Chain σ) (w : World σ)
    (cb ts : Nat) (σ1 σ2 : σ)
    (h1 : c.balanceOf BSTR_TOKEN_ADDRESS w.chain = (.ok cb, σ1))
    (h2 : c.totalSupply σ1 = (.ok ts, σ2)) :
    (∃ threshold, (ManualProcessFees.main formatUnits c w).2.calls
        = w.calls ++ [.balanceOf BSTR_TOKEN_ADDRESS, .totalSupply, .processFees threshold 0] ∧
      threshold = ts / 10000 ∧
      threshold * 10000 ≤ ts ∧ ts < (threshold + 1) * 10000 ∧
      (ts = constructorArgs.initialSupply → threshold = 100000 * 10 ^ 9)) ∧
    (∀ auto n σ3 σ4, c.autoProcessFees σ2 = (.ok auto, σ3) →
      c.numTokensToSwap σ3 = (.ok n, σ4) →
      ∃ w1, testContractState c w
        = (.ok { contractBalance := cb, threshold := ts / 10000, autoProcessFees := auto }, w1)) ∧
    constructorArgs.initialSupply = 10 ^ 18 ∧
    constructorArgs.initialSupply / 10000 = 100000 * 10 ^ 9 ∧
    100000 * 10 ^ 9 = 10 ^ 14 := by
  refine ⟨⟨ts / 10000, (manual_main_run formatUnits c w cb ts σ1 σ2 h1 h2).1, rfl, ?_, ?_, ?_⟩,
    ?_, by decide, by decide, by decide⟩
  · exact Nat.div_mul_le_self ts 10000
  · have := Nat.div_add_mod ts 10000
    have := Nat.mod_lt ts (show 0 < 10000 by decide)
    omega
  · intro h
    rw [h]
    decide
  · intro auto n σ3 σ4 h3 h4
    refine ⟨{ chain := σ4
              calls := w.calls ++ [.balanceOf BSTR_TOKEN_ADDRESS, .totalSupply, .autoProcessFees,
                .numTokensToSwap]
              results := recorded w.results "Contract State Check" true
                "Contract state retrieved successfully"
              console := w.console }, ?_⟩
    simp [testContractState, script_tryCatch_apply, script_bind_apply, perform_apply, h1, h2,
      h3, h4, logTestResult_apply, script_pure_apply]

/-- Witness of C5: the deployed engine, seen through the scripts' calls. -/
theorem supply_threshold_floor_witness :
    (engineChain dryRouter none).balanceOf BSTR_TOKEN_ADDRESS
        (freshWorld (deployedEngine 0 none)).chain = (.ok 0, deployedEngine 0 none) ∧
    (engineChain dryRouter none).totalSupply (deployedEngine 0 none)
      = (.ok constructorArgs.initialSupply, deployedEngine 0 none) ∧
    ∃ threshold, (ManualProcessFees.main plainUnits (engineChain dryRouter none)
          (freshWorld (deployedEngine 0 none))).2.calls
        = (freshWorld (deployedEngine 0 none)).calls
            ++ [.balanceOf BSTR_TOKEN_ADDRESS, .totalSupply, .processFees threshold 0] ∧
      threshold = constructorArgs.initialSupply / 10000 ∧
      threshold * 10000 ≤ constructorArgs.initialSupply ∧
      constructorArgs.initialSupply < (threshold + 1) * 10000 ∧
      (constructorArgs.initialSupply = constructorArgs.initialSupply →
        threshold = 100000 * 10 ^ 9) :=
  ⟨rfl, rfl,
    (supply_threshold_floor plainUnits (engineChain dryRouter none)
      (freshWorld (deployedEngine 0 none)) 0 constructorArgs.initialSupply
      (deployedEngine 0 none) (deployedEngine 0 none) rfl rfl).1⟩

/-! ## C6: the amount of the manual processing call -/

/-- C6 (amended): whatever the contract balance and the total supply the chain
reports, manual-process-fees.js submits exactly one state-changing call,
`processFees(totalSupply / 10000, 0)`; the amount does not exceed the contract's
self-balance exactly when the threshold is met, which is exactly when the
script prints "Threshold met" rather than its warning. -/
theorem manual_main_submits_threshold (formatUnits : Nat → String) (c : Chain σ)
    (w : World σ) (cb ts : Nat) (σ1 σ2 : σ)
    (h1 : c.balanceOf BSTR_TOKEN_ADDRESS w.chain = (.ok cb, σ1))
    (h2 : c.totalSupply σ1 = (.ok ts, σ2)) :
    (ManualProcessFees.main formatUnits c w).2.calls
        = w.calls ++ [.balanceOf BSTR_TOKEN_ADDRESS, .totalSupply,
            .processFees (ts / 10000) 0] ∧
    (ts / 10000 ≤ cb ↔ ¬ cb < ts / 10000) ∧
    ∃ rest, (ManualProcessFees.main formatUnits c w).2.console
        = w.console ++ ["Contract balance: " ++ formatUnits cb ++ " BSTR",
            "Threshold: " ++ formatUnits (ts / 10000) ++ " BSTR",
            if ts / 10000 ≤ cb
            then "Threshold met. Calling processFees..."
            else "Threshold not met. processFees will likely revert or do nothing."]
          ++ rest := by
  refine ⟨(manual_main_run formatUnits c w cb ts σ1 σ2 h1 h2).1, Nat.not_lt.symm, ?_⟩
  obtain ⟨rest, hrest⟩ := (manual_main_run formatUnits c w cb ts σ1 σ2 h1 h2).2
  refine ⟨rest, ?_⟩
  rw [hrest]
  by_cases hlt : cb < ts / 10000
  · rw [if_pos hlt, if_neg (Nat.not_le.mpr hlt)]
  · rw [if_neg hlt, if_pos (Nat.not_lt.mp hlt)]

/-- Witness of C6 (amended): the deployed engine with 2 * 10^14 accrued. -/
theorem manual_main_submits_threshold_witness :
    (engineChain dryRouter (some 5)).balanceOf BSTR_TOKEN_ADDRESS
        (freshWorld (deployedEngine (2 * 10 ^ 14) none)).chain
      = (.ok (2 * 10 ^ 14), deployedEngine (2 * 10 ^ 14) none) ∧
    (engineChain dryRouter (some 5)).totalSupply (deployedEngine (2 * 10 ^ 14) none)
      = (.ok constructorArgs.initialSupply, deployedEngine (2 * 10 ^ 14) none) ∧
    (ManualProcessFees.main plainUnits (engineChain dryRouter (some 5))
        (freshWorld (deployedEngine (2 * 10 ^ 14) none))).2.calls
      = (freshWorld (deployedEngine (2 * 10 ^ 14) none)).calls
          ++ [.balanceOf BSTR_TOKEN_ADDRESS, .totalSupply,
              .processFees (constructorArgs.initialSupply / 10000) 0] :=
  ⟨rfl, rfl,
    (manual_main_submits_threshold plainUnits (engineChain dryRouter (some 5))
      (freshWorld (deployedEngine (2 * 10 ^ 14) none)) (2 * 10 ^ 14)
      constructorArgs.initialSupply (deployedEngine (2 * 10 ^ 14) none) (deployedEngine (2 * 10 ^ 14) none) rfl rfl).1⟩

/-- C6 counterexample: with nothing accrued (self-balance 0) and the deployed
supply of 10^18, manual-process-fees.js still submits `processFees(10^14, 0)`:
the amount exceeds the contract's self-balance. -/
theorem manual_main_exceeds_balance_counterexample :
    balanceOf (deployedEngine 0 none) BSTR_TOKEN_ADDRESS = 0 ∧
    (deployedEngine 0 none).totalSupply = 10 ^ 18 ∧
    (ManualProcessFees.main plainUnits (engineChain dryRouter none)
        (freshWorld (deployedEngine 0 none))).2.calls
      = [.balanceOf BSTR_TOKEN_ADDRESS, .totalSupply, .processFees (10 ^ 14) 0] ∧
    ¬ (10 ^ 14 ≤ balanceOf (deployedEngine 0 none) BSTR_TOKEN_ADDRESS) := by
  decide

end ClaimsScripts

section ClaimsDistribution

variable {σ : Type}

theorem testFeeDistribution_nothing (c : Chain σ) (w : World σ) (col : Nat) (σ1 σ2 : σ)
    (h1 : c.balanceOf BSTR_TOKEN_ADDRESS w.chain = (.ok 0, σ1))
    (h2 : c.balanceOf COLLECTOR_ADDRESS σ1 = (.ok col, σ2)) :
    testFeeDistribution c w
      = (.ok false,
          { chain := σ2
            calls := w.calls ++ [.balanceOf BSTR_TOKEN_ADDRESS, .balanceOf COLLECTOR_ADDRESS]
            results := recorded w.results "Fee Distribution" true "No fees to distribute"
            console := w.console }) := by
  simp [testFeeDistribution, script_tryCatch_apply, script_bind_apply, perform_apply, h1, h2,
    logTestResult_apply, script_pure_apply]

theorem testFeeDistribution_run (c : Chain σ) (w : World σ) (cb col ncb ncol : Nat)
    (σ1 σ2 σ3 σ4 σ5 : σ)
    (h1 : c.balanceOf BSTR_TOKEN_ADDRESS w.chain = (.ok cb, σ1))
    (h2 : c.balanceOf COLLECTOR_ADDRESS σ1 = (.ok col, σ2))
    (hne : cb ≠ 0)
    (h3 : c.distributeFees (cb / 10) true σ2 = (.ok (), σ3))
    (h4 : c.balanceOf BSTR_TOKEN_ADDRESS σ3 = (.ok ncb, σ4))
    (h5 : c.balanceOf COLLECTOR_ADDRESS σ4 = (.ok ncol, σ5)) :
    testFeeDistribution c w
      = (.ok (decide (ncb < cb) && decide (col < ncol)),
          { chain := σ5
            calls := w.calls ++ [.balanceOf BSTR_TOKEN_ADDRESS, .balanceOf COLLECTOR_ADDRESS,
              .distributeFees (cb / 10) true, .balanceOf BSTR_TOKEN_ADDRESS,
              .balanceOf COLLECTOR_ADDRESS]
            results := recorded w.results "Fee Distribution"
              (decide (ncb < cb) && decide (col < ncol))
              (if (decide (ncb < cb) && decide (col < ncol)) = true
               then "Fee distribution successful" else "Fee distribution failed")
            console := w.console }) := by
  have e1 : decide ((cb : Int) - (ncb : Int) > 0) = decide (ncb < cb) := by
    apply decide_eq_decide.mpr
    omega
  have e2 : decide ((ncol : Int) - (col : Int) > 0) = decide (col < ncol) := by
    apply decide_eq_decide.mpr
    omega
  simp only [testFeeDistribution, script_tryCatch_apply, script_bind_apply, perform_apply, h1, h2,
    h3, h4, h5, hne, if_false, logTestResult_apply, script_pure_apply, e1, e2]
  simp

theorem testFeeDistribution_records_once (c : Chain σ) (w : World σ) :
    ∃ p d, (testFeeDistribution c w).2.results = recorded w.results "Fee Distribution" p d ∧
      (∀ e, (testFeeDistribution c w).1 = .error e → p = false) := by
  rcases h1 : c.balanceOf BSTR_TOKEN_ADDRESS w.chain with ⟨e1 | cb, σ1⟩
  · refine ⟨false, e1, ?_, fun _ _ => rfl⟩
    simp [testFeeDistribution, script_tryCatch_apply, script_bind_apply, perform_apply, h1,
      logTestResult_apply, Script.throw, script_pure_apply]
  · rcases h2 : c.balanceOf COLLECTOR_ADDRESS σ1 with ⟨e2 | col, σ2⟩
    · refine ⟨false, e2, ?_, fun _ _ => rfl⟩
      simp [testFeeDistribution, script_tryCatch_apply, script_bind_apply, perform_apply, h1, h2,
        logTestResult_apply, Script.throw, script_pure_apply]
    · by_cases hz : cb = 0
      · subst hz
        rw [testFeeDistribution_nothing c w col σ1 σ2 h1 h2]
        exact ⟨true, _, rfl, fun e he => by cases he⟩
      · rcases h3 : c.distributeFees (cb / 10) true σ2 with ⟨e3 | u, σ3⟩
        · refine ⟨false, e3, ?_, fun _ _ => rfl⟩
          simp [testFeeDistribution, script_tryCatch_apply, script_bind_apply, perform_apply, h1,
            h2, h3, hz, logTestResult_apply, Script.throw, script_pure_apply]
        · rcases h4 : c.balanceOf BSTR_TOKEN_ADDRESS σ3 with ⟨e4 | ncb, σ4⟩
          · refine ⟨false, e4, ?_, fun _ _ => rfl⟩
            simp [testFeeDistribution, script_tryCatch_apply, script_bind_apply, perform_apply,
              h1, h2, h3, h4, hz, logTestResult_apply, Script.throw, script_pure_apply]
          · rcases h5 : c.balanceOf COLLECTOR_ADDRESS σ4 with ⟨e5 | ncol, σ5⟩
            · refine ⟨false, e5, ?_, fun _ _ => rfl⟩
              simp [testFeeDistribution, script_tryCatch_apply, script_bind_apply, perform_apply,
                h1, h2, h3, h4, h5, hz, logTestResult_apply, Script.throw, script_pure_apply]
            · rw [testFeeDistribution_run c w cb col ncb ncol σ1 σ2 σ3 σ4 σ5 h1 h2 hz h3 h4 h5]
              exact ⟨_, _, rfl, fun e he => by cases he⟩

/-- A call of `testFeeDistribution` that throws makes the test record a failure
with the call's message and throw that message. -/
theorem testFeeDistribution_rethrows (c : Chain σ) (w : World σ) :
    (∀ (e : String) (σ1 : σ),
      c.balanceOf BSTR_TOKEN_ADDRESS w.chain = (.error e, σ1) →
      (testFeeDistribution c w).1 = .error e ∧
      (testFeeDistribution c w).2.results = recorded w.results "Fee Distribution" false e) ∧
    (∀ (cb : Nat) (e : String) (σ1 σ2 : σ),
      c.balanceOf BSTR_TOKEN_ADDRESS w.chain = (.ok cb, σ1) →
      c.balanceOf COLLECTOR_ADDRESS σ1 = (.error e, σ2) →
      (testFeeDistribution c w).1 = .error e ∧
      (testFeeDistribution c w).2.results = recorded w.results "Fee Distribution" false e) ∧
    (∀ (cb col : Nat) (e : String) (σ1 σ2 σ3 : σ),
      c.balanceOf BSTR_TOKEN_ADDRESS w.chain = (.ok cb, σ1) →
      c.balanceOf COLLECTOR_ADDRESS σ1 = (.ok col, σ2) → cb ≠ 0 →
      c.distributeFees (cb / 10) true σ2 = (.error e, σ3) →
      (testFeeDistribution c w).1 = .error e ∧
      (testFeeDistribution c w).2.results = recorded w.results "Fee Distribution" false e) ∧
    (∀ (cb col : Nat) (e : String) (σ1 σ2 σ3 σ4 : σ),
      c.balanceOf BSTR_TOKEN_ADDRESS w.chain = (.ok cb, σ1) →
      c.balanceOf COLLECTOR_ADDRESS σ1 = (.ok col, σ2) → cb ≠ 0 →
      c.distributeFees (cb / 10) true σ2 = (.ok (), σ3) →
      c.balanceOf BSTR_TOKEN_ADDRESS σ3 = (.error e, σ4) →
      (testFeeDistribution c w).1 = .error e ∧
      (testFeeDistribution c w).2.results = recorded w.results "Fee Distribution" false e) ∧
    (∀ (cb col ncb : Nat) (e : String) (σ1 σ2 σ3 σ4 σ5 : σ),
      c.balanceOf BSTR_TOKEN_ADDRESS w.chain = (.ok cb, σ1) →
      c.balanceOf COLLECTOR_ADDRESS σ1 = (.ok col, σ2) → cb ≠ 0 →
      c.distributeFees (cb / 10) true σ2 = (.ok (), σ3) →
      c.balanceOf BSTR_TOKEN_ADDRESS σ3 = (.ok ncb, σ4) →
      c.balanceOf COLLECTOR_ADDRESS σ4 = (.error e, σ5) →
      (testFeeDistribution c w).1 = .error e ∧
      (testFeeDistribution c w).2.results = recorded w.results "Fee Distribution" false e) := by
  refine ⟨?_, ?_, ?_, ?_, ?_⟩
  · intro e σ1 h1
    simp [testFeeDistribution, script_tryCatch_apply, script_bind_apply, perform_apply, h1,
      logTestResult_apply, Script.throw, script_pure_apply]
  · intro cb e σ1 σ2 h1 h2
    simp [testFeeDistribution, script_tryCatch_apply, script_bind_apply, perform_apply, h1, h2,
      logTestResult_apply, Script.throw, script_pure_apply]
  · intro cb col e σ1 σ2 σ3 h1 h2 hz h3
    simp [testFeeDistribution, script_tryCatch_apply, script_bind_apply, perform_apply, h1, h2,
      h3, hz, logTestResult_apply, Script.throw, script_pure_apply]
  · intro cb col e σ1 σ2 σ3 σ4 h1 h2 hz h3 h4
    simp [testFeeDistribution, script_tryCatch_apply, script_bind_apply, perform_apply, h1, h2,
      h3, h4, hz, logTestResult_apply, Script.throw, script_pure_apply]
  · intro cb col ncb e σ1 σ2 σ3 σ4 σ5 h1 h2 hz h3 h4 h5
    simp [testFeeDistribution, script_tryCatch_apply, script_bind_apply, perform_apply, h1, h2,
      h3, h4, h5, hz, logTestResult_apply, Script.throw, script_pure_apply]

/-- The test throws only when one of its calls throws, and then with the
message of that call. -/
theorem testFeeDistribution_throws_only (c : Chain σ) (w : World σ) (e : String)
    (hthrows : (testFeeDistribution c w).1 = .error e) :
    (∃ σ1, c.balanceOf BSTR_TOKEN_ADDRESS w.chain = (.error e, σ1)) ∨
    (∃ cb σ1 σ2, c.balanceOf BSTR_TOKEN_ADDRESS w.chain = (.ok cb, σ1) ∧
      c.balanceOf COLLECTOR_ADDRESS σ1 = (.error e, σ2)) ∨
    (∃ cb col σ1 σ2 σ3, c.balanceOf BSTR_TOKEN_ADDRESS w.chain = (.ok cb, σ1) ∧
      c.balanceOf COLLECTOR_ADDRESS σ1 = (.ok col, σ2) ∧ cb ≠ 0 ∧
      c.distributeFees (cb / 10) true σ2 = (.error e, σ3)) ∨
    (∃ cb col σ1 σ2 σ3 σ4, c.balanceOf BSTR_TOKEN_ADDRESS w.chain = (.ok cb, σ1) ∧
      c.balanceOf COLLECTOR_ADDRESS σ1 = (.ok col, σ2) ∧ cb ≠ 0 ∧
      c.distributeFees (cb / 10) true σ2 = (.ok (), σ3) ∧
      c.balanceOf BSTR_TOKEN_ADDRESS σ3 = (.error e, σ4)) ∨
    (∃ cb col ncb σ1 σ2 σ3 σ4 σ5, c.balanceOf BSTR_TOKEN_ADDRESS w.chain = (.ok cb, σ1) ∧
      c.balanceOf COLLECTOR_ADDRESS σ1 = (.ok col, σ2) ∧ cb ≠ 0 ∧
      c.distributeFees (cb / 10) true σ2 = (.ok (), σ3) ∧
      c.balanceOf BSTR_TOKEN_ADDRESS σ3 = (.ok ncb, σ4) ∧
      c.balanceOf COLLECTOR_ADDRESS σ4 = (.error e, σ5)) := by
  obtain ⟨r1, r2, r3, r4, r5⟩ := testFeeDistribution_rethrows c w
  rcases h1 : c.balanceOf BSTR_TOKEN_ADDRESS w.chain with ⟨e1 | cb, σ1⟩
  · have h := (r1 e1 σ1 h1).1
    rw [h] at hthrows
    injection hthrows with he
    subst he
    exact Or.inl ⟨σ1, rfl⟩
  rcases h2 : c.balanceOf COLLECTOR_ADDRESS σ1 with ⟨e2 | col, σ2⟩
  · have h := (r2 cb e2 σ1 σ2 h1 h2).1
    rw [h] at hthrows
    injection hthrows with he
    subst he
    exact Or.inr (Or.inl ⟨cb, σ1, σ2, rfl, h2⟩)
  by_cases hz : cb = 0
  · subst hz
    rw [testFeeDistribution_nothing c w col σ1 σ2 h1 h2] at hthrows
    cases hthrows
  rcases h3 : c.distributeFees (cb / 10) true σ2 with ⟨e3 | u, σ3⟩
  · have h := (r3 cb col e3 σ1 σ2 σ3 h1 h2 hz h3).1
    rw [h] at hthrows
    injection hthrows with he
    subst he
    exact Or.inr (Or.inr (Or.inl ⟨cb, col, σ1, σ2, σ3, rfl, h2, hz, h3⟩))
  rcases h4 : c.balanceOf BSTR_TOKEN_ADDRESS σ3 with ⟨e4 | ncb, σ4⟩
  · have h := (r4 cb col e4 σ1 σ2 σ3 σ4 h1 h2 hz h3 h4).1
    rw [h] at hthrows
    injection hthrows with he
    subst he
    exact Or.inr (Or.inr (Or.inr (Or.inl ⟨cb, col, σ1, σ2, σ3, σ4, rfl, h2, hz, h3, h4⟩)))
  rcases h5 : c.balanceOf COLLECTOR_ADDRESS σ4 with ⟨e5 | ncol, σ5⟩
  · have h := (r5 cb col ncb e5 σ1 σ2 σ3 σ4 σ5 h1 h2 hz h3 h4 h5).1
    rw [h] at hthrows
    injection hthrows with he
    subst he
    exact Or.inr (Or.inr (Or.inr (Or.inr
      ⟨cb, col, ncb, σ1, σ2, σ3, σ4, σ5, rfl, h2, hz, h3, h4, h5⟩)))
  · rw [testFeeDistribution_run c w cb col ncb ncol σ1 σ2 σ3 σ4 σ5 h1 h2 hz h3 h4 h5] at hthrows
    cases hthrows

/-! ## C10: manual distribution and its test -/

/-- C10 (amended): with a single collector holding all 100 shares who is not the
contract itself, for every positive amount not exceeding the contract's accrued
self-balance `distributeFees(amount, true)` succeeds, lowers the contract's
self-balance by `amount` and raises the collector's balance by `amount`, both
strictly.  When no call throws, `testFeeDistribution` records a pass exactly
when the contract balance was 0 or both strict changes were observed, and a
failure otherwise; in every run it records exactly one result.  When a call
throws (either read before the distribution, `distributeFees` itself, or
either read after it) the test records a failure with that call's message and
throws that message; and the test throws only when one of these calls throws. -/
theorem distributeFees_and_its_test :
    (∀ (A : Type) [DecidableEq A] (s : Engine A) (collector : A) (amount : Nat),
      s.collectorRegistry = [{ address := collector, shareWeight := 100 }] →
      collector ≠ s.ledgerAddress → 0 < amount → amount ≤ s.balances s.ledgerAddress →
      ∃ s1, distributeFees s s.administrator amount true = .ok s1 ∧
        s1.balances s.ledgerAddress + amount = s.balances s.ledgerAddress ∧
        s1.balances collector = s.balances collector + amount ∧
        s1.balances s.ledgerAddress < s.balances s.ledgerAddress ∧
        s.balances collector < s1.balances collector) ∧
    (∀ (σ : Type) (c : Chain σ) (w : World σ) (cb col : Nat) (σ1 σ2 : σ),
      c.balanceOf BSTR_TOKEN_ADDRESS w.chain = (.ok cb, σ1) →
      c.balanceOf COLLECTOR_ADDRESS σ1 = (.ok col, σ2) →
      (cb = 0 →
        (testFeeDistribution c w).1 = .ok false ∧
        (testFeeDistribution c w).2.results
          = recorded w.results "Fee Distribution" true "No fees to distribute") ∧
      (cb ≠ 0 → ∀ (ncb ncol : Nat) (σ3 σ4 σ5 : σ),
        c.distributeFees (cb / 10) true σ2 = (.ok (), σ3) →
        c.balanceOf BSTR_TOKEN_ADDRESS σ3 = (.ok ncb, σ4) →
        c.balanceOf COLLECTOR_ADDRESS σ4 = (.ok ncol, σ5) →
        ∃ passed details,
          (testFeeDistribution c w).1 = .ok passed ∧
          (testFeeDistribution c w).2.results
            = recorded w.results "Fee Distribution" passed details ∧
          (passed = true ↔ ncb < cb ∧ col < ncol))) ∧
    (∀ (σ : Type) (c : Chain σ) (w : World σ),
      ∃ passed details,
        (testFeeDistribution c w).2.results
          = recorded w.results "Fee Distribution" passed details ∧
        (∀ e, (testFeeDistribution c w).1 = .error e → passed = false)) ∧
    (∀ (σ : Type) (c : Chain σ) (w : World σ),
      (∀ (e : String) (σ1 : σ),
        c.balanceOf BSTR_TOKEN_ADDRESS w.chain = (.error e, σ1) →
        (testFeeDistribution c w).1 = .error e ∧
        (testFeeDistribution c w).2.results = recorded w.results "Fee Distribution" false e) ∧
      (∀ (cb : Nat) (e : String) (σ1 σ2 : σ),
        c.balanceOf BSTR_TOKEN_ADDRESS w.chain = (.ok cb, σ1) →
        c.balanceOf COLLECTOR_ADDRESS σ1 = (.error e, σ2) →
        (testFeeDistribution c w).1 = .error e ∧
        (testFeeDistribution c w).2.results = recorded w.results "Fee Distribution" false e) ∧
      (∀ (cb col : Nat) (e : String) (σ1 σ2 σ3 : σ),
        c.balanceOf BSTR_TOKEN_ADDRESS w.chain = (.ok cb, σ1) →
        c.balanceOf COLLECTOR_ADDRESS σ1 = (.ok col, σ2) → cb ≠ 0 →
        c.distributeFees (cb / 10) true σ2 = (.error e, σ3) →
        (testFeeDistribution c w).1 = .error e ∧
        (testFeeDistribution c w).2.results = recorded w.results "Fee Distribution" false e) ∧
      (∀ (cb col : Nat) (e : String) (σ1 σ2 σ3 σ4 : σ),
        c.balanceOf BSTR_TOKEN_ADDRESS w.chain = (.ok cb, σ1) →
        c.balanceOf COLLECTOR_ADDRESS σ1 = (.ok col, σ2) → cb ≠ 0 →
        c.distributeFees (cb / 10) true σ2 = (.ok (), σ3) →
        c.balanceOf BSTR_TOKEN_ADDRESS σ3 = (.error e, σ4) →
        (testFeeDistribution c w).1 = .error e ∧
        (testFeeDistribution c w).2.results = recorded w.results "Fee Distribution" false e) ∧
      (∀ (cb col ncb : Nat) (e : String) (σ1 σ2 σ3 σ4 σ5 : σ),
        c.balanceOf BSTR_TOKEN_ADDRESS w.chain = (.ok cb, σ1) →
        c.balanceOf COLLECTOR_ADDRESS σ1 = (.ok col, σ2) → cb ≠ 0 →
        c.distributeFees (cb / 10) true σ2 = (.ok (), σ3) →
        c.balanceOf BSTR_TOKEN_ADDRESS σ3 = (.ok ncb, σ4) →
        c.balanceOf COLLECTOR_ADDRESS σ4 = (.error e, σ5) →
        (testFeeDistribution c w).1 = .error e ∧
        (testFeeDistribution c w).2.results = recorded w.results "Fee Distribution" false e)) ∧
    (∀ (σ : Type) (c : Chain σ) (w : World σ) (e : String),
      (testFeeDistribution c w).1 = .error e →
      (∃ σ1, c.balanceOf BSTR_TOKEN_ADDRESS w.chain = (.error e, σ1)) ∨
      (∃ cb σ1 σ2, c.balanceOf BSTR_TOKEN_ADDRESS w.chain = (.ok cb, σ1) ∧
        c.balanceOf COLLECTOR_ADDRESS σ1 = (.error e, σ2)) ∨
      (∃ cb col σ1 σ2 σ3, c.balanceOf BSTR_TOKEN_ADDRESS w.chain = (.ok cb, σ1) ∧
        c.balanceOf COLLECTOR_ADDRESS σ1 = (.ok col, σ2) ∧ cb ≠ 0 ∧
        c.distributeFees (cb / 10) true σ2 = (.error e, σ3)) ∨
      (∃ cb col σ1 σ2 σ3 σ4, c.balanceOf BSTR_TOKEN_ADDRESS w.chain = (.ok cb, σ1) ∧
        c.balanceOf COLLECTOR_ADDRESS σ1 = (.ok col, σ2) ∧ cb ≠ 0 ∧
        c.distributeFees (cb / 10) true σ2 = (.ok (), σ3) ∧
        c.balanceOf BSTR_TOKEN_ADDRESS σ3 = (.error e, σ4)) ∨
      (∃ cb col ncb σ1 σ2 σ3 σ4 σ5, c.balanceOf BSTR_TOKEN_ADDRESS w.chain = (.ok cb, σ1) ∧
        c.balanceOf COLLECTOR_ADDRESS σ1 = (.ok col, σ2) ∧ cb ≠ 0 ∧
        c.distributeFees (cb / 10) true σ2 = (.ok (), σ3) ∧
        c.balanceOf BSTR_TOKEN_ADDRESS σ3 = (.ok ncb, σ4) ∧
        c.balanceOf COLLECTOR_ADDRESS σ4 = (.error e, σ5))) := by
  refine ⟨?_, ?_, fun σ c w => testFeeDistribution_records_once c w,
    fun σ c w => testFeeDistribution_rethrows c w,
    fun σ c w e h => testFeeDistribution_throws_only c w e h⟩
  · intro A _ s collector amount hreg hne hpos hle
    refine ⟨_, distributeFees_single s collector amount hreg hle, ?_, ?_, ?_, ?_⟩
    · show credit _ _ _ s.ledgerAddress + amount = _
      rw [credit_other _ _ _ _ (Ne.symm hne), debit_same]
      omega
    · show credit _ _ _ collector = _
      rw [credit_same, debit_other _ _ _ _ hne]
    · show credit _ _ _ s.ledgerAddress < _
      rw [credit_other _ _ _ _ (Ne.symm hne), debit_same]
      omega
    · show _ < credit _ _ _ collector
      rw [credit_same, debit_other _ _ _ _ hne]
      omega
  · intro σ c w cb col σ1 σ2 h1 h2
    constructor
    · intro hz
      subst hz
      rw [testFeeDistribution_nothing c w col σ1 σ2 h1 h2]
      exact ⟨rfl, rfl⟩
    · intro hne ncb ncol σ3 σ4 σ5 h3 h4 h5
      rw [testFeeDistribution_run c w cb col ncb ncol σ1 σ2 σ3 σ4 σ5 h1 h2 hne h3 h4 h5]
      refine ⟨_, _, rfl, rfl, ?_⟩
      simp

/-- Witness of C10 (amended): 50 distributed on the sample engine, whose only
collector is address 5 and whose own address is 1; the test run on the deployed
engine with nothing accrued (nothing to distribute) and with 1000 accrued (100
distributed, the test passes); and the test run on a chain whose second read
times out (the test throws "timeout"). -/
theorem distributeFees_and_its_test_witness :
    (∃ s1, distributeFees sampleEngine sampleEngine.administrator 50 true = .ok s1 ∧
      s1.balances sampleEngine.ledgerAddress + 50 = sampleEngine.balances sampleEngine.ledgerAddress ∧
      s1.balances 5 = sampleEngine.balances 5 + 50 ∧
      s1.balances sampleEngine.ledgerAddress < sampleEngine.balances sampleEngine.ledgerAddress ∧
      sampleEngine.balances 5 < s1.balances 5) ∧
    (testFeeDistribution (engineChain dryRouter none) (freshWorld (deployedEngine 0 none))).1
      = .ok false ∧
    (testFeeDistribution (engineChain dryRouter none) (freshWorld (deployedEngine 1000 none))).1
      = .ok true ∧
    ((testFeeDistribution flakyChain (freshWorld 0)).1 = .error "timeout" ∧
      (testFeeDistribution flakyChain (freshWorld 0)).2.results
        = recorded (freshWorld (0 : Nat)).results "Fee Distribution" false "timeout") :=
  ⟨distributeFees_and_its_test.1 (Fin 6) sampleEngine 5 50 rfl (by decide) (by decide)
      (by decide),
    ((distributeFees_and_its_test.2.1 (Engine Address) (engineChain dryRouter none)
      (freshWorld (deployedEngine 0 none)) 0 0 (deployedEngine 0 none) (deployedEngine 0 none)
      rfl rfl).1 rfl).1,
    Exists.elim
      ((distributeFees_and_its_test.2.1 (Engine Address) (engineChain dryRouter none)
        (freshWorld (deployedEngine 1000 none)) 1000 0 (deployedEngine 1000 none)
        (deployedEngine 1000 none) rfl rfl).2 (by decide) 900 100
        ((engineChain dryRouter none).distributeFees 100 true (deployedEngine 1000 none)).2
        ((engineChain dryRouter none).distributeFees 100 true (deployedEngine 1000 none)).2
        ((engineChain dryRouter none).distributeFees 100 true (deployedEngine 1000 none)).2
        rfl rfl rfl)
      (fun passed hpassed => Exists.elim hpassed (fun _ h =>
        h.1.trans (congrArg Except.ok (h.2.2.mpr ⟨by decide, by decide⟩)))),
    (distributeFees_and_its_test.2.2.2.1 Nat flakyChain (freshWorld 0)).2.1 0 "timeout" 1 2
      rfl rfl⟩

/-- C10 counterexample: (a) when the only collector is the contract itself
(address 1 of the sample engine, which holds 100), `distributeFees(50, true)`
succeeds and the contract's self-balance is still 100: it has not strictly
decreased.  (b) On a chain whose first read returns a contract balance of 0 and
whose second read times out, `testFeeDistribution` throws and records a failure
although the contract balance was 0. -/
theorem distributeFees_test_counterexample :
    (selfCollectorEngine.collectorRegistry
        = [{ address := selfCollectorEngine.ledgerAddress, shareWeight := 100 }] ∧
      50 ≤ selfCollectorEngine.balances selfCollectorEngine.ledgerAddress ∧
      (distributeFees selfCollectorEngine selfCollectorEngine.administrator 50 true).toOption.map
          (fun s1 => s1.balances selfCollectorEngine.ledgerAddress)
        = some (selfCollectorEngine.balances selfCollectorEngine.ledgerAddress)) ∧
    ((flakyChain.balanceOf BSTR_TOKEN_ADDRESS (freshWorld 0).chain).1.toOption = some 0 ∧
      (testFeeDistribution flakyChain (freshWorld 0)).1.toOption = none ∧
      (testFeeDistribution flakyChain (freshWorld 0)).2.results
        = { passed := 0, failed := 1, skipped := 0,
            tests := [{ name := "Fee Distribution", passed := false, details := "timeout" }] }) := by
  decide

end ClaimsDistribution


/-! ## C11: the constructor-argument scripts -/

/-- C11: in each of the four constructor-argument scripts (constructor-args.js,
getConstructorArgs.js, getConstructorArgsPayable.js,
getConstructorArgsSingleLine.js) the collectors list and the shares list have
the same length and the shares add up to exactly 100. -/
theorem constructor_scripts_shares :
    constructorArgumentScripts.length = 4 ∧
    ∀ args ∈ constructorArgumentScripts,
      args.collectors.length = args.shares.length ∧ args.shares.sum = 100 := by
  decide

/-! ## Lemmas on the cleanup script -/

section CleanupLemmas

open Cleanup

variable {φ : Type}

theorem pathJoin_injective (scriptsDir a b : String)
    (h : pathJoin scriptsDir a = pathJoin scriptsDir b) : a = b := by
  unfold pathJoin at h
  have h1 := congrArg String.data h
  simp only [String.data_append, List.append_assoc] at h1
  have h2 := List.append_cancel_left (List.append_cancel_left h1)
  exact String.ext h2

theorem removeScript_invariant (fsys : FileSystem φ) (scriptsDir : String)
    (state : Counters × CleanupWorld φ) (script : String) :
    RemovalInvariant scriptsDir [script] state (removeScript fsys scriptsDir state script) := by
  unfold removeScript RemovalInvariant
  split
  · rcases hu : fsys.unlinkSync (pathJoin scriptsDir script) state.2.fs with ⟨e | u, fs1⟩
    · refine ⟨rfl, ⟨[pathJoin scriptsDir script], rfl, ?_⟩, ⟨[], by simp, by simp⟩, by simp⟩
      intro p hp
      exact ⟨script, by simp, by simpa using hp⟩
    · refine ⟨by simp; omega, ⟨[pathJoin scriptsDir script], rfl, ?_⟩,
        ⟨[pathJoin scriptsDir script], rfl, ?_⟩, by simp; omega⟩
      · intro p hp
        exact ⟨script, by simp, by simpa using hp⟩
      · intro p hp
        exact ⟨script, by simp, by simpa using hp⟩
  · exact ⟨rfl, ⟨[], by simp, by simp⟩, ⟨[], by simp, by simp⟩, by simp; omega⟩

theorem RemovalInvariant_trans (scriptsDir : String) (names1 names2 : List String)
    (a b c : Counters × CleanupWorld φ)
    (h1 : RemovalInvariant scriptsDir names1 a b)
    (h2 : RemovalInvariant scriptsDir names2 b c) :
    RemovalInvariant scriptsDir (names1 ++ names2) a c := by
  obtain ⟨hc1, ⟨m1, ha1, hm1⟩, ⟨d1, hd1, hdm1⟩, hb1⟩ := h1
  obtain ⟨hc2, ⟨m2, ha2, hm2⟩, ⟨d2, hd2, hdm2⟩, hb2⟩ := h2
  refine ⟨by omega, ⟨m1 ++ m2, by rw [ha2, ha1, List.append_assoc], ?_⟩,
    ⟨d1 ++ d2, by rw [hd2, hd1, List.append_assoc], ?_⟩, ?_⟩
  · intro p hp
    rcases List.mem_append.mp hp with hp | hp
    · obtain ⟨s, hs, e⟩ := hm1 p hp
      exact ⟨s, List.mem_append_left _ hs, e⟩
    · obtain ⟨s, hs, e⟩ := hm2 p hp
      exact ⟨s, List.mem_append_right _ hs, e⟩
  · intro p hp
    rcases List.mem_append.mp hp with hp | hp
    · obtain ⟨s, hs, e⟩ := hdm1 p hp
      exact ⟨s, List.mem_append_left _ hs, e⟩
    · obtain ⟨s, hs, e⟩ := hdm2 p hp
      exact ⟨s, List.mem_append_right _ hs, e⟩
  · rw [List.length_append]
    omega

theorem removal_fold_invariant (fsys : FileSystem φ) (scriptsDir : String)
    (names : List String) (state : Counters × CleanupWorld φ) :
    RemovalInvariant scriptsDir names state (names.foldl (removeScript fsys scriptsDir) state) := by
  induction names generalizing state with
  | nil =>
    exact ⟨rfl, ⟨[], by simp, by simp⟩, ⟨[], by simp, by simp⟩, by simp⟩
  | cons script rest ih =>
    have h1 := removeScript_invariant fsys scriptsDir state script
    have h2 := ih (removeScript fsys scriptsDir state script)
    exact RemovalInvariant_trans scriptsDir [script] rest _ _ _ h1 h2

theorem reportKept_fold_frame (fsys : FileSystem φ) (scriptsDir : String)
    (names : List String) (w : CleanupWorld φ) :
    (names.foldl (reportKept fsys scriptsDir) w).attempted = w.attempted ∧
    (names.foldl (reportKept fsys scriptsDir) w).deleted = w.deleted ∧
    (names.foldl (reportKept fsys scriptsDir) w).fs = w.fs := by
  induction names generalizing w with
  | nil => exact ⟨rfl, rfl, rfl⟩
  | cons script rest ih =>
    have h := ih (reportKept fsys scriptsDir w script)
    have h2 : (reportKept fsys scriptsDir w script).attempted = w.attempted ∧
        (reportKept fsys scriptsDir w script).deleted = w.deleted ∧
        (reportKept fsys scriptsDir w script).fs = w.fs := by
      unfold reportKept
      split <;> exact ⟨rfl, rfl, rfl⟩
    simp only [List.foldl_cons]
    exact ⟨h.1.trans h2.1, h.2.1.trans h2.2.1, h.2.2.trans h2.2.2⟩

theorem cleanupScripts_frame (fsys : FileSystem φ) (scriptsDir : String) (w : CleanupWorld φ) :
    (cleanupScripts fsys scriptsDir w).1 = (removalPhase fsys scriptsDir w).1 ∧
    (cleanupScripts fsys scriptsDir w).2.attempted
      = (removalPhase fsys scriptsDir w).2.attempted ∧
    (cleanupScripts fsys scriptsDir w).2.deleted = (removalPhase fsys scriptsDir w).2.deleted ∧
    (cleanupScripts fsys scriptsDir w).2.fs = (removalPhase fsys scriptsDir w).2.fs := by
  unfold cleanupScripts
  have h := reportKept_fold_frame fsys scriptsDir KEEP_SCRIPTS
    { (removalPhase fsys scriptsDir w).2 with
      console := (removalPhase fsys scriptsDir w).2.console ++ ["\n📋 Scripts to keep:"] }
  exact ⟨rfl, h.1, h.2.1, h.2.2⟩

theorem cleanupScripts_invariant (fsys : FileSystem φ) (scriptsDir : String) (fs0 : φ) :
    RemovalInvariant scriptsDir REDUNDANT_SCRIPTS
      ({ removedCount := 0, skippedCount := 0 }, freshCleanup fs0)
      (cleanupScripts fsys scriptsDir (freshCleanup fs0)) := by
  have h := removal_fold_invariant fsys scriptsDir REDUNDANT_SCRIPTS
    ({ removedCount := 0, skippedCount := 0 },
      { freshCleanup fs0 with console := (freshCleanup fs0).console
          ++ ["🧹 Cleaning up redundant scripts...", String.mk (List.replicate 50 '='),
              "\n📋 Scripts to remove:"] })
  have hf := cleanupScripts_frame fsys scriptsDir (freshCleanup fs0)
  unfold RemovalInvariant at h ⊢
  rw [hf.1, hf.2.1, hf.2.2.1]
  exact h

theorem cleanupScripts_console (fsys : FileSystem φ) (scriptsDir : String)
    (w : CleanupWorld φ) :
    ∃ before, (cleanupScripts fsys scriptsDir w).2.console
      = before ++ summaryLines (cleanupScripts fsys scriptsDir w).1 ++ closingLines :=
  ⟨_, rfl⟩

end CleanupLemmas

/-! ## C19: what the cleanup script can delete -/

section ClaimsCleanup

open Cleanup

variable {φ : Type}

/-- C19: the cleanup script never deletes a script it lists as kept.
`REDUNDANT_SCRIPTS` and `KEEP_SCRIPTS` are disjoint; `REDUNDANT_SCRIPTS` has 16
names, none with a path separator; for every file system behaviour and every
directory, each path `cleanupScripts` hands to `unlinkSync` (and so each file
it deletes) is one of these 16 names joined to the script's own directory; and
the path of no kept script (the cleanup script itself,
comprehensive-test-suite.js, test-runner.js among them) and of no file whose
name begins with `getConstructorArgs` is ever handed to `unlinkSync`. -/
theorem cleanup_spares_kept_scripts (fsys : FileSystem φ) (scriptsDir : String) (fs0 : φ) :
    (∀ script ∈ KEEP_SCRIPTS, script ∉ REDUNDANT_SCRIPTS) ∧
    REDUNDANT_SCRIPTS.length = 16 ∧
    (∀ script ∈ REDUNDANT_SCRIPTS, '/' ∉ script.data) ∧
    (∀ p ∈ (cleanupScripts fsys scriptsDir (freshCleanup fs0)).2.attempted,
      ∃ script ∈ REDUNDANT_SCRIPTS, p = pathJoin scriptsDir script) ∧
    (∀ p ∈ (cleanupScripts fsys scriptsDir (freshCleanup fs0)).2.deleted,
      ∃ script ∈ REDUNDANT_SCRIPTS, p = pathJoin scriptsDir script) ∧
    (∀ script : String,
      script ∈ KEEP_SCRIPTS ∨ script ∈ ["cleanup-redundant-scripts.js",
          "comprehensive-test-suite.js", "test-runner.js"] ∨
        "getConstructorArgs".data <+: script.data →
      pathJoin scriptsDir script
        ∉ (cleanupScripts fsys scriptsDir (freshCleanup fs0)).2.attempted) := by
  obtain ⟨-, ⟨more, hmore, hfrom⟩, ⟨gone, hgone, hgonefrom⟩, -⟩ :=
    cleanupScripts_invariant fsys scriptsDir fs0
  have hattempted : ∀ p ∈ (cleanupScripts fsys scriptsDir (freshCleanup fs0)).2.attempted,
      ∃ script ∈ REDUNDANT_SCRIPTS, p = pathJoin scriptsDir script := by
    intro p hp
    rw [hmore] at hp
    exact hfrom p (by simpa [freshCleanup] using hp)
  have hdisjoint : ∀ script ∈ KEEP_SCRIPTS, script ∉ REDUNDANT_SCRIPTS := by decide
  have hnames : ∀ script ∈ REDUNDANT_SCRIPTS,
      script ∉ ["cleanup-redundant-scripts.js", "comprehensive-test-suite.js",
        "test-runner.js"] ∧ ¬ "getConstructorArgs".data <+: script.data := by decide
  refine ⟨hdisjoint, rfl, by decide, hattempted, ?_, ?_⟩
  · intro p hp
    rw [hgone] at hp
    exact hgonefrom p (by simpa [freshCleanup] using hp)
  · intro script hscript hin
    obtain ⟨r, hr, heq⟩ := hattempted _ hin
    have hsame := pathJoin_injective scriptsDir script r heq
    subst hsame
    rcases hscript with h | h | h
    · exact hdisjoint _ h hr
    · exact (hnames _ hr).1 h
    · exact (hnames _ hr).2 h

set_option maxRecDepth 100000 in
/-- Witness of C19: in a directory holding one redundant script next to the test
runner and the cleanup script, the run deletes the redundant script only. -/
theorem cleanup_spares_kept_scripts_witness :
    (cleanupScripts (listFileSystem []) "scripts"
        (freshCleanup ["scripts/test-small-sell.js", "scripts/test-runner.js",
          "scripts/cleanup-redundant-scripts.js"])).2.deleted
      = ["scripts/test-small-sell.js"] ∧
    (cleanupScripts (listFileSystem []) "scripts"
        (freshCleanup ["scripts/test-small-sell.js", "scripts/test-runner.js",
          "scripts/cleanup-redundant-scripts.js"])).2.fs
      = ["scripts/test-runner.js", "scripts/cleanup-redundant-scripts.js"] ∧
    pathJoin "scripts" "test-runner.js"
      ∉ (cleanupScripts (listFileSystem []) "scripts"
          (freshCleanup ["scripts/test-small-sell.js", "scripts/test-runner.js",
            "scripts/cleanup-redundant-scripts.js"])).2.attempted :=
  ⟨by decide, by decide,
    (cleanup_spares_kept_scripts (listFileSystem []) "scripts"
      ["scripts/test-small-sell.js", "scripts/test-runner.js",
        "scripts/cleanup-redundant-scripts.js"]).2.2.2.2.2 "test-runner.js"
      (Or.inl (by decide))⟩

/-! ## C20: the figure printed as "Total scripts removed" -/

set_option maxRecDepth 100000 in
/-- C20 (on the code): for every file system behaviour the counter
`removedCount` is the number of files `cleanupScripts` deleted, but the figure
printed as "Total scripts removed" is `removedCount + skippedCount`.  In the
scripts directory as shipped, where none of the 16 redundant scripts exists,
the run deletes nothing, leaves the directory as it was, and prints
"Total scripts removed: 16". -/
theorem cleanup_total_counts_skipped :
    (∀ (ψ : Type) (fsys : FileSystem ψ) (scriptsDir : String) (fs0 : ψ),
      (cleanupScripts fsys scriptsDir (freshCleanup fs0)).1.removedCount
        = (cleanupScripts fsys scriptsDir (freshCleanup fs0)).2.deleted.length ∧
      ∃ before, (cleanupScripts fsys scriptsDir (freshCleanup fs0)).2.console
        = before ++
          [ "  📁 Total scripts removed: " ++ toString
              ((cleanupScripts fsys scriptsDir (freshCleanup fs0)).1.removedCount
                + (cleanupScripts fsys scriptsDir (freshCleanup fs0)).1.skippedCount) ]
          ++ closingLines) ∧
    (cleanupScripts (listFileSystem []) "scripts" (freshCleanup shippedScripts)).2.deleted = [] ∧
    (cleanupScripts (listFileSystem []) "scripts" (freshCleanup shippedScripts)).2.fs
      = shippedScripts ∧
    (cleanupScripts (listFileSystem []) "scripts" (freshCleanup shippedScripts)).1
      = { removedCount := 0, skippedCount := 16 } ∧
    summaryLines (cleanupScripts (listFileSystem []) "scripts" (freshCleanup shippedScripts)).1
      = [ "  ✅ Removed: 0 scripts",
          "  ⏭️ Skipped: 16 scripts (not found)",
          "  📁 Total scripts removed: 16" ] := by
  refine ⟨?_, by decide, by decide, by decide, by decide⟩
  intro ψ fsys scriptsDir fs0
  obtain ⟨hcount, -, -, -⟩ := cleanupScripts_invariant fsys scriptsDir fs0
  refine ⟨by simpa [freshCleanup] using hcount, ?_⟩
  obtain ⟨before, hconsole⟩ := cleanupScripts_console fsys scriptsDir (freshCleanup fs0)
  refine ⟨before ++
    [ "  ✅ Removed: " ++ toString
        (cleanupScripts fsys scriptsDir (freshCleanup fs0)).1.removedCount ++ " scripts",
      "  ⏭️ Skipped: " ++ toString
        (cleanupScripts fsys scriptsDir (freshCleanup fs0)).1.skippedCount
        ++ " scripts (not found)" ], ?_⟩
  rw [hconsole]
  simp [summaryLines]

end ClaimsCleanup

/-! ## Lemmas on the test runner -/

section RunnerLemmas

open TestRunner

variable {S : Type}

theorem invoke_apply (call : SuiteCall) (method : S → Except String Unit × S)
    (w : RunnerWorld S) :
    invoke call method w
      = ((method w.suite).1,
          { w with suite := (method w.suite).2, trace := w.trace ++ [call] }) := rfl

/-- The run of a single test by `main`: initialize, the test, printResults. -/
theorem single_test_run (suite : SuiteMethods S) (call : SuiteCall)
    (method : S → Except String Unit × S) (w : RunnerWorld S) :
    ∃ t, ((do
        invoke .initializeSuite suite.initializeSuite
        invoke call method
        invoke .printResults suite.printResults : Script (RunnerWorld S) Unit) w).2.trace
          = w.trace ++ t ∧
      t <+: [.initializeSuite, call, .printResults] ∧
      [.initializeSuite] <+: t ∧
      (((do
        invoke .initializeSuite suite.initializeSuite
        invoke call method
        invoke .printResults suite.printResults : Script (RunnerWorld S) Unit) w).1 = .ok () →
        t = [.initializeSuite, call, .printResults]) ∧
      (Returns suite.initializeSuite → Returns method → Returns suite.printResults →
        ((do
          invoke .initializeSuite suite.initializeSuite
          invoke call method
          invoke .printResults suite.printResults : Script (RunnerWorld S) Unit) w).1
            = .ok ()) := by
  simp only [script_bind_apply, invoke_apply, Returns]
  rcases h1 : suite.initializeSuite w.suite with ⟨e1 | u1, s1⟩
  · exact ⟨[.initializeSuite], rfl, ⟨[call, .printResults], rfl⟩, List.prefix_refl _,
      fun h => by simp at h, fun hi _ _ => by have := hi w.suite; rw [h1] at this; simp at this⟩
  · rcases h2 : method s1 with ⟨e2 | u2, s2⟩
    · refine ⟨[.initializeSuite, call], ?_, ⟨[.printResults], rfl⟩, ⟨[call], rfl⟩, ?_, ?_⟩
      · simp [h2]
      · simp [h2]
      · intro _ hm _
        have := hm s1
        rw [h2] at this
        simp at this
    · rcases h3 : suite.printResults s2 with ⟨e3 | u3, s3⟩
      · refine ⟨[.initializeSuite, call, .printResults], ?_, List.prefix_refl _,
          ⟨[call, .printResults], rfl⟩, ?_, ?_⟩
        · simp [h2, h3]
        · simp [h2, h3]
        · intro _ _ hp
          have := hp s2
          rw [h3] at this
          simp at this
      · refine ⟨[.initializeSuite, call, .printResults], ?_, List.prefix_refl _,
          ⟨[call, .printResults], rfl⟩, ?_, ?_⟩
        · simp [h2, h3]
        · simp [h2, h3]
        · intro _ _ _
          simp [h2, h3]

theorem main_runs (describe : String → String) (suite : SuiteMethods S) (args : List String)
    (env : Option String) (w : RunnerWorld S)
    (hhelp : command args ∉ ["help", "--help", "-h"])
    (hknown : (lookupTest (command args)).truthy = true) (henv : envTruthy env = true) :
    ∃ lines : List String,
      (main describe suite args env w).2.trace
        = (tryBlock suite (command args) (consoleLines lines w)).2.trace ∧
      ((main describe suite args env w).1 = .returned ↔
        (tryBlock suite (command args) (consoleLines lines w)).1 = .ok ()) ∧
      ((tryBlock suite (command args) (consoleLines lines w)).1 ≠ .ok () →
        (main describe suite args env w).1 = .exited 1) := by
  have h1 : ¬ (command args = "help" ∨ command args = "--help" ∨ command args = "-h") := by
    simpa using hhelp
  refine ⟨[ "🎯 Running test: " ++ command args,
            "📝 Description: " ++ (lookupTest (command args)).render describe, "" ], ?_⟩
  unfold main
  rw [if_neg h1, hknown, henv]
  simp only [Bool.not_true, Bool.false_eq_true, if_false]
  rcases tryBlock suite (command args) (consoleLines [ "🎯 Running test: " ++ command args,
            "📝 Description: " ++ (lookupTest (command args)).render describe, "" ] w)
    with ⟨e | u, w1⟩
  · exact ⟨rfl, by simp, fun _ => rfl⟩
  · exact ⟨rfl, by simp, fun h => absurd rfl h⟩

theorem tryBlock_all (suite : SuiteMethods S) (w : RunnerWorld S) :
    (tryBlock suite "all" w).2.trace = w.trace ++ [.construct, .runAllTests] := by
  simp [tryBlock, invoke_apply]

theorem tryBlock_single (suite : SuiteMethods S) (name : String) (call : SuiteCall)
    (method : S → Except String Unit × S) (w : RunnerWorld S)
    (hname : name ≠ "all") (hdispatch : dispatch suite name = invoke call method) :
    tryBlock suite name w
      = (do
          invoke .initializeSuite suite.initializeSuite
          invoke call method
          invoke .printResults suite.printResults : Script (RunnerWorld S) Unit)
        { w with trace := w.trace ++ [.construct] } := by
  unfold tryBlock
  rw [if_neg hname, hdispatch]

end RunnerLemmas

/-! ## C12: names the test runner does not reject up front -/

section ClaimsRunner

open TestRunner

variable {S : Type}

/-- The command strings the validation of `main` does reject: for every command
that is not a key of `AVAILABLE_TESTS`, not a help command and not a property
name inherited from `Object.prototype`, `main` prints "Unknown test", shows the
help and exits with code 1; the suite is neither constructed nor used. -/
theorem main_rejects_unknown (describe : String → String) (suite : SuiteMethods S)
    (args : List String) (env : Option String) (w : RunnerWorld S)
    (hkey : command args ∉ AVAILABLE_TESTS.map Prod.fst)
    (hhelp : command args ∉ ["help", "--help", "-h"])
    (hproto : command args ∉ OBJECT_PROTOTYPE_KEYS) :
    main describe suite args env w
      = (.exited 1,
          consoleLines (["❌ Unknown test: " ++ command args, ""] ++ showHelp) w) := by
  have h1 : ¬ (command args = "help" ∨ command args = "--help" ∨ command args = "-h") := by
    simpa using hhelp
  have h2 : AVAILABLE_TESTS.lookup (command args) = none := by
    simp only [AVAILABLE_TESTS, List.map_cons, List.map_nil, List.mem_cons, List.mem_singleton,
      List.not_mem_nil, or_false, not_or] at hkey
    obtain ⟨k1, k2, k3, k4, k5, k6, k7, k8, k9⟩ := hkey
    simp only [AVAILABLE_TESTS, List.lookup, beq_eq_false_iff_ne.mpr k1,
      beq_eq_false_iff_ne.mpr k2, beq_eq_false_iff_ne.mpr k3, beq_eq_false_iff_ne.mpr k4,
      beq_eq_false_iff_ne.mpr k5, beq_eq_false_iff_ne.mpr k6, beq_eq_false_iff_ne.mpr k7,
      beq_eq_false_iff_ne.mpr k8, beq_eq_false_iff_ne.mpr k9]
  have h3 : (lookupTest (command args)).truthy = false := by
    unfold lookupTest
    rw [h2]
    simp only [if_neg hproto]
    rfl
  unfold main
  rw [if_neg h1, h3]
  rfl

/-- C12 (on the code): the validation `!AVAILABLE_TESTS[command]` of `main` lets
the name `constructor` through, which is none of the nine keys of
`AVAILABLE_TESTS` and no help command: with `TAX_TESTER_PRIVATE_KEY` set, `main`
prints neither "Unknown test" nor the help up front, constructs the suite and
calls `initialize`; only the `switch` then throws, and `main` exits with code 1
after "Test execution failed". -/
theorem runner_accepts_inherited_name (describe : String → String) (suite : SuiteMethods S)
    (w : RunnerWorld S) :
    command ["constructor"] = "constructor" ∧
    "constructor" ∉ AVAILABLE_TESTS.map Prod.fst ∧
    "constructor" ∉ ["help", "--help", "-h"] ∧
    (main describe suite ["constructor"] (some "0xkey") w).1 = .exited 1 ∧
    (main describe suite ["constructor"] (some "0xkey") w).2.trace
      = w.trace ++ [.construct, .initializeSuite] ∧
    (main describe suite ["constructor"] (some "0xkey") w).2.console
      = w.console ++
        [ "🎯 Running test: constructor",
          "📝 Description: " ++ describe "constructor",
          "",
          "❌ Test execution failed: " ++
            (match (suite.initializeSuite w.suite).1 with
              | .ok _ => "Unknown test: constructor"
              | .error message => message) ] := by
  have hc : command ["constructor"] = "constructor" := by decide
  have hl : lookupTest "constructor" = .inherited "constructor" := by decide
  have hd : dispatch suite "constructor" = Script.throw "Unknown test: constructor" := by
    unfold dispatch
    simp
  refine ⟨hc, by decide, by decide, ?_⟩
  unfold main
  rw [hc, hl]
  simp only [Lookup.truthy, envTruthy, Lookup.render, tryBlock, hd, script_bind_apply,
    invoke_apply, consoleLines]
  rcases suite.initializeSuite w.suite with ⟨e1 | u1, s1⟩
  · simp
  · simp [Script.throw]
    rfl

/-! ## C13: the tester key is required -/

/-- C13: for every recognised non-help command (one of the nine keys of
`AVAILABLE_TESTS`), if `TAX_TESTER_PRIVATE_KEY` is unset or empty, `main` exits
with code 1 after its three lines on the missing variable: the suite is neither
constructed nor initialized and no test method is called.  The help commands
return after showing the help, whatever the variable. -/
theorem runner_requires_key (describe : String → String) (suite : SuiteMethods S)
    (args : List String) (env : Option String) (w : RunnerWorld S)
    (hcommand : command args ∈ AVAILABLE_TESTS.map Prod.fst)
    (henv : env = none ∨ env = some "") :
    main describe suite args env w
      = (.exited 1,
          consoleLines
            [ "❌ TAX_TESTER_PRIVATE_KEY not found in environment variables!",
              "Please add TAX_TESTER_PRIVATE_KEY to your .env file",
              "This wallet will be used to test actual tax payments." ] w) ∧
    (main describe suite args env w).2.trace = w.trace ∧
    (main describe suite args env w).2.suite = w.suite ∧
    ∀ help ∈ ["help", "--help", "-h"], ∀ (rest : List String) (anyEnv : Option String),
      main describe suite (help :: rest) anyEnv w = (.returned, consoleLines showHelp w) := by
  have hkeys : ∀ c ∈ AVAILABLE_TESTS.map Prod.fst,
      ¬ (c = "help" ∨ c = "--help" ∨ c = "-h") ∧ (lookupTest c).truthy = true := by decide
  have henv2 : envTruthy env = false := by
    rcases henv with h | h <;> subst h <;> rfl
  have hmain : main describe suite args env w
      = (.exited 1,
          consoleLines
            [ "❌ TAX_TESTER_PRIVATE_KEY not found in environment variables!",
              "Please add TAX_TESTER_PRIVATE_KEY to your .env file",
              "This wallet will be used to test actual tax payments." ] w) := by
    unfold main
    rw [if_neg (hkeys _ hcommand).1, (hkeys _ hcommand).2, henv2]
    rfl
  refine ⟨hmain, by rw [hmain]; rfl, by rw [hmain]; rfl, ?_⟩
  intro help hhelp rest anyEnv
  have hcases : help = "help" ∨ help = "--help" ∨ help = "-h" := by simpa using hhelp
  have hcmd : command (help :: rest) = help := by
    rcases hcases with h | h | h <;> subst h <;> rfl
  unfold main
  rw [hcmd, if_pos hcases]

/-- Witness of C13: the command `buys` without the variable, on a suite whose
methods all return. -/
theorem runner_requires_key_witness :
    command ["buys"] ∈ AVAILABLE_TESTS.map Prod.fst ∧
    (main (fun name => name) countingSuite ["buys"] none (freshRunner 0)).1 = .exited 1 ∧
    (main (fun name => name) countingSuite ["buys"] none (freshRunner 0)).2.trace = [] ∧
    (main (fun name => name) countingSuite ["buys"] none (freshRunner 0)).2.suite = 0 :=
  ⟨by decide,
    congrArg Prod.fst (runner_requires_key (fun name => name) countingSuite ["buys"] none
      (freshRunner 0) (by decide) (Or.inl rfl)).1,
    (runner_requires_key (fun name => name) countingSuite ["buys"] none
      (freshRunner 0) (by decide) (Or.inl rfl)).2.1,
    (runner_requires_key (fun name => name) countingSuite ["buys"] none
      (freshRunner 0) (by decide) (Or.inl rfl)).2.2.1⟩

end ClaimsRunner

/-! ## C14: the dispatch of the test runner -/

section ClaimsDispatch

open TestRunner

variable {S : Type}

/-- C14: with `TAX_TESTER_PRIVATE_KEY` set, `main` dispatches as follows.  With
no argument the command is `all`, and `main` constructs the suite and calls
`runAllTests` only.  For each of the eight single-test names (with its method:
contract-state -> testContractState, liquidity -> testLiquiditySetup,
fee-exclusions -> testFeeExclusions, buys -> testBuyTransactions,
sells -> testSellTransactions, threshold -> testThresholdTrigger,
auto-processing -> testAutomaticProcessing,
fee-distribution -> testFeeDistribution) `main` constructs the suite, calls
`initialize` once and then at most the matching test method followed by
`printResults`, and no other method; whenever `main` returns, and whenever
the three methods return, the calls are exactly initialize, the matching test
method, printResults. -/
theorem runner_dispatch (describe : String → String) (suite : SuiteMethods S)
    (env : Option String) (w : RunnerWorld S) (henv : envTruthy env = true) :
    command [] = "all" ∧
    (main describe suite [] env w).2.trace = w.trace ++ [.construct, .runAllTests] ∧
    ∀ entry ∈
        [ ("contract-state", SuiteCall.testContractState, suite.testContractState),
          ("liquidity", SuiteCall.testLiquiditySetup, suite.testLiquiditySetup),
          ("fee-exclusions", SuiteCall.testFeeExclusions, suite.testFeeExclusions),
          ("buys", SuiteCall.testBuyTransactions, suite.testBuyTransactions),
          ("sells", SuiteCall.testSellTransactions, suite.testSellTransactions),
          ("threshold", SuiteCall.testThresholdTrigger, suite.testThresholdTrigger),
          ("auto-processing", SuiteCall.testAutomaticProcessing,
            suite.testAutomaticProcessing),
          ("fee-distribution", SuiteCall.testFeeDistribution, suite.testFeeDistribution) ],
      ∀ rest : List String,
        (∃ t, (main describe suite (entry.1 :: rest) env w).2.trace
            = w.trace ++ [.construct, .initializeSuite] ++ t ∧
          t <+: [entry.2.1, .printResults]) ∧
        ((main describe suite (entry.1 :: rest) env w).1 = .returned →
          (main describe suite (entry.1 :: rest) env w).2.trace
            = w.trace ++ [.construct, .initializeSuite, entry.2.1, .printResults]) ∧
        (Returns suite.initializeSuite → Returns entry.2.2 → Returns suite.printResults →
          (main describe suite (entry.1 :: rest) env w).1 = .returned ∧
          (main describe suite (entry.1 :: rest) env w).2.trace
            = w.trace ++ [.construct, .initializeSuite, entry.2.1, .printResults]) := by
  have hall : command [] = "all" := rfl
  refine ⟨hall, ?_, ?_⟩
  · obtain ⟨lines, htrace, -, -⟩ :=
      main_runs describe suite [] env w (by rw [hall]; decide) (by rw [hall]; decide) henv
    rw [htrace, hall, tryBlock_all]
    rfl
  · have hsingle : ∀ (name : String) (call : SuiteCall) (method : S → Except String Unit × S)
        (rest : List String), name ≠ "" → name ≠ "all" → name ∉ ["help", "--help", "-h"] →
        (lookupTest name).truthy = true → dispatch suite name = invoke call method →
        (∃ t, (main describe suite (name :: rest) env w).2.trace
            = w.trace ++ [.construct, .initializeSuite] ++ t ∧
          t <+: [call, .printResults]) ∧
        ((main describe suite (name :: rest) env w).1 = .returned →
          (main describe suite (name :: rest) env w).2.trace
            = w.trace ++ [.construct, .initializeSuite, call, .printResults]) ∧
        (Returns suite.initializeSuite → Returns method → Returns suite.printResults →
          (main describe suite (name :: rest) env w).1 = .returned ∧
          (main describe suite (name :: rest) env w).2.trace
            = w.trace ++ [.construct, .initializeSuite, call, .printResults]) := by
      intro name call method rest hne hnall hnhelp hknown hdispatch
      have hcmd : command (name :: rest) = name := by
        unfold command
        simp only [if_neg hne]
      obtain ⟨lines, htrace, hret, -⟩ :=
        main_runs describe suite (name :: rest) env w (by rw [hcmd]; exact hnhelp)
          (by rw [hcmd]; exact hknown) henv
      rw [hcmd, tryBlock_single suite name call method _ hnall hdispatch] at htrace hret
      obtain ⟨t, ht, hpre, hinit, hfull, hreturns⟩ :=
        single_test_run suite call method
          { consoleLines lines w with trace := (consoleLines lines w).trace ++ [.construct] }
      have hfullTrace : t = [.initializeSuite, call, .printResults] →
          (main describe suite (name :: rest) env w).2.trace
            = w.trace ++ [.construct, .initializeSuite, call, .printResults] := by
        intro h
        rw [htrace, ht, h]
        simp [consoleLines]
      refine ⟨?_, fun h => hfullTrace (hfull (hret.mp h)), fun hi hm hp =>
        ⟨hret.mpr (hreturns hi hm hp), hfullTrace (hfull (hreturns hi hm hp))⟩⟩
      obtain ⟨u, hu⟩ := hinit
      obtain ⟨v, hv⟩ := hpre
      refine ⟨u, ?_, ⟨v, ?_⟩⟩
      · rw [htrace, ht, ← hu]
        simp [consoleLines]
      · rw [← hu] at hv
        simpa using hv
    intro entry hentry rest
    simp only [List.mem_cons, List.mem_singleton, List.not_mem_nil, or_false] at hentry
    have hnames : ∀ name ∈ ["contract-state", "liquidity", "fee-exclusions", "buys", "sells",
        "threshold", "auto-processing", "fee-distribution"],
        name ≠ "" ∧ name ≠ "all" ∧ name ∉ ["help", "--help", "-h"] ∧
          (lookupTest name).truthy = true := by decide
    rcases hentry with h | h | h | h | h | h | h | h <;> subst h <;>
      exact hsingle _ _ _ rest (hnames _ (by simp)).1 (hnames _ (by simp)).2.1
        (hnames _ (by simp)).2.2.1 (hnames _ (by simp)).2.2.2 (by unfold dispatch; simp)

/-- Witness of C14: `sells` on a suite whose methods all return. -/
theorem runner_dispatch_witness :
    envTruthy (some "0xkey") = true ∧
    (main (fun name => name) countingSuite [] (some "0xkey") (freshRunner 0)).2.trace
      = [.construct, .runAllTests] ∧
    (main (fun name => name) countingSuite ["sells"] (some "0xkey") (freshRunner 0)).1
      = .returned ∧
    (main (fun name => name) countingSuite ["sells"] (some "0xkey") (freshRunner 0)).2.trace
      = [.construct, .initializeSuite, .testSellTransactions, .printResults] :=
  ⟨by decide,
    (runner_dispatch (fun name => name) countingSuite (some "0xkey") (freshRunner 0)
      (by decide)).2.1,
    (((runner_dispatch (fun name => name) countingSuite (some "0xkey") (freshRunner 0)
      (by decide)).2.2
        ("sells", SuiteCall.testSellTransactions, countingSuite.testSellTransactions)
        (by simp) []).2.2 (fun _ => rfl) (fun _ => rfl) (fun _ => rfl)).1,
    (((runner_dispatch (fun name => name) countingSuite (some "0xkey") (freshRunner 0)
      (by decide)).2.2
        ("sells", SuiteCall.testSellTransactions, countingSuite.testSellTransactions)
        (by simp) []).2.2 (fun _ => rfl) (fun _ => rfl) (fun _ => rfl)).2⟩

end ClaimsDispatch

/-! ## Lemmas on the buy swaps of a script -/

section BuyLemmas

variable {σ : Type}

theorem buyCount_append (a b : List Call) : buyCount (a ++ b) = buyCount a + buyCount b := by
  simp [buyCount, List.countP_append]

theorem buys_mono {α : Type} {k k2 : Nat} {m : Script (World σ) α} (h : BuysAtMost k m)
    (hk : k ≤ k2) : BuysAtMost k2 m := by
  intro w
  obtain ⟨rest, h1, h2⟩ := h w
  exact ⟨rest, h1, Nat.le_trans h2 hk⟩

theorem buys_perform {α : Type} (call : Call) (op : σ → Except String α × σ) :
    BuysAtMost (buyCount [call]) (perform call op) :=
  fun _ => ⟨[call], rfl, Nat.le_refl _⟩

theorem buys_logTestResult (testName : String) (passed : Bool) (details : String) :
    BuysAtMost 0 (logTestResult testName passed details : Script (World σ) Unit) := by
  intro w
  refine ⟨[], ?_, Nat.le_refl _⟩
  rw [logTestResult_apply]
  simp

theorem buys_pure {α : Type} (a : α) : BuysAtMost 0 (pure a : Script (World σ) α) :=
  fun w => ⟨[], by rw [script_pure_apply]; simp, Nat.le_refl _⟩

theorem buys_throw {α : Type} (message : String) :
    BuysAtMost 0 (Script.throw message : Script (World σ) α) :=
  fun w => ⟨[], by simp [Script.throw], Nat.le_refl _⟩

theorem buys_bind {α β : Type} {k1 k2 : Nat} {m : Script (World σ) α}
    {f : α → Script (World σ) β}
    (hm : BuysAtMost k1 m) (hf : ∀ a, BuysAtMost k2 (f a)) : BuysAtMost (k1 + k2) (m >>= f) := by
  intro w
  obtain ⟨r1, h1, b1⟩ := hm w
  rw [script_bind_apply]
  rcases hmw : m w with ⟨e | a, w1⟩
  · rw [hmw] at h1
    exact ⟨r1, h1, Nat.le_trans b1 (Nat.le_add_right _ _)⟩
  · rw [hmw] at h1
    obtain ⟨r2, h2, b2⟩ := hf a w1
    refine ⟨r1 ++ r2, ?_, ?_⟩
    · simp only [h2]
      simp only [] at h1
      rw [h1, List.append_assoc]
    · rw [buyCount_append]
      exact Nat.add_le_add b1 b2

theorem buys_tryCatch {α : Type} {k1 k2 : Nat} {body : Script (World σ) α}
    {handler : String → Script (World σ) α}
    (hb : BuysAtMost k1 body) (hh : ∀ e, BuysAtMost k2 (handler e)) :
    BuysAtMost (k1 + k2) (Script.tryCatch body handler) := by
  intro w
  obtain ⟨r1, h1, b1⟩ := hb w
  rw [script_tryCatch_apply]
  rcases hmw : body w with ⟨e | a, w1⟩
  · rw [hmw] at h1
    obtain ⟨r2, h2, b2⟩ := hh e w1
    refine ⟨r1 ++ r2, ?_, ?_⟩
    · simp only [h2]
      simp only [] at h1
      rw [h1, List.append_assoc]
    · rw [buyCount_append]
      exact Nat.add_le_add b1 b2
  · rw [hmw] at h1
    exact ⟨r1, h1, Nat.le_trans b1 (Nat.le_add_right _ _)⟩

theorem buys_ite {α : Type} {k : Nat} (p : Prop) [Decidable p] {m1 m2 : Script (World σ) α}
    (h1 : BuysAtMost k m1) (h2 : BuysAtMost k m2) : BuysAtMost k (if p then m1 else m2) := by
  split
  · exact h1
  · exact h2

theorem thresholdLoop_buys (c : Chain σ) (threshold : Nat) (remaining currentBalance : Nat) :
    BuysAtMost remaining (thresholdLoop c threshold remaining currentBalance) := by
  induction remaining generalizing currentBalance with
  | zero => exact buys_pure ()
  | succ n ih =>
    unfold thresholdLoop
    refine buys_ite _ ?_ (buys_mono (buys_pure ()) (Nat.zero_le _))
    have step : BuysAtMost (0 + (1 + (0 + n)))
        (perform (.balanceOf BSTR_TOKEN_ADDRESS) (c.balanceOf BSTR_TOKEN_ADDRESS) >>= fun _ =>
          perform (.swapExactETHForTokensSupportingFeeOnTransferTokens 0 BUY_AMOUNT_PER_TRADE)
            (c.swapExactETHForTokensSupportingFeeOnTransferTokens 0 BUY_AMOUNT_PER_TRADE)
          >>= fun _ =>
          perform (.balanceOf BSTR_TOKEN_ADDRESS) (c.balanceOf BSTR_TOKEN_ADDRESS)
          >>= fun balanceAfter =>
          if balanceAfter ≥ threshold then pure ()
          else thresholdLoop c threshold n balanceAfter) := by
      refine buys_bind (buys_perform _ _) (fun _ => ?_)
      refine buys_bind (buys_perform _ _) (fun _ => ?_)
      refine buys_bind (buys_perform _ _) (fun balanceAfter => ?_)
      exact buys_ite _ (buys_mono (buys_pure ()) (Nat.zero_le _)) (ih balanceAfter)
    exact buys_mono step (by omega)

theorem thresholdLoop_frame (c : Chain σ) (threshold : Nat) (remaining currentBalance : Nat)
    (w : World σ) :
    (thresholdLoop c threshold remaining currentBalance w).2.results = w.results ∧
    (thresholdLoop c threshold remaining currentBalance w).2.console = w.console := by
  induction remaining generalizing currentBalance w with
  | zero => exact ⟨rfl, rfl⟩
  | succ n ih =>
    unfold thresholdLoop
    split
    · simp only [script_bind_apply, perform_apply]
      rcases c.balanceOf BSTR_TOKEN_ADDRESS w.chain with ⟨e1 | b1, s1⟩
      · exact ⟨rfl, rfl⟩
      · simp only []
        rcases c.swapExactETHForTokensSupportingFeeOnTransferTokens 0 BUY_AMOUNT_PER_TRADE s1
          with ⟨e2 | u2, s2⟩
        · exact ⟨rfl, rfl⟩
        · simp only []
          rcases c.balanceOf BSTR_TOKEN_ADDRESS s2 with ⟨e3 | b3, s3⟩
          · exact ⟨rfl, rfl⟩
          · simp only []
            split
            · exact ⟨rfl, rfl⟩
            · exact ih _ _
    · exact ⟨rfl, rfl⟩

/-- The part of `testThresholdTrigger` after the first comparison. -/
theorem testThresholdTrigger_enters_eq (formatUnits : Nat → String) (c : Chain σ) (w : World σ)
    (cb ts : Nat) (σ1 σ2 : σ)
    (h1 : c.balanceOf BSTR_TOKEN_ADDRESS w.chain = (.ok cb, σ1))
    (h2 : c.totalSupply σ1 = (.ok ts, σ2)) (hlt : cb < ts / 10000) :
    testThresholdTrigger formatUnits c w
      = Script.tryCatch
          (thresholdLoop c (ts / 10000) MAX_TRADES cb >>= fun _ =>
            perform (.balanceOf BSTR_TOKEN_ADDRESS) (c.balanceOf BSTR_TOKEN_ADDRESS)
            >>= fun finalBalance =>
            logTestResult "Threshold Trigger" (decide (finalBalance ≥ ts / 10000))
              (if decide (finalBalance ≥ ts / 10000) then "Threshold reached successfully"
               else "Only reached " ++ formatUnits finalBalance ++ "/"
                 ++ formatUnits (ts / 10000) ++ " BSTR")
            >>= fun _ => pure (decide (finalBalance ≥ ts / 10000)))
          (fun message => do
            logTestResult "Threshold Trigger" false message
            Script.throw message)
          { chain := σ2
            calls := w.calls ++ [.balanceOf BSTR_TOKEN_ADDRESS, .totalSupply]
            results := w.results
            console := w.console } := by
  have hnge : ¬ cb ≥ ts / 10000 := Nat.not_le.mpr hlt
  unfold testThresholdTrigger
  simp only [script_tryCatch_apply, script_bind_apply, perform_apply, h1, h2, hnge, if_false,
    List.append_assoc, List.singleton_append]
  rfl

theorem testThresholdTrigger_buys (formatUnits : Nat → String) (c : Chain σ) :
    BuysAtMost MAX_TRADES (testThresholdTrigger formatUnits c) := by
  intro w
  rcases h1 : c.balanceOf BSTR_TOKEN_ADDRESS w.chain with ⟨e1 | cb, σ1⟩
  · refine ⟨[.balanceOf BSTR_TOKEN_ADDRESS], ?_, by decide⟩
    simp [testThresholdTrigger, script_tryCatch_apply, script_bind_apply, perform_apply, h1,
      logTestResult_apply, Script.throw]
  · rcases h2 : c.totalSupply σ1 with ⟨e2 | ts, σ2⟩
    · refine ⟨[.balanceOf BSTR_TOKEN_ADDRESS, .totalSupply], ?_, by decide⟩
      simp [testThresholdTrigger, script_tryCatch_apply, script_bind_apply, perform_apply, h1,
        h2, logTestResult_apply, Script.throw]
    · by_cases hge : ts / 10000 ≤ cb
      · rw [testThresholdTrigger_already formatUnits c w cb ts σ1 σ2 h1 h2 hge]
        exact ⟨[.balanceOf BSTR_TOKEN_ADDRESS, .totalSupply], rfl, by decide⟩
      · rw [testThresholdTrigger_enters_eq formatUnits c w cb ts σ1 σ2 h1 h2
          (Nat.lt_of_not_le hge)]
        have hrest := buys_tryCatch
          (buys_bind (thresholdLoop_buys c (ts / 10000) MAX_TRADES cb)
            (fun _ => buys_bind (buys_perform (.balanceOf BSTR_TOKEN_ADDRESS)
                (c.balanceOf BSTR_TOKEN_ADDRESS))
              (fun finalBalance => buys_bind
                (buys_logTestResult "Threshold Trigger" (decide (finalBalance ≥ ts / 10000))
                  (if decide (finalBalance ≥ ts / 10000) then "Threshold reached successfully"
                   else "Only reached " ++ formatUnits finalBalance ++ "/"
                     ++ formatUnits (ts / 10000) ++ " BSTR"))
                (fun _ => buys_pure (decide (finalBalance ≥ ts / 10000))))))
          (fun message => buys_bind
            (buys_logTestResult "Threshold Trigger" false message)
            (fun _ => (buys_throw message : BuysAtMost 0
              (Script.throw message : Script (World σ) Bool))))
        obtain ⟨rest, hcalls, hcount⟩ := hrest
          { chain := σ2
            calls := w.calls ++ [.balanceOf BSTR_TOKEN_ADDRESS, .totalSupply]
            results := w.results
            console := w.console }
        refine ⟨[.balanceOf BSTR_TOKEN_ADDRESS, .totalSupply] ++ rest, ?_, ?_⟩
        · rw [hcalls, List.append_assoc]
        · rw [buyCount_append]
          have h0 : buyCount [Call.balanceOf BSTR_TOKEN_ADDRESS, Call.totalSupply] = 0 := by
            decide
          have h00 : buyCount [Call.balanceOf BSTR_TOKEN_ADDRESS] = 0 := by decide
          rw [h00] at hcount
          omega

end BuyLemmas

/-! ## C17: the threshold test is bounded -/

section ClaimsThreshold

variable {σ : Type}

/-- C17: `testThresholdTrigger` is total and, for every behaviour of the chain,
submits at most `MAX_TRADES` = 35 buy swaps.  When the self-balance first read
is already at least floor(totalSupply / 10000) it submits no swap, records a
pass and returns true.  Otherwise, when the loop and the read after it go
through, it returns true iff the self-balance read after the loop is at least
floor(totalSupply / 10000), and records the test as passed or failed
accordingly. -/
theorem threshold_trigger_bounded (formatUnits : Nat → String) (c : Chain σ) (w : World σ) :
    MAX_TRADES = 35 ∧
    (∃ rest, (testThresholdTrigger formatUnits c w).2.calls = w.calls ++ rest ∧
      buyCount rest ≤ MAX_TRADES) ∧
    (∀ (cb ts : Nat) (σ1 σ2 : σ),
      c.balanceOf BSTR_TOKEN_ADDRESS w.chain = (.ok cb, σ1) →
      c.totalSupply σ1 = (.ok ts, σ2) →
      (ts / 10000 ≤ cb →
        (testThresholdTrigger formatUnits c w).1 = .ok true ∧
        (testThresholdTrigger formatUnits c w).2.calls
          = w.calls ++ [.balanceOf BSTR_TOKEN_ADDRESS, .totalSupply] ∧
        (testThresholdTrigger formatUnits c w).2.results
          = recorded w.results "Threshold Trigger" true "Threshold already reached") ∧
      (cb < ts / 10000 → ∀ (w3 : World σ) (fb : Nat) (σ4 : σ),
        thresholdLoop c (ts / 10000) MAX_TRADES cb
            { chain := σ2
              calls := w.calls ++ [.balanceOf BSTR_TOKEN_ADDRESS, .totalSupply]
              results := w.results
              console := w.console } = (.ok (), w3) →
        c.balanceOf BSTR_TOKEN_ADDRESS w3.chain = (.ok fb, σ4) →
        (testThresholdTrigger formatUnits c w).1 = .ok (decide (fb ≥ ts / 10000)) ∧
        ((testThresholdTrigger formatUnits c w).1 = .ok true ↔ fb ≥ ts / 10000) ∧
        (testThresholdTrigger formatUnits c w).2.calls
          = w3.calls ++ [.balanceOf BSTR_TOKEN_ADDRESS] ∧
        (testThresholdTrigger formatUnits c w).2.results
          = recorded w.results "Threshold Trigger" (decide (fb ≥ ts / 10000))
              (if fb ≥ ts / 10000 then "Threshold reached successfully"
               else "Only reached " ++ formatUnits fb ++ "/" ++ formatUnits (ts / 10000)
                 ++ " BSTR"))) := by
  refine ⟨rfl, testThresholdTrigger_buys formatUnits c w, ?_⟩
  intro cb ts σ1 σ2 h1 h2
  refine ⟨fun hge => ?_, fun hlt w3 fb σ4 hloop hfinal => ?_⟩
  · rw [testThresholdTrigger_already formatUnits c w cb ts σ1 σ2 h1 h2 hge]
    exact ⟨rfl, rfl, rfl⟩
  · have hframe := thresholdLoop_frame c (ts / 10000) MAX_TRADES cb
      { chain := σ2
        calls := w.calls ++ [.balanceOf BSTR_TOKEN_ADDRESS, .totalSupply]
        results := w.results
        console := w.console }
    rw [hloop] at hframe
    have hresults : w3.results = w.results := hframe.1
    rw [testThresholdTrigger_enters_eq formatUnits c w cb ts σ1 σ2 h1 h2 hlt]
    simp only [script_tryCatch_apply, script_bind_apply, hloop, perform_apply, hfinal,
      logTestResult_apply, script_pure_apply, hresults]
    simp

/-- Witness of C17: on the sample chain (threshold 100, each buy accruing 50)
with nothing accrued, the test submits two buys and returns true. -/
theorem threshold_trigger_bounded_witness :
    buyCount (testThresholdTrigger plainUnits tallyChain (freshWorld (0, 0))).2.calls = 2 ∧
    (∃ rest, (testThresholdTrigger plainUnits tallyChain (freshWorld (0, 0))).2.calls
        = (freshWorld ((0, 0) : Nat × Nat)).calls ++ rest ∧ buyCount rest ≤ MAX_TRADES) ∧
    (testThresholdTrigger plainUnits tallyChain (freshWorld (0, 0))).1 = .ok true :=
  ⟨by decide,
    (threshold_trigger_bounded plainUnits tallyChain (freshWorld (0, 0))).2.1,
    (((threshold_trigger_bounded plainUnits tallyChain (freshWorld (0, 0))).2.2
        0 1000000 (0, 0) (0, 0) rfl rfl).2 (by decide)
      { chain := (1900, 100)
        calls := [.balanceOf BSTR_TOKEN_ADDRESS, .totalSupply,
          .balanceOf BSTR_TOKEN_ADDRESS,
          .swapExactETHForTokensSupportingFeeOnTransferTokens 0 BUY_AMOUNT_PER_TRADE,
          .balanceOf BSTR_TOKEN_ADDRESS,
          .balanceOf BSTR_TOKEN_ADDRESS,
          .swapExactETHForTokensSupportingFeeOnTransferTokens 0 BUY_AMOUNT_PER_TRADE,
          .balanceOf BSTR_TOKEN_ADDRESS]
        results := (freshWorld ((0, 0) : Nat × Nat)).results
        console := [] }
      100 (1900, 100) rfl rfl).1⟩

end ClaimsThreshold

/-! ## Lemmas on the sell test -/

section SellLemmas

variable {σ : Type}

/-- The run of `testSellTransactions` in which every call is answered. -/
theorem testSellTransactions_run (sellPercentage : Nat) (c : Chain σ) (taxTester : Address)
    (w : World σ) (userBalance before after : Nat) (σ1 σ2 σ3 σ4 σ5 σ6 : σ)
    (hbalance : c.balanceOf taxTester w.chain = (.ok userBalance, σ1))
    (hpositive : userBalance ≠ 0) (hpercentage : sellPercentage ≠ 0)
    (hclear : c.approve SWAP_ROUTER 0 σ1 = (.ok (), σ2))
    (happrove : c.approve SWAP_ROUTER (userBalance / sellPercentage) σ2 = (.ok (), σ3))
    (hbefore : c.balanceOf BSTR_TOKEN_ADDRESS σ3 = (.ok before, σ4))
    (hswap : c.swapExactTokensForETHSupportingFeeOnTransferTokens
      (userBalance / sellPercentage) 0 σ4 = (.ok (), σ5))
    (hafter : c.balanceOf BSTR_TOKEN_ADDRESS σ5 = (.ok after, σ6)) :
    testSellTransactions sellPercentage c taxTester w
      = (.ok (some ((after : Int) - (before : Int))),
          { chain := σ6
            calls := w.calls ++
              [ .balanceOf taxTester,
                .approve SWAP_ROUTER 0,
                .approve SWAP_ROUTER (userBalance / sellPercentage),
                .balanceOf BSTR_TOKEN_ADDRESS,
                .swapExactTokensForETHSupportingFeeOnTransferTokens
                  (userBalance / sellPercentage) 0,
                .balanceOf BSTR_TOKEN_ADDRESS ]
            results := recorded w.results "Sell Transactions" true
              "Sell transaction completed successfully"
            console := w.console }) := by
  simp [testSellTransactions, script_tryCatch_apply, script_bind_apply, perform_apply,
    hbalance, hpositive, hpercentage, hclear, happrove, hbefore, hswap, hafter,
    logTestResult_apply, script_pure_apply]

/-- Every run of `testSellTransactions` returns: with `null` after one failed
result, or with a value after one passed result, and then every call was
answered. -/
theorem testSellTransactions_total (sellPercentage : Nat) (c : Chain σ) (taxTester : Address)
    (w : World σ) :
    ((testSellTransactions sellPercentage c taxTester w).1 = .ok none ∧
      ∃ message, (testSellTransactions sellPercentage c taxTester w).2.results
        = recorded w.results "Sell Transactions" false message) ∨
    (∃ (userBalance before after : Nat) (σ1 σ2 σ3 σ4 σ5 σ6 : σ),
      c.balanceOf taxTester w.chain = (.ok userBalance, σ1) ∧
      userBalance ≠ 0 ∧ sellPercentage ≠ 0 ∧
      c.approve SWAP_ROUTER 0 σ1 = (.ok (), σ2) ∧
      c.approve SWAP_ROUTER (userBalance / sellPercentage) σ2 = (.ok (), σ3) ∧
      c.balanceOf BSTR_TOKEN_ADDRESS σ3 = (.ok before, σ4) ∧
      c.swapExactTokensForETHSupportingFeeOnTransferTokens
        (userBalance / sellPercentage) 0 σ4 = (.ok (), σ5) ∧
      c.balanceOf BSTR_TOKEN_ADDRESS σ5 = (.ok after, σ6) ∧
      (testSellTransactions sellPercentage c taxTester w).1
        = .ok (some ((after : Int) - (before : Int))) ∧
      (testSellTransactions sellPercentage c taxTester w).2.results
        = recorded w.results "Sell Transactions" true
            "Sell transaction completed successfully") := by
  rcases hbalance : c.balanceOf taxTester w.chain with ⟨e1 | userBalance, σ1⟩
  · left
    simp [testSellTransactions, script_tryCatch_apply, script_bind_apply, perform_apply,
      hbalance, logTestResult_apply, script_pure_apply]
  by_cases hpositive : userBalance = 0
  · left
    simp [testSellTransactions, script_tryCatch_apply, script_bind_apply, perform_apply,
      hbalance, hpositive, logTestResult_apply, script_pure_apply, Script.throw]
  by_cases hpercentage : sellPercentage = 0
  · left
    simp [testSellTransactions, script_tryCatch_apply, script_bind_apply, perform_apply,
      hbalance, hpositive, hpercentage, logTestResult_apply, script_pure_apply, Script.throw]
  rcases hclear : c.approve SWAP_ROUTER 0 σ1 with ⟨e2 | u2, σ2⟩
  · left
    simp [testSellTransactions, script_tryCatch_apply, script_bind_apply, perform_apply,
      hbalance, hpositive, hpercentage, hclear, logTestResult_apply, script_pure_apply]
  rcases happrove : c.approve SWAP_ROUTER (userBalance / sellPercentage) σ2 with ⟨e3 | u3, σ3⟩
  · left
    simp [testSellTransactions, script_tryCatch_apply, script_bind_apply, perform_apply,
      hbalance, hpositive, hpercentage, hclear, happrove, logTestResult_apply,
      script_pure_apply]
  rcases hbefore : c.balanceOf BSTR_TOKEN_ADDRESS σ3 with ⟨e4 | before, σ4⟩
  · left
    simp [testSellTransactions, script_tryCatch_apply, script_bind_apply, perform_apply,
      hbalance, hpositive, hpercentage, hclear, happrove, hbefore, logTestResult_apply,
      script_pure_apply]
  rcases hswap : c.swapExactTokensForETHSupportingFeeOnTransferTokens
    (userBalance / sellPercentage) 0 σ4 with ⟨e5 | u5, σ5⟩
  · left
    simp [testSellTransactions, script_tryCatch_apply, script_bind_apply, perform_apply,
      hbalance, hpositive, hpercentage, hclear, happrove, hbefore, hswap, logTestResult_apply,
      script_pure_apply]
  rcases hafter : c.balanceOf BSTR_TOKEN_ADDRESS σ5 with ⟨e6 | after, σ6⟩
  · left
    simp [testSellTransactions, script_tryCatch_apply, script_bind_apply, perform_apply,
      hbalance, hpositive, hpercentage, hclear, happrove, hbefore, hswap, hafter,
      logTestResult_apply, script_pure_apply]
  right
  refine ⟨userBalance, before, after, σ1, σ2, σ3, σ4, σ5, σ6, rfl, hpositive, hpercentage,
    hclear, happrove, hbefore, hswap, hafter, ?_⟩
  rw [testSellTransactions_run sellPercentage c taxTester w userBalance before after
    σ1 σ2 σ3 σ4 σ5 σ6 hbalance hpositive hpercentage hclear happrove hbefore hswap hafter]
  exact ⟨rfl, rfl⟩

theorem testSellTransactions_returns (sellPercentage : Nat) (c : Chain σ)
    (taxTester : Address) :
    Returns (asMethod (testSellTransactions sellPercentage c taxTester)) := by
  intro w
  unfold asMethod
  rcases testSellTransactions_total sellPercentage c taxTester w with ⟨h, -⟩ |
    ⟨_, _, _, _, _, _, _, _, _, _, _, _, _, _, _, _, _, h, -⟩
  · rcases hrun : testSellTransactions sellPercentage c taxTester w with ⟨e | v, w1⟩
    · rw [hrun] at h
      simp at h
    · rfl
  · rcases hrun : testSellTransactions sellPercentage c taxTester w with ⟨e | v, w1⟩
    · rw [hrun] at h
      simp at h
    · rfl

end SellLemmas

/-! ## Lemmas on `runAllTests` -/

section RunAllLemmas

variable {S : Type}

/-- When the methods up to the sell test return, `runAllTests` goes on to
`testThresholdTrigger` right after `testSellTransactions`. -/
theorem runAllTests_reaches_threshold (suite : SuiteMethods S) (w : RunnerWorld S)
    (h1 : Returns suite.initializeSuite) (h2 : Returns suite.testContractState)
    (h3 : Returns suite.testLiquiditySetup) (h4 : Returns suite.testFeeExclusions)
    (h5 : Returns suite.testBuyTransactions) (h6 : Returns suite.testSellTransactions) :
    w.trace ++ [.initializeSuite, .testContractState, .testLiquiditySetup, .testFeeExclusions,
        .testBuyTransactions, .testSellTransactions, .testThresholdTrigger]
      <+: (runAllTests suite w).2.trace := by
  unfold runAllTests
  simp only [script_tryCatch_apply, script_bind_apply, invoke_apply]
  have a1 := h1 w.suite
  rcases hx1 : suite.initializeSuite w.suite with ⟨e | u, s1⟩
  · rw [hx1] at a1
    cases a1
  simp only []
  have a2 := h2 s1
  rcases hx2 : suite.testContractState s1 with ⟨e | u, s2⟩
  · rw [hx2] at a2
    cases a2
  simp only []
  have a3 := h3 s2
  rcases hx3 : suite.testLiquiditySetup s2 with ⟨e | u, s3⟩
  · rw [hx3] at a3
    cases a3
  simp only []
  have a4 := h4 s3
  rcases hx4 : suite.testFeeExclusions s3 with ⟨e | u, s4⟩
  · rw [hx4] at a4
    cases a4
  simp only []
  have a5 := h5 s4
  rcases hx5 : suite.testBuyTransactions s4 with ⟨e | u, s5⟩
  · rw [hx5] at a5
    cases a5
  simp only []
  have a6 := h6 s5
  rcases hx6 : suite.testSellTransactions s5 with ⟨e | u, s6⟩
  · rw [hx6] at a6
    cases a6
  simp only []
  rcases suite.testThresholdTrigger s6 with ⟨e | u, s7⟩
  · simp only []
    rcases suite.printResults s7 with ⟨e2 | u2, s8⟩ <;> simp [Script.throw]
  · simp only []
    rcases suite.testAutomaticProcessing s7 with ⟨e | u, s8⟩
    · simp only []
      rcases suite.printResults s8 with ⟨e2 | u2, s9⟩ <;> simp [Script.throw]
    · simp only []
      rcases suite.testFeeDistribution s8 with ⟨e | u, s9⟩
      · simp only []
        rcases suite.printResults s9 with ⟨e2 | u2, s10⟩ <;> simp [Script.throw]
      · simp only []
        rcases suite.printResults s9 with ⟨e2 | u2, s10⟩
        · simp only []
          rcases suite.printResults s10 with ⟨e3 | u3, s11⟩ <;> simp [Script.throw]
        · simp

end RunAllLemmas

/-! ## C15: the sell test never throws -/

section ClaimsSell

variable {σ : Type}

/-- C15: `testSellTransactions` never propagates a failure.  For every
behaviour of the chain it returns: either `null` after recording exactly one
failed result, or a value after recording exactly one passed result.  A zero
balance gives `null` with the failure "No BSTR tokens to sell"; a value is
returned only when the balance was positive and every call (both approvals,
the swap, the reads) was answered, and it is then the contract's self-balance
after the sell minus the one before.  So as a method of the suite it always
returns, and `runAllTests` goes on to `testThresholdTrigger` right after
`testSellTransactions` whenever the methods before it return. -/
theorem sell_test_never_throws (sellPercentage : Nat) (c : Chain σ) (taxTester : Address)
    (w : World σ) :
    (((testSellTransactions sellPercentage c taxTester w).1 = .ok none ∧
        ∃ message, (testSellTransactions sellPercentage c taxTester w).2.results
          = { w.results with
              tests := w.results.tests
                ++ [{ name := "Sell Transactions", passed := false, details := message }]
              failed := w.results.failed + 1 }) ∨
      (∃ x, (testSellTransactions sellPercentage c taxTester w).1 = .ok (some x) ∧
        (testSellTransactions sellPercentage c taxTester w).2.results
          = { w.results with
              tests := w.results.tests
                ++ [{ name := "Sell Transactions", passed := true,
                      details := "Sell transaction completed successfully" }]
              passed := w.results.passed + 1 })) ∧
    (∀ σ1, c.balanceOf taxTester w.chain = (.ok 0, σ1) →
      (testSellTransactions sellPercentage c taxTester w).1 = .ok none ∧
      (testSellTransactions sellPercentage c taxTester w).2.results
        = recorded w.results "Sell Transactions" false "No BSTR tokens to sell") ∧
    (∀ x, (testSellTransactions sellPercentage c taxTester w).1 = .ok (some x) →
      ∃ (userBalance before after : Nat) (σ1 σ2 σ3 σ4 σ5 σ6 : σ),
        c.balanceOf taxTester w.chain = (.ok userBalance, σ1) ∧
        userBalance ≠ 0 ∧
        c.approve SWAP_ROUTER 0 σ1 = (.ok (), σ2) ∧
        c.approve SWAP_ROUTER (userBalance / sellPercentage) σ2 = (.ok (), σ3) ∧
        c.balanceOf BSTR_TOKEN_ADDRESS σ3 = (.ok before, σ4) ∧
        c.swapExactTokensForETHSupportingFeeOnTransferTokens
          (userBalance / sellPercentage) 0 σ4 = (.ok (), σ5) ∧
        c.balanceOf BSTR_TOKEN_ADDRESS σ5 = (.ok after, σ6) ∧
        x = (after : Int) - (before : Int)) ∧
    (∀ (userBalance before after : Nat) (σ1 σ2 σ3 σ4 σ5 σ6 : σ),
      c.balanceOf taxTester w.chain = (.ok userBalance, σ1) →
      userBalance ≠ 0 → sellPercentage ≠ 0 →
      c.approve SWAP_ROUTER 0 σ1 = (.ok (), σ2) →
      c.approve SWAP_ROUTER (userBalance / sellPercentage) σ2 = (.ok (), σ3) →
      c.balanceOf BSTR_TOKEN_ADDRESS σ3 = (.ok before, σ4) →
      c.swapExactTokensForETHSupportingFeeOnTransferTokens
        (userBalance / sellPercentage) 0 σ4 = (.ok (), σ5) →
      c.balanceOf BSTR_TOKEN_ADDRESS σ5 = (.ok after, σ6) →
      (testSellTransactions sellPercentage c taxTester w).1
        = .ok (some ((after : Int) - (before : Int)))) ∧
    Returns (asMethod (testSellTransactions sellPercentage c taxTester)) ∧
    (∀ (suite : SuiteMethods (World σ)) (rw : RunnerWorld (World σ)),
      suite.testSellTransactions = asMethod (testSellTransactions sellPercentage c taxTester) →
      Returns suite.initializeSuite → Returns suite.testContractState →
      Returns suite.testLiquiditySetup → Returns suite.testFeeExclusions →
      Returns suite.testBuyTransactions →
      rw.trace ++ [.initializeSuite, .testContractState, .testLiquiditySetup,
          .testFeeExclusions, .testBuyTransactions, .testSellTransactions,
          .testThresholdTrigger]
        <+: (runAllTests suite rw).2.trace) := by
  have htotal := testSellTransactions_total sellPercentage c taxTester w
  refine ⟨?_, ?_, ?_, ?_, testSellTransactions_returns sellPercentage c taxTester, ?_⟩
  · rcases htotal with ⟨h1, message, h2⟩ |
      ⟨_, before, after, _, _, _, _, _, _, _, _, _, _, _, _, _, _, h1, h2⟩
    · exact Or.inl ⟨h1, message, by rw [h2]; simp [recorded]⟩
    · exact Or.inr ⟨_, h1, by rw [h2]; simp [recorded]⟩
  · intro σ1 hzero
    simp [testSellTransactions, script_tryCatch_apply, script_bind_apply, perform_apply,
      hzero, logTestResult_apply, script_pure_apply, Script.throw]
  · intro x hx
    rcases htotal with ⟨h1, -⟩ |
      ⟨ub, before, after, σ1, σ2, σ3, σ4, σ5, σ6, r1, r2, -, r3, r4, r5, r6, r7, h1, -⟩
    · rw [h1] at hx
      cases hx
    · rw [h1] at hx
      refine ⟨ub, before, after, σ1, σ2, σ3, σ4, σ5, σ6, r1, r2, r3, r4, r5, r6, r7, ?_⟩
      injection hx with hx
      injection hx with hx
      exact hx.symm
  · intro ub before after σ1 σ2 σ3 σ4 σ5 σ6 r1 r2 rp r3 r4 r5 r6 r7
    rw [testSellTransactions_run sellPercentage c taxTester w ub before after
      σ1 σ2 σ3 σ4 σ5 σ6 r1 r2 rp r3 r4 r5 r6 r7]
  · intro suite rw hsell h1 h2 h3 h4 h5
    exact runAllTests_reaches_threshold suite rw h1 h2 h3 h4 h5
      (by rw [hsell]; exact testSellTransactions_returns sellPercentage c taxTester)

/-- Witness of C15: on the sample chain a tester holding 1000 sells 100 and the
test returns the 5 of tax collected; a tester holding nothing gets `null`; in
`runAllTests` of the sample suite the threshold test follows the sell test. -/
theorem sell_test_never_throws_witness :
    (testSellTransactions SELL_PERCENTAGE tallyChain sampleTester (freshWorld (1000, 0))).1
      = .ok (some ((5 : Int) - (0 : Int))) ∧
    (testSellTransactions SELL_PERCENTAGE tallyChain sampleTester (freshWorld (0, 0))).1
      = .ok none ∧
    [.initializeSuite, .testContractState, .testLiquiditySetup, .testFeeExclusions,
        .testBuyTransactions, .testSellTransactions, .testThresholdTrigger]
      <+: (runAllTests sampleSuite (freshRunner (freshWorld (0, 0)))).2.trace :=
  ⟨(sell_test_never_throws SELL_PERCENTAGE tallyChain sampleTester
      (freshWorld (1000, 0))).2.2.2.1 1000 0 5 (1000, 0) (1000, 0) (1000, 0) (1000, 0)
      (900, 5) (900, 5) rfl (by decide) (by decide) rfl rfl rfl rfl rfl,
    ((sell_test_never_throws SELL_PERCENTAGE tallyChain sampleTester
      (freshWorld (0, 0))).2.1 (0, 0) rfl).1,
    (sell_test_never_throws SELL_PERCENTAGE tallyChain sampleTester
      (freshWorld (0, 0))).2.2.2.2.2 sampleSuite (freshRunner (freshWorld (0, 0))) rfl
      (fun _ => rfl) (fun _ => rfl) (fun _ => rfl) (fun _ => rfl) (fun _ => rfl)⟩

/-! ## C16: the amount the sell test sells -/

/-- C16 (on the code): `testSellTransactions` divides the balance by
`SELL_PERCENTAGE` instead of taking that percentage of it.  The two agree for
the configured value 10; with `SELL_PERCENTAGE` set to 20 and a balance of 1000
the test approves and sells 1000 / 20 = 50, while 20 percent of the balance is
floor(1000 * 20 / 100) = 200. -/
theorem sell_amount_divides_by_percentage :
    SELL_PERCENTAGE = 10 ∧
    (∀ b : Nat, b / SELL_PERCENTAGE = b * SELL_PERCENTAGE / 100) ∧
    tallyChain.balanceOf sampleTester (freshWorld ((1000, 0) : Nat × Nat)).chain
      = (.ok 1000, (1000, 0)) ∧
    (testSellTransactions 20 tallyChain sampleTester (freshWorld (1000, 0))).2.calls
      = [ .balanceOf sampleTester,
          .approve SWAP_ROUTER 0,
          .approve SWAP_ROUTER 50,
          .balanceOf BSTR_TOKEN_ADDRESS,
          .swapExactTokensForETHSupportingFeeOnTransferTokens 50 0,
          .balanceOf BSTR_TOKEN_ADDRESS ] ∧
    (testSellTransactions 20 tallyChain sampleTester (freshWorld (1000, 0))).2.results.passed
      = 1 ∧
    1000 * 20 / 100 = 200 := by
  refine ⟨rfl, ?_, rfl, by decide, by decide, by decide⟩
  intro b
  show b / 10 = b * 10 / 100
  omega

end ClaimsSell

/-! ## Lemmas on the liquidity test -/

section LiquidityLemmas

variable {σ : Type}

theorem testLiquiditySetup_read_fails (c : SuiteChain σ) (w : World σ) (message : String)
    (σ1 : σ) (hpair : c.swapPair w.chain = (.error message, σ1)) :
    (testLiquiditySetup c w).1 = .error message ∧
    (testLiquiditySetup c w).2.calls = w.calls ++ [.swapPair] := by
  simp [testLiquiditySetup, script_tryCatch_apply, script_bind_apply, perform_apply, hpair,
    logTestResult_apply, Script.throw]

theorem testLiquiditySetup_zero (c : SuiteChain σ) (w : World σ) (σ1 : σ)
    (hpair : c.swapPair w.chain = (.ok ZeroAddress, σ1)) :
    (testLiquiditySetup c w).1 = .error
      "Pair does not exist or is not deployed. Please fund the pool before running tests." ∧
    (testLiquiditySetup c w).2.calls = w.calls ++ [.swapPair] := by
  simp [testLiquiditySetup, script_tryCatch_apply, script_bind_apply, perform_apply, hpair,
    logTestResult_apply, Script.throw, script_pure_apply]

theorem testLiquiditySetup_code_fails (c : SuiteChain σ) (w : World σ) (pair : Address)
    (message : String) (σ1 σ2 : σ)
    (hpair : c.swapPair w.chain = (.ok pair, σ1)) (hnonzero : pair ≠ ZeroAddress)
    (hcode : c.getCode pair σ1 = (.error message, σ2)) :
    (testLiquiditySetup c w).1 = .error message ∧
    (testLiquiditySetup c w).2.calls = w.calls ++ [.swapPair, .getCode pair] := by
  simp [testLiquiditySetup, script_tryCatch_apply, script_bind_apply, perform_apply, hpair,
    hnonzero, hcode, logTestResult_apply, Script.throw, script_pure_apply]

theorem testLiquiditySetup_no_code (c : SuiteChain σ) (w : World σ) (pair : Address)
    (σ1 σ2 : σ)
    (hpair : c.swapPair w.chain = (.ok pair, σ1)) (hnonzero : pair ≠ ZeroAddress)
    (hcode : c.getCode pair σ1 = (.ok "0x", σ2)) :
    (testLiquiditySetup c w).1 = .error
      "Pair does not exist or is not deployed. Please fund the pool before running tests." ∧
    (testLiquiditySetup c w).2.calls = w.calls ++ [.swapPair, .getCode pair] := by
  simp [testLiquiditySetup, script_tryCatch_apply, script_bind_apply, perform_apply, hpair,
    hnonzero, hcode, logTestResult_apply, Script.throw, script_pure_apply]

theorem testLiquiditySetup_reserves_fail (c : SuiteChain σ) (w : World σ) (pair : Address)
    (code message : String) (σ1 σ2 σ3 : σ)
    (hpair : c.swapPair w.chain = (.ok pair, σ1)) (hnonzero : pair ≠ ZeroAddress)
    (hcode : c.getCode pair σ1 = (.ok code, σ2)) (hdeployed : code ≠ "0x")
    (hreserves : c.getReserves pair σ2 = (.error message, σ3)) :
    (testLiquiditySetup c w).1 = .error message ∧
    (testLiquiditySetup c w).2.calls
      = w.calls ++ [.swapPair, .getCode pair, .getReserves pair] := by
  simp [testLiquiditySetup, script_tryCatch_apply, script_bind_apply, perform_apply, hpair,
    hnonzero, hcode, hdeployed, hreserves, logTestResult_apply, Script.throw,
    script_pure_apply]

theorem testLiquiditySetup_empty (c : SuiteChain σ) (w : World σ) (pair : Address)
    (code : String) (σ1 σ2 σ3 : σ)
    (hpair : c.swapPair w.chain = (.ok pair, σ1)) (hnonzero : pair ≠ ZeroAddress)
    (hcode : c.getCode pair σ1 = (.ok code, σ2)) (hdeployed : code ≠ "0x")
    (hreserves : c.getReserves pair σ2 = (.ok (0, 0), σ3)) :
    (testLiquiditySetup c w).1 = .error
      "Pool exists but has zero liquidity. Please fund the pool before running tests." ∧
    (testLiquiditySetup c w).2.calls
      = w.calls ++ [.swapPair, .getCode pair, .getReserves pair] := by
  simp [testLiquiditySetup, script_tryCatch_apply, script_bind_apply, perform_apply, hpair,
    hnonzero, hcode, hdeployed, hreserves, logTestResult_apply, Script.throw,
    script_pure_apply]

theorem testLiquiditySetup_funded (c : SuiteChain σ) (w : World σ) (pair : Address)
    (code : String) (reserves : Nat × Nat) (σ1 σ2 σ3 : σ)
    (hpair : c.swapPair w.chain = (.ok pair, σ1)) (hnonzero : pair ≠ ZeroAddress)
    (hcode : c.getCode pair σ1 = (.ok code, σ2)) (hdeployed : code ≠ "0x")
    (hreserves : c.getReserves pair σ2 = (.ok reserves, σ3))
    (hfunded : ¬ (reserves.1 = 0 ∧ reserves.2 = 0)) :
    testLiquiditySetup c w
      = (.ok (),
          { chain := σ3
            calls := w.calls ++ [.swapPair, .getCode pair, .getReserves pair]
            results := recorded w.results "Liquidity Setup" true
              "Liquidity is present in the pool."
            console := w.console }) := by
  simp [testLiquiditySetup, script_tryCatch_apply, script_bind_apply, perform_apply, hpair,
    hnonzero, hcode, hdeployed, hreserves, hfunded, logTestResult_apply, Script.throw,
    script_pure_apply]

end LiquidityLemmas

/-! ## C18: the liquidity test -/

section ClaimsLiquidity

variable {σ : Type}

/-- C18: `testLiquiditySetup` verifies that the pool is funded.  It throws when
`swapPair` answers the zero address, when `getCode` answers "0x" for the pair,
and when `getReserves` answers two zero reserves.  It returns exactly when
`swapPair` answers a non-zero address, `getCode` answers code other than "0x"
for it and `getReserves` answers reserves that are not both zero, and it then
records a pass.  For every behaviour of the chain, `getReserves` is called
only for the pair address `swapPair` answered, after that address was found
non-zero and with code. -/
theorem liquidity_setup_checks_pool (c : SuiteChain σ) (w : World σ) :
    (∀ σ1, c.swapPair w.chain = (.ok ZeroAddress, σ1) →
      ∃ message, (testLiquiditySetup c w).1 = .error message) ∧
    (∀ pair σ1 σ2, c.swapPair w.chain = (.ok pair, σ1) →
      c.getCode pair σ1 = (.ok "0x", σ2) →
      ∃ message, (testLiquiditySetup c w).1 = .error message) ∧
    (∀ pair code σ1 σ2 σ3, c.swapPair w.chain = (.ok pair, σ1) → pair ≠ ZeroAddress →
      c.getCode pair σ1 = (.ok code, σ2) → code ≠ "0x" →
      c.getReserves pair σ2 = (.ok (0, 0), σ3) →
      ∃ message, (testLiquiditySetup c w).1 = .error message) ∧
    ((testLiquiditySetup c w).1 = .ok () ↔
      ∃ (pair : Address) (code : String) (reserves : Nat × Nat) (σ1 σ2 σ3 : σ),
        c.swapPair w.chain = (.ok pair, σ1) ∧ pair ≠ ZeroAddress ∧
        c.getCode pair σ1 = (.ok code, σ2) ∧ code ≠ "0x" ∧
        c.getReserves pair σ2 = (.ok reserves, σ3) ∧
        ¬ (reserves.1 = 0 ∧ reserves.2 = 0)) ∧
    ((testLiquiditySetup c w).1 = .ok () →
      (testLiquiditySetup c w).2.results
        = recorded w.results "Liquidity Setup" true "Liquidity is present in the pool.") ∧
    (∃ rest, (testLiquiditySetup c w).2.calls = w.calls ++ rest ∧
      ∀ pair, Call.getReserves pair ∈ rest →
        ∃ (code : String) (σ1 σ2 : σ),
          c.swapPair w.chain = (.ok pair, σ1) ∧ pair ≠ ZeroAddress ∧
          c.getCode pair σ1 = (.ok code, σ2) ∧ code ≠ "0x") := by
  have hzero : ∀ σ1, c.swapPair w.chain = (.ok ZeroAddress, σ1) →
      ∃ message, (testLiquiditySetup c w).1 = .error message :=
    fun σ1 h => ⟨_, (testLiquiditySetup_zero c w σ1 h).1⟩
  have hnocode : ∀ pair σ1 σ2, c.swapPair w.chain = (.ok pair, σ1) →
      c.getCode pair σ1 = (.ok "0x", σ2) →
      ∃ message, (testLiquiditySetup c w).1 = .error message := by
    intro pair σ1 σ2 h1 h2
    by_cases hp : pair = ZeroAddress
    · subst hp
      exact hzero σ1 h1
    · exact ⟨_, (testLiquiditySetup_no_code c w pair σ1 σ2 h1 hp h2).1⟩
  refine ⟨hzero, hnocode, ?_, ?_⟩
  · intro pair code σ1 σ2 σ3 h1 hp h2 hc h3
    exact ⟨_, (testLiquiditySetup_empty c w pair code σ1 σ2 σ3 h1 hp h2 hc h3).1⟩
  rcases h1 : c.swapPair w.chain with ⟨e1 | pair, σ1⟩
  · have hrun := testLiquiditySetup_read_fails c w e1 σ1 h1
    refine ⟨⟨fun h => ?_, fun ⟨_, _, _, _, _, _, h, _⟩ => ?_⟩, fun h => ?_, ⟨_, hrun.2, ?_⟩⟩
    · rw [hrun.1] at h
      cases h
    · cases h
    · rw [hrun.1] at h
      cases h
    · intro p hp
      simp at hp
  by_cases hp : pair = ZeroAddress
  · subst hp
    have hrun := testLiquiditySetup_zero c w σ1 h1
    refine ⟨⟨fun h => ?_, fun ⟨_, _, _, _, _, _, h, hne, _⟩ => ?_⟩, fun h => ?_,
      ⟨_, hrun.2, ?_⟩⟩
    · rw [hrun.1] at h
      cases h
    · injection h with h
      injection h with h
      exact absurd h.symm hne
    · rw [hrun.1] at h
      cases h
    · intro p hp
      simp at hp
  rcases h2 : c.getCode pair σ1 with ⟨e2 | code, σ2⟩
  · have hrun := testLiquiditySetup_code_fails c w pair e2 σ1 σ2 h1 hp h2
    refine ⟨⟨fun h => ?_, fun ⟨_, _, _, _, _, _, h, _, hcode, _⟩ => ?_⟩, fun h => ?_,
      ⟨_, hrun.2, ?_⟩⟩
    · rw [hrun.1] at h
      cases h
    · injection h with h hs
      injection h with h
      subst h
      subst hs
      rw [h2] at hcode
      cases hcode
    · rw [hrun.1] at h
      cases h
    · intro p hp
      simp at hp
  by_cases hc : code = "0x"
  · subst hc
    have hrun := testLiquiditySetup_no_code c w pair σ1 σ2 h1 hp h2
    refine ⟨⟨fun h => ?_, fun ⟨_, _, _, _, _, _, h, _, hcode, hne, _⟩ => ?_⟩, fun h => ?_,
      ⟨_, hrun.2, ?_⟩⟩
    · rw [hrun.1] at h
      cases h
    · injection h with h hs
      injection h with h
      subst h
      subst hs
      rw [h2] at hcode
      injection hcode with hcode
      injection hcode with hcode
      exact absurd hcode.symm hne
    · rw [hrun.1] at h
      cases h
    · intro p hp
      simp at hp
  have hcalled : ∀ p, Call.getReserves p ∈ [Call.swapPair, .getCode pair, .getReserves pair] →
      ∃ (code : String) (τ1 τ2 : σ),
        (Except.ok pair, σ1) = ((.ok p, τ1) : Except String Address × σ) ∧ p ≠ ZeroAddress ∧
        c.getCode p τ1 = (.ok code, τ2) ∧ code ≠ "0x" := by
    intro p hmem
    have hpp : p = pair := by simpa using hmem
    subst hpp
    exact ⟨code, σ1, σ2, rfl, hp, h2, hc⟩
  rcases h3 : c.getReserves pair σ2 with ⟨e3 | reserves, σ3⟩
  · have hrun := testLiquiditySetup_reserves_fail c w pair code e3 σ1 σ2 σ3 h1 hp h2 hc h3
    refine ⟨⟨fun h => ?_, fun ⟨_, _, _, _, _, _, h, _, hcode, _, hres, _⟩ => ?_⟩, fun h => ?_,
      ⟨_, hrun.2, hcalled⟩⟩
    · rw [hrun.1] at h
      cases h
    · injection h with h hs
      injection h with h
      subst h
      subst hs
      rw [h2] at hcode
      injection hcode with hcode hs2
      subst hs2
      rw [h3] at hres
      cases hres
    · rw [hrun.1] at h
      cases h
  by_cases hf : reserves.1 = 0 ∧ reserves.2 = 0
  · have hreserves : reserves = (0, 0) := Prod.ext hf.1 hf.2
    subst hreserves
    have hrun := testLiquiditySetup_empty c w pair code σ1 σ2 σ3 h1 hp h2 hc h3
    refine ⟨⟨fun h => ?_, fun ⟨_, _, _, _, _, _, h, _, hcode, _, hres, hnot⟩ => ?_⟩,
      fun h => ?_, ⟨_, hrun.2, hcalled⟩⟩
    · rw [hrun.1] at h
      cases h
    · injection h with h hs
      injection h with h
      subst h
      subst hs
      rw [h2] at hcode
      injection hcode with hcode hs2
      subst hs2
      rw [h3] at hres
      injection hres with hres
      injection hres with hres
      subst hres
      exact (hnot ⟨rfl, rfl⟩).elim
    · rw [hrun.1] at h
      cases h
  · have hrun := testLiquiditySetup_funded c w pair code reserves σ1 σ2 σ3 h1 hp h2 hc h3 hf
    rw [hrun]
    exact ⟨⟨fun _ => ⟨pair, code, reserves, σ1, σ2, σ3, rfl, hp, h2, hc, h3, hf⟩, fun _ => rfl⟩,
      fun _ => rfl, ⟨_, rfl, hcalled⟩⟩

/-- Witness of C18: a pair without code makes the test throw, a funded pair
lets it return with a pass. -/
theorem liquidity_setup_checks_pool_witness :
    (∃ message,
      (testLiquiditySetup (pairedChain 0x1234 "0x" (5, 7)) (freshWorld (0, 0))).1
        = .error message) ∧
    (testLiquiditySetup (pairedChain 0x1234 "0x6080" (5, 7)) (freshWorld (0, 0))).1 = .ok () ∧
    (testLiquiditySetup (pairedChain 0x1234 "0x6080" (5, 7)) (freshWorld (0, 0))).2.results
      = recorded (freshWorld ((0, 0) : Nat × Nat)).results "Liquidity Setup" true
          "Liquidity is present in the pool." :=
  ⟨(liquidity_setup_checks_pool (pairedChain 0x1234 "0x" (5, 7)) (freshWorld (0, 0))).2.1
      0x1234 (0, 0) (0, 0) rfl rfl,
    (liquidity_setup_checks_pool (pairedChain 0x1234 "0x6080" (5, 7))
      (freshWorld (0, 0))).2.2.2.1.mpr
      ⟨0x1234, "0x6080", (5, 7), (0, 0), (0, 0), (0, 0), rfl, by decide, rfl, by decide, rfl,
        by decide⟩,
    (liquidity_setup_checks_pool (pairedChain 0x1234 "0x6080" (5, 7))
      (freshWorld (0, 0))).2.2.2.2.1
      ((liquidity_setup_checks_pool (pairedChain 0x1234 "0x6080" (5, 7))
        (freshWorld (0, 0))).2.2.2.1.mpr
        ⟨0x1234, "0x6080", (5, 7), (0, 0), (0, 0), (0, 0), rfl, by decide, rfl, by decide, rfl,
          by decide⟩)⟩

end ClaimsLiquidity


/-! ## Lemmas on the automatic-processing test -/

section AutoProcessingLemmas

variable {σ : Type}

/-- The run of `testAutomaticProcessing` that finds the tester without tokens. -/
theorem testAutomaticProcessing_no_tokens (c : Chain σ) (taxTester : Address) (w : World σ)
    (cb ts : Nat) (σ1 σ2 σ3 : σ)
    (h1 : c.balanceOf BSTR_TOKEN_ADDRESS w.chain = (.ok cb, σ1))
    (h2 : c.totalSupply σ1 = (.ok ts, σ2)) (hge : ts / 10000 ≤ cb)
    (h3 : c.balanceOf taxTester σ2 = (.ok 0, σ3)) :
    testAutomaticProcessing c taxTester w
      = (.error "No BSTR tokens to sell for automatic processing test",
          { chain := σ3
            calls := w.calls ++ [.balanceOf BSTR_TOKEN_ADDRESS, .totalSupply,
              .balanceOf taxTester]
            results := recorded w.results "Automatic Processing" false
              "No BSTR tokens to sell for automatic processing test"
            console := w.console }) := by
  have hnlt : ¬ cb < ts / 10000 := Nat.not_lt.mpr hge
  simp [testAutomaticProcessing, script_tryCatch_apply, script_bind_apply, perform_apply, h1, h2,
    hnlt, h3, logTestResult_apply, script_pure_apply, Script.throw]

/-- The run of `testAutomaticProcessing` in which the sell goes through. -/
theorem testAutomaticProcessing_run (c : Chain σ) (taxTester : Address) (w : World σ)
    (cb ts userBalance before after : Nat) (σ1 σ2 σ3 σ4 σ5 σ6 σ7 : σ)
    (h1 : c.balanceOf BSTR_TOKEN_ADDRESS w.chain = (.ok cb, σ1))
    (h2 : c.totalSupply σ1 = (.ok ts, σ2)) (hge : ts / 10000 ≤ cb)
    (h3 : c.balanceOf taxTester σ2 = (.ok userBalance, σ3)) (hpositive : userBalance ≠ 0)
    (h4 : c.approve SWAP_ROUTER (userBalance / 100) σ3 = (.ok (), σ4))
    (h5 : c.balanceOf BSTR_TOKEN_ADDRESS σ4 = (.ok before, σ5))
    (h6 : c.swapExactTokensForETHSupportingFeeOnTransferTokens (userBalance / 100) 0 σ5
      = (.ok (), σ6))
    (h7 : c.balanceOf BSTR_TOKEN_ADDRESS σ6 = (.ok after, σ7)) :
    testAutomaticProcessing c taxTester w
      = (.ok (decide (after < before)),
          { chain := σ7
            calls := w.calls ++ [.balanceOf BSTR_TOKEN_ADDRESS, .totalSupply,
              .balanceOf taxTester, .approve SWAP_ROUTER (userBalance / 100),
              .balanceOf BSTR_TOKEN_ADDRESS,
              .swapExactTokensForETHSupportingFeeOnTransferTokens (userBalance / 100) 0,
              .balanceOf BSTR_TOKEN_ADDRESS]
            results := recorded w.results "Automatic Processing" (decide (after < before))
              (if after < before then "Automatic processing triggered successfully"
               else "No automatic processing detected")
            console := w.console }) := by
  have hnlt : ¬ cb < ts / 10000 := Nat.not_lt.mpr hge
  simp [testAutomaticProcessing, script_tryCatch_apply, script_bind_apply, perform_apply, h1, h2,
    hnlt, h3, hpositive, h4, h5, h6, h7, logTestResult_apply, script_pure_apply]

/-- Every call `testAutomaticProcessing` submits is a read or the gated approval
and sell, whatever the chain answers. -/
theorem testAutomaticProcessing_gated (c : Chain σ) (taxTester : Address) (w : World σ)
    (cb ts : Nat) (σ1 σ2 : σ)
    (h1 : c.balanceOf BSTR_TOKEN_ADDRESS w.chain = (.ok cb, σ1))
    (h2 : c.totalSupply σ1 = (.ok ts, σ2)) :
    ∃ rest, (testAutomaticProcessing c taxTester w).2.calls = w.calls ++ rest ∧
      ∀ call ∈ rest, GatedCall c taxTester cb ts σ2 call := by
  have hB : GatedCall c taxTester cb ts σ2 (.balanceOf BSTR_TOKEN_ADDRESS) := Or.inl rfl
  have hT : GatedCall c taxTester cb ts σ2 .totalSupply := Or.inr (Or.inl rfl)
  have hU : GatedCall c taxTester cb ts σ2 (.balanceOf taxTester) := Or.inr (Or.inr (Or.inl rfl))
  by_cases hlt : cb < ts / 10000
  · rw [testAutomaticProcessing_skip c taxTester w cb ts σ1 σ2 h1 h2 hlt]
    refine ⟨[.balanceOf BSTR_TOKEN_ADDRESS, .totalSupply], rfl, ?_⟩
    intro call hmem
    simp only [List.mem_cons, List.mem_singleton, List.not_mem_nil, or_false] at hmem
    rcases hmem with rfl | rfl
    · exact hB
    · exact hT
  have hge : ts / 10000 ≤ cb := Nat.le_of_not_lt hlt
  rcases h3 : c.balanceOf taxTester σ2 with ⟨e3 | userBalance, σ3⟩
  · refine ⟨[.balanceOf BSTR_TOKEN_ADDRESS, .totalSupply, .balanceOf taxTester], ?_, ?_⟩
    · simp [testAutomaticProcessing, script_tryCatch_apply, script_bind_apply, perform_apply,
        h1, h2, hlt, h3, logTestResult_apply, script_pure_apply, Script.throw]
    · intro call hmem
      simp only [List.mem_cons, List.mem_singleton, List.not_mem_nil, or_false] at hmem
      rcases hmem with rfl | rfl | rfl
      · exact hB
      · exact hT
      · exact hU
  by_cases hzero : userBalance = 0
  · subst hzero
    rw [testAutomaticProcessing_no_tokens c taxTester w cb ts σ1 σ2 σ3 h1 h2 hge h3]
    refine ⟨[.balanceOf BSTR_TOKEN_ADDRESS, .totalSupply, .balanceOf taxTester], rfl, ?_⟩
    intro call hmem
    simp only [List.mem_cons, List.mem_singleton, List.not_mem_nil, or_false] at hmem
    rcases hmem with rfl | rfl | rfl
    · exact hB
    · exact hT
    · exact hU
  have hA : GatedCall c taxTester cb ts σ2 (.approve SWAP_ROUTER (userBalance / 100)) :=
    Or.inr (Or.inr (Or.inr ⟨hge, userBalance, σ3, h3, hzero, Or.inl rfl⟩))
  have hS : GatedCall c taxTester cb ts σ2
      (.swapExactTokensForETHSupportingFeeOnTransferTokens (userBalance / 100) 0) :=
    Or.inr (Or.inr (Or.inr ⟨hge, userBalance, σ3, h3, hzero, Or.inr rfl⟩))
  rcases h4 : c.approve SWAP_ROUTER (userBalance / 100) σ3 with ⟨e4 | u4, σ4⟩
  · refine ⟨[.balanceOf BSTR_TOKEN_ADDRESS, .totalSupply, .balanceOf taxTester,
      .approve SWAP_ROUTER (userBalance / 100)], ?_, ?_⟩
    · simp [testAutomaticProcessing, script_tryCatch_apply, script_bind_apply, perform_apply,
        h1, h2, hlt, h3, hzero, h4, logTestResult_apply, script_pure_apply, Script.throw]
    · intro call hmem
      simp only [List.mem_cons, List.mem_singleton, List.not_mem_nil, or_false] at hmem
      rcases hmem with rfl | rfl | rfl | rfl
      · exact hB
      · exact hT
      · exact hU
      · exact hA
  rcases h5 : c.balanceOf BSTR_TOKEN_ADDRESS σ4 with ⟨e5 | before, σ5⟩
  · refine ⟨[.balanceOf BSTR_TOKEN_ADDRESS, .totalSupply, .balanceOf taxTester,
      .approve SWAP_ROUTER (userBalance / 100), .balanceOf BSTR_TOKEN_ADDRESS], ?_, ?_⟩
    · simp [testAutomaticProcessing, script_tryCatch_apply, script_bind_apply, perform_apply,
        h1, h2, hlt, h3, hzero, h4, h5, logTestResult_apply, script_pure_apply, Script.throw]
    · intro call hmem
      simp only [List.mem_cons, List.mem_singleton, List.not_mem_nil, or_false] at hmem
      rcases hmem with rfl | rfl | rfl | rfl | rfl
      · exact hB
      · exact hT
      · exact hU
      · exact hA
      · exact hB
  rcases h6 : c.swapExactTokensForETHSupportingFeeOnTransferTokens (userBalance / 100) 0 σ5
    with ⟨e6 | u6, σ6⟩
  · refine ⟨[.balanceOf BSTR_TOKEN_ADDRESS, .totalSupply, .balanceOf taxTester,
      .approve SWAP_ROUTER (userBalance / 100), .balanceOf BSTR_TOKEN_ADDRESS,
      .swapExactTokensForETHSupportingFeeOnTransferTokens (userBalance / 100) 0], ?_, ?_⟩
    · simp [testAutomaticProcessing, script_tryCatch_apply, script_bind_apply, perform_apply,
        h1, h2, hlt, h3, hzero, h4, h5, h6, logTestResult_apply, script_pure_apply,
        Script.throw]
    · intro call hmem
      simp only [List.mem_cons, List.mem_singleton, List.not_mem_nil, or_false] at hmem
      rcases hmem with rfl | rfl | rfl | rfl | rfl | rfl
      · exact hB
      · exact hT
      · exact hU
      · exact hA
      · exact hB
      · exact hS
  have hall : ∀ call ∈ [Call.balanceOf BSTR_TOKEN_ADDRESS, .totalSupply, .balanceOf taxTester,
      .approve SWAP_ROUTER (userBalance / 100), .balanceOf BSTR_TOKEN_ADDRESS,
      .swapExactTokensForETHSupportingFeeOnTransferTokens (userBalance / 100) 0,
      .balanceOf BSTR_TOKEN_ADDRESS], GatedCall c taxTester cb ts σ2 call := by
    intro call hmem
    simp only [List.mem_cons, List.mem_singleton, List.not_mem_nil, or_false] at hmem
    rcases hmem with rfl | rfl | rfl | rfl | rfl | rfl | rfl
    · exact hB
    · exact hT
    · exact hU
    · exact hA
    · exact hB
    · exact hS
    · exact hB
  rcases h7 : c.balanceOf BSTR_TOKEN_ADDRESS σ6 with ⟨e7 | after, σ7⟩
  · refine ⟨_, ?_, hall⟩
    simp [testAutomaticProcessing, script_tryCatch_apply, script_bind_apply, perform_apply,
      h1, h2, hlt, h3, hzero, h4, h5, h6, h7, logTestResult_apply, script_pure_apply,
      Script.throw]
  · rw [testAutomaticProcessing_run c taxTester w cb ts userBalance before after
      σ1 σ2 σ3 σ4 σ5 σ6 σ7 h1 h2 hge h3 hzero h4 h5 h6 h7]
    exact ⟨_, rfl, hall⟩

end AutoProcessingLemmas

/-! ## C21: the automatic-processing test is sell-triggered and threshold-gated -/

section ClaimsAutoProcessing

variable {σ : Type}

/-- C21 (amended): `testAutomaticProcessing` is sell-triggered and
threshold-gated.  Once its reads of the self-balance and of the supply are
answered: if the self-balance is below floor(totalSupply / 10000) it submits
no approval and no sell, returns false and records a passed result.
Otherwise, if the tester holds no tokens, it submits no approval and no sell,
records a failed result and throws; if the tester holds tokens and the
approval, the sell and the two self-balance reads around the sell are
answered, it approves and sells floor(userBalance / 100) and returns true
(recording the test as passed) iff the self-balance after the sell is
strictly less than before it, and false (recording it as failed) otherwise.
Whatever the chain answers, an approval or a sell is submitted only when the
threshold is reached and the tester holds tokens, always for
floor(userBalance / 100), and `processFees` is never called. -/
theorem auto_processing_sell_triggered (c : Chain σ) (taxTester : Address) (w : World σ)
    (cb ts : Nat) (σ1 σ2 : σ)
    (h1 : c.balanceOf BSTR_TOKEN_ADDRESS w.chain = (.ok cb, σ1))
    (h2 : c.totalSupply σ1 = (.ok ts, σ2)) :
    (cb < ts / 10000 →
      testAutomaticProcessing c taxTester w
        = (.ok false,
            { chain := σ2
              calls := w.calls ++ [.balanceOf BSTR_TOKEN_ADDRESS, .totalSupply]
              results := recorded w.results "Automatic Processing" true
                "Skipped - threshold not reached"
              console := w.console })) ∧
    (ts / 10000 ≤ cb → ∀ σ3, c.balanceOf taxTester σ2 = (.ok 0, σ3) →
      testAutomaticProcessing c taxTester w
        = (.error "No BSTR tokens to sell for automatic processing test",
            { chain := σ3
              calls := w.calls ++ [.balanceOf BSTR_TOKEN_ADDRESS, .totalSupply,
                .balanceOf taxTester]
              results := recorded w.results "Automatic Processing" false
                "No BSTR tokens to sell for automatic processing test"
              console := w.console })) ∧
    (ts / 10000 ≤ cb →
      ∀ (userBalance before after : Nat) (σ3 σ4 σ5 σ6 σ7 : σ),
        c.balanceOf taxTester σ2 = (.ok userBalance, σ3) → userBalance ≠ 0 →
        c.approve SWAP_ROUTER (userBalance / 100) σ3 = (.ok (), σ4) →
        c.balanceOf BSTR_TOKEN_ADDRESS σ4 = (.ok before, σ5) →
        c.swapExactTokensForETHSupportingFeeOnTransferTokens (userBalance / 100) 0 σ5
          = (.ok (), σ6) →
        c.balanceOf BSTR_TOKEN_ADDRESS σ6 = (.ok after, σ7) →
        testAutomaticProcessing c taxTester w
          = (.ok (decide (after < before)),
              { chain := σ7
                calls := w.calls ++ [.balanceOf BSTR_TOKEN_ADDRESS, .totalSupply,
                  .balanceOf taxTester, .approve SWAP_ROUTER (userBalance / 100),
                  .balanceOf BSTR_TOKEN_ADDRESS,
                  .swapExactTokensForETHSupportingFeeOnTransferTokens (userBalance / 100) 0,
                  .balanceOf BSTR_TOKEN_ADDRESS]
                results := recorded w.results "Automatic Processing" (decide (after < before))
                  (if after < before then "Automatic processing triggered successfully"
                   else "No automatic processing detected")
                console := w.console }) ∧
        ((testAutomaticProcessing c taxTester w).1 = .ok true ↔ after < before) ∧
        ((testAutomaticProcessing c taxTester w).1 = .ok false ↔ ¬ after < before)) ∧
    (∃ rest, (testAutomaticProcessing c taxTester w).2.calls = w.calls ++ rest ∧
      (∀ spender amount, Call.approve spender amount ∈ rest →
        ts / 10000 ≤ cb ∧ ∃ userBalance σ3,
          c.balanceOf taxTester σ2 = (.ok userBalance, σ3) ∧ userBalance ≠ 0 ∧
          spender = SWAP_ROUTER ∧ amount = userBalance / 100) ∧
      (∀ amountIn amountOutMin,
        Call.swapExactTokensForETHSupportingFeeOnTransferTokens amountIn amountOutMin ∈ rest →
        ts / 10000 ≤ cb ∧ ∃ userBalance σ3,
          c.balanceOf taxTester σ2 = (.ok userBalance, σ3) ∧ userBalance ≠ 0 ∧
          amountIn = userBalance / 100 ∧ amountOutMin = 0) ∧
      (∀ amount minAmountOut, Call.processFees amount minAmountOut ∉ rest)) := by
  refine ⟨testAutomaticProcessing_skip c taxTester w cb ts σ1 σ2 h1 h2,
    fun hge σ3 h3 => testAutomaticProcessing_no_tokens c taxTester w cb ts σ1 σ2 σ3 h1 h2 hge h3,
    ?_, ?_⟩
  · intro hge userBalance before after σ3 σ4 σ5 σ6 σ7 h3 hpositive h4 h5 h6 h7
    have hrun := testAutomaticProcessing_run c taxTester w cb ts userBalance before after
      σ1 σ2 σ3 σ4 σ5 σ6 σ7 h1 h2 hge h3 hpositive h4 h5 h6 h7
    refine ⟨hrun, ?_, ?_⟩
    · rw [hrun]
      simp
    · rw [hrun]
      simp
  · obtain ⟨rest, hcalls, hgated⟩ := testAutomaticProcessing_gated c taxTester w cb ts σ1 σ2 h1 h2
    refine ⟨rest, hcalls, ?_, ?_, ?_⟩
    · intro spender amount hmem
      rcases hgated _ hmem with h | h | h | ⟨hge, userBalance, σ3, h3, hpositive, h | h⟩
      · cases h
      · cases h
      · cases h
      · injection h with hs ha
        exact ⟨hge, userBalance, σ3, h3, hpositive, hs, ha⟩
      · cases h
    · intro amountIn amountOutMin hmem
      rcases hgated _ hmem with h | h | h | ⟨hge, userBalance, σ3, h3, hpositive, h | h⟩
      · cases h
      · cases h
      · cases h
      · cases h
      · injection h with ha hm
        exact ⟨hge, userBalance, σ3, h3, hpositive, ha, hm⟩
    · intro amount minAmountOut hmem
      rcases hgated _ hmem with h | h | h | ⟨_, _, _, _, _, h | h⟩ <;> cases h

/-- Witness of C21 (amended): on the chain whose contract converts on a sell,
with 100 accrued (the threshold) and a tester holding 1000, the test sells 10
and returns true; on the sample chain with 50 accrued it returns false without
a sell. -/
theorem auto_processing_sell_triggered_witness :
    convertingChain.balanceOf BSTR_TOKEN_ADDRESS (freshWorld ((1000, 100) : Nat × Nat)).chain
      = (.ok 100, (1000, 100)) ∧
    convertingChain.totalSupply (1000, 100) = (.ok 1000000, (1000, 100)) ∧
    (testAutomaticProcessing convertingChain sampleTester (freshWorld (1000, 100))).1
      = .ok true ∧
    (testAutomaticProcessing convertingChain sampleTester (freshWorld (1000, 100))).2.calls
      = (freshWorld ((1000, 100) : Nat × Nat)).calls ++
        [.balanceOf BSTR_TOKEN_ADDRESS, .totalSupply, .balanceOf sampleTester,
          .approve SWAP_ROUTER (1000 / 100), .balanceOf BSTR_TOKEN_ADDRESS,
          .swapExactTokensForETHSupportingFeeOnTransferTokens (1000 / 100) 0,
          .balanceOf BSTR_TOKEN_ADDRESS] ∧
    (testAutomaticProcessing tallyChain sampleTester (freshWorld (1000, 50))).1 = .ok false ∧
    (testAutomaticProcessing tallyChain sampleTester (freshWorld (1000, 50))).2.calls
      = (freshWorld ((1000, 50) : Nat × Nat)).calls
          ++ [.balanceOf BSTR_TOKEN_ADDRESS, .totalSupply] :=
  ⟨rfl, rfl,
    (((auto_processing_sell_triggered convertingChain sampleTester (freshWorld (1000, 100))
        100 1000000 (1000, 100) (1000, 100) rfl rfl).2.2.1 (by decide)
      1000 100 0 (1000, 100) (1000, 100) (1000, 100) (990, 0) (990, 0)
      rfl (by decide) rfl rfl rfl rfl).2.1).mpr (by decide),
    congrArg (fun r => r.2.calls)
      (((auto_processing_sell_triggered convertingChain sampleTester (freshWorld (1000, 100))
        100 1000000 (1000, 100) (1000, 100) rfl rfl).2.2.1 (by decide)
      1000 100 0 (1000, 100) (1000, 100) (1000, 100) (990, 0) (990, 0)
      rfl (by decide) rfl rfl rfl rfl).1),
    congrArg (fun r => r.1)
      ((auto_processing_sell_triggered tallyChain sampleTester (freshWorld (1000, 50))
        50 1000000 (1000, 50) (1000, 50) rfl rfl).1 (by decide)),
    congrArg (fun r => r.2.calls)
      ((auto_processing_sell_triggered tallyChain sampleTester (freshWorld (1000, 50))
        50 1000000 (1000, 50) (1000, 50) rfl rfl).1 (by decide))⟩

/-- C21 counterexample: with the threshold reached (100 accrued, threshold 100)
and a tester holding no tokens, `testAutomaticProcessing` sells nothing and
reports nothing: it submits its three reads only, records a failed result and
throws. -/
theorem auto_processing_no_tokens_counterexample :
    tallyChain.balanceOf BSTR_TOKEN_ADDRESS (freshWorld ((0, 100) : Nat × Nat)).chain
      = (.ok 100, (0, 100)) ∧
    tallyChain.totalSupply (0, 100) = (.ok 1000000, (0, 100)) ∧
    ¬ (100 < 1000000 / 10000) ∧
    tallyChain.balanceOf sampleTester (0, 100) = (.ok 0, (0, 100)) ∧
    (testAutomaticProcessing tallyChain sampleTester (freshWorld (0, 100))).1
      = .error "No BSTR tokens to sell for automatic processing test" ∧
    (¬ ∃ triggered, (testAutomaticProcessing tallyChain sampleTester (freshWorld (0, 100))).1
      = .ok triggered) ∧
    (testAutomaticProcessing tallyChain sampleTester (freshWorld (0, 100))).2.calls
      = [.balanceOf BSTR_TOKEN_ADDRESS, .totalSupply, .balanceOf sampleTester] ∧
    (testAutomaticProcessing tallyChain sampleTester (freshWorld (0, 100))).2.results.passed
      = 0 ∧
    (testAutomaticProcessing tallyChain sampleTester (freshWorld (0, 100))).2.results.failed
      = 1 := by
  have hrun : (testAutomaticProcessing tallyChain sampleTester (freshWorld (0, 100))).1
      = .error "No BSTR tokens to sell for automatic processing test" := rfl
  refine ⟨rfl, rfl, by decide, rfl, hrun, ?_, by decide, by decide, by decide⟩
  rintro ⟨triggered, h⟩
  rw [hrun] at h
  cases h

end ClaimsAutoProcessing

end BSTR
